import Mathlib

/-!
# Device-group rendering test: shallow embedding of `vktDeviceGroupRendering.cpp`

The C++ test instance `DeviceGroupTestInstance` is embedded as pure functions.

* `deUint32` values are natural numbers; every operation that can leave the
  32-bit range is reduced `% 2 ^ 32` explicitly.
* `deInt32` values are integers (`Int`).
* `TCU_THROW` is an `Except TestException _` result.
* Answers of the Vulkan driver (memory properties, peer-memory features) are
  parameters of the functions that query them.
-/

namespace DeviceGroup

/-! ## Machine arithmetic -/

/-- The unsigned shift `1u << n` on `deUint32`. C++ defines it for `n < 32` only;
the value here for `n ≥ 32` is the truncated one (zero). -/
def shl1u (n : Nat) : Nat := (1 <<< n) % 2 ^ 32

/-- The shift `1 << n` on `int`, read back as the `deUint32` it is converted to
wherever the source uses it as a device mask (two's complement). -/
def shl1 (n : Nat) : Nat := (1 <<< n) % 2 ^ 32

/-- Conversion `(deInt32)u` of a `deUint32` value (two's complement). -/
def toInt32 (u : Nat) : Int :=
  if u % 2 ^ 32 < 2 ^ 31 then ((u % 2 ^ 32 : Nat) : Int) else ((u % 2 ^ 32 : Nat) : Int) - 2 ^ 32

/-- Conversion of an `int` to `deUint32` (reduction modulo `2 ^ 32`). -/
def toUint32 (i : Int) : Nat := (i % 2 ^ 32).toNat

/-! ## Test modes (`enum TestModeType`) -/

/-- Split frame rendering. -/
def TEST_MODE_SFR : Nat := 1 <<< 0
/-- Alternate frame rendering. -/
def TEST_MODE_AFR : Nat := 1 <<< 1
/-- Use host memory for the render target. -/
def TEST_MODE_HOSTMEMORY : Nat := 1 <<< 2
/-- Use dedicated allocations. -/
def TEST_MODE_DEDICATED : Nat := 1 <<< 3
/-- Peer vertex attributes from peer memory. -/
def TEST_MODE_PEER_FETCH : Nat := 1 <<< 4
/-- Generate a tessellated sphere instead of a triangle. -/
def TEST_MODE_TESSELLATION : Nat := 1 <<< 5
/-- Draw polygon edges as line segments. -/
def TEST_MODE_LINEFILL : Nat := 1 <<< 6

/-! ## Outcomes raised with `TCU_THROW` -/

/-- The two exception classes the file throws: `NotSupportedError` makes the
framework report the test as not supported (a skip), `TestError` is an error. -/
inductive TestException where
  | NotSupportedError (msg : String)
  | TestError (msg : String)
  deriving DecidableEq, Repr

/-! ## Vulkan memory-type table -/

/-- One entry of `VkPhysicalDeviceMemoryProperties::memoryTypes`. -/
structure VkMemoryType where
  propertyFlags : Nat
  heapIndex : Nat
  deriving DecidableEq, Repr

/-- The part of `VkPhysicalDeviceMemoryProperties` the test reads. `memoryTypes`
is the fixed array `memoryTypes[VK_MAX_MEMORY_TYPES]` (32 entries), given as a
function of the index; `memoryTypeCount` says how many leading entries are valid. -/
structure VkPhysicalDeviceMemoryProperties where
  memoryTypeCount : Nat
  memoryTypes : Nat → VkMemoryType

/-- The body of the `for` loop of `getMemoryIndex`, started at index
`memoryTypeNdx` with `todo = memoryTypeCount - memoryTypeNdx` iterations left;
falling out of the loop reaches the `TCU_THROW`. -/
def getMemoryIndexLoop (deviceMemProps : VkPhysicalDeviceMemoryProperties)
    (memoryTypeBits memoryPropertyFlag : Nat) : Nat → Nat → Except TestException Nat
  | 0, _ => .error (.NotSupportedError "No compatible memory type found")
  | todo + 1, memoryTypeNdx =>
    if (memoryTypeBits &&& shl1u memoryTypeNdx) ≠ 0 ∧
        ((deviceMemProps.memoryTypes memoryTypeNdx).propertyFlags &&& memoryPropertyFlag)
          = memoryPropertyFlag then
      .ok memoryTypeNdx
    else
      getMemoryIndexLoop deviceMemProps memoryTypeBits memoryPropertyFlag todo (memoryTypeNdx + 1)

/-- The method `DeviceGroupTestInstance::getMemoryIndex`; `deviceMemProps` is the answer of
`getPhysicalDeviceMemoryProperties` for the context's physical device. -/
def getMemoryIndex (deviceMemProps : VkPhysicalDeviceMemoryProperties)
    (memoryTypeBits memoryPropertyFlag : Nat) : Except TestException Nat :=
  getMemoryIndexLoop deviceMemProps memoryTypeBits memoryPropertyFlag
    deviceMemProps.memoryTypeCount 0

/-- Statement vocabulary: memory type `j` of the table is compatible with a
resource whose requirement mask is `memoryTypeBits` and with the requested
property flags, i.e. bit `j` of the mask is set and every requested flag bit is
among the property flags of type `j`. -/
def CompatibleType (deviceMemProps : VkPhysicalDeviceMemoryProperties)
    (memoryTypeBits memoryPropertyFlag j : Nat) : Prop :=
  memoryTypeBits.testBit j = true ∧
    ∀ k, memoryPropertyFlag.testBit k = true →
      (deviceMemProps.memoryTypes j).propertyFlags.testBit k = true

/-- A three-entry memory-type table used for concrete evaluations:
type 0 has flags `0x1`, type 1 has flags `0x6`, type 2 has flags `0x7`. -/
def sampleMemProps : VkPhysicalDeviceMemoryProperties where
  memoryTypeCount := 3
  memoryTypes := fun i =>
    if i = 0 then ⟨0x1, 0⟩ else if i = 1 then ⟨0x6, 1⟩ else if i = 2 then ⟨0x7, 0⟩ else ⟨0, 0⟩

/-! ## Rectangles -/

/-- The Vulkan `VkOffset2D` (two `int32_t`). -/
structure VkOffset2D where
  x : Int
  y : Int
  deriving DecidableEq, Repr

/-- The Vulkan `VkExtent2D` (two `uint32_t`). -/
structure VkExtent2D where
  width : Nat
  height : Nat
  deriving DecidableEq, Repr

/-- The Vulkan `VkRect2D`. -/
structure VkRect2D where
  offset : VkOffset2D
  extent : VkExtent2D
  deriving DecidableEq, Repr

/-- The framework vector `tcu::UVec2` (two `deUint32`). -/
structure UVec2 where
  x : Nat
  y : Nat
  deriving DecidableEq, Repr

/-- The local `renderSize (256, 256)` of `iterate`. -/
def renderSize : UVec2 := ⟨256, 256⟩

/-- The local `zeroRect = { {0, 0}, {0, 0} }` of `iterate`. -/
def zeroRect : VkRect2D := ⟨⟨0, 0⟩, ⟨0, 0⟩⟩

/-- Read `v[i]` of a `vector<VkRect2D>`. Every index the source reads is in range;
out of range the value here is `zeroRect`. -/
def rectAt (v : List VkRect2D) (i : Nat) : VkRect2D := v[i]?.getD zeroRect

/-- Statement vocabulary: the pixel `(x, y)` lies in the rectangle `r`. -/
def VkRect2D.covers (r : VkRect2D) (x y : Int) : Prop :=
  r.offset.x ≤ x ∧ x < r.offset.x + (r.extent.width : Int) ∧
    r.offset.y ≤ y ∧ y < r.offset.y + (r.extent.height : Int)

/-- Statement vocabulary: the pixel column `x` lies in the horizontal span of `r`. -/
def VkRect2D.coversColumn (r : VkRect2D) (x : Int) : Prop :=
  r.offset.x ≤ x ∧ x < r.offset.x + (r.extent.width : Int)

/-! ## The test instance -/

/-- The data members of `DeviceGroupTestInstance` that `iterate` reads.
`m_physicalDevices` is the vector of device handles as a function of the index
(entries below `m_physicalDeviceCount` are the devices of the group). -/
structure DeviceGroupTestInstance where
  m_physicalDeviceCount : Nat
  m_physicalDevices : Nat → Nat
  m_testMode : Nat
  m_useHostMemory : Bool
  m_useDedicated : Bool
  m_usePeerFetch : Bool
  m_subsetAllocation : Bool
  m_fillModeNonSolid : Bool
  m_drawTessellatedSphere : Bool

/-- The member initialisers of the constructor `DeviceGroupTestInstance (context, mode)`,
before `init ()` runs: a non-zero masked mode converts to `true`. -/
def DeviceGroupTestInstance.construct (mode : Nat) : DeviceGroupTestInstance where
  m_physicalDeviceCount := 0
  m_physicalDevices := fun _ => 0
  m_testMode := mode
  m_useHostMemory := decide (mode &&& TEST_MODE_HOSTMEMORY ≠ 0)
  m_useDedicated := decide (mode &&& TEST_MODE_DEDICATED ≠ 0)
  m_usePeerFetch := decide (mode &&& TEST_MODE_PEER_FETCH ≠ 0)
  m_subsetAllocation := true
  m_fillModeNonSolid := decide (mode &&& TEST_MODE_LINEFILL ≠ 0)
  m_drawTessellatedSphere := decide (mode &&& TEST_MODE_TESSELLATION ≠ 0)

/-- An instance as `init` leaves it for a group of `count` devices whose
properties report `subsetAllocation`: the constructor's members with
`m_physicalDeviceCount`, `m_physicalDevices` and `m_subsetAllocation` assigned. -/
def DeviceGroupTestInstance.withGroup (mode count : Nat) (subsetAllocation : Bool) :
    DeviceGroupTestInstance :=
  { DeviceGroupTestInstance.construct mode with
    m_physicalDeviceCount := count
    m_physicalDevices := fun idx => idx
    m_subsetAllocation := subsetAllocation }

/-! ## Peer-memory features -/

/-- The answers of the Vulkan driver that `isPeerFetchAllowed` queries:
the memory properties of a physical device (by handle) and
`vkGetDeviceGroupPeerMemoryFeatures (heapIndex, localDeviceIndex, remoteDeviceIndex)`. -/
structure Driver where
  getPhysicalDeviceMemoryProperties : Nat → VkPhysicalDeviceMemoryProperties
  getDeviceGroupPeerMemoryFeatures : Nat → Nat → Nat → Nat

/-- Modelled from the spec: the "generic source" capability of a peer feature set.
The enumerator `VK_PEER_MEMORY_FEATURE_GENERIC_SRC_BIT` is declared in the Vulkan
headers, which are not among the sources; its value there is `0x00000004`. -/
def VK_PEER_MEMORY_FEATURE_GENERIC_SRC_BIT : Nat := 0x4

/-- The method `DeviceGroupTestInstance::isPeerFetchAllowed`. -/
def isPeerFetchAllowed (vk : Driver) (self : DeviceGroupTestInstance)
    (memoryTypeIndex firstdeviceID seconddeviceID : Nat) : Bool :=
  let deviceMemProps1 := vk.getPhysicalDeviceMemoryProperties (self.m_physicalDevices firstdeviceID)
  let deviceMemProps2 := vk.getPhysicalDeviceMemoryProperties (self.m_physicalDevices seconddeviceID)
  let peerMemFeatures1 := vk.getDeviceGroupPeerMemoryFeatures
    (deviceMemProps2.memoryTypes memoryTypeIndex).heapIndex firstdeviceID seconddeviceID
  let peerMemFeatures2 := vk.getDeviceGroupPeerMemoryFeatures
    (deviceMemProps1.memoryTypes memoryTypeIndex).heapIndex seconddeviceID firstdeviceID
  decide (peerMemFeatures1 &&& VK_PEER_MEMORY_FEATURE_GENERIC_SRC_BIT ≠ 0) &&
    decide (peerMemFeatures2 &&& VK_PEER_MEMORY_FEATURE_GENERIC_SRC_BIT ≠ 0)

/-- Statement vocabulary: a peer-memory feature set contains the generic-source
bit (bit 2, the value `0x4`). -/
def hasGenericSrc (peerMemFeatures : Nat) : Prop := peerMemFeatures.testBit 2 = true

/-! ## `iterate`: the loop over device pairs -/

/-- The local `secondDeviceID = (firstDeviceID + 1) % m_physicalDeviceCount`
(`deUint32` arithmetic). -/
def secondDeviceID (m_physicalDeviceCount firstDeviceID : Nat) : Nat :=
  ((firstDeviceID + 1) % 2 ^ 32) % m_physicalDeviceCount

/-- The pairs `(firstDeviceID, secondDeviceID)` of the successive iterations of
`for (physDevID = 0; physDevID < m_physicalDeviceCount; physDevID++)`. -/
def devicePairs (m_physicalDeviceCount : Nat) : List (Nat × Nat) :=
  (List.range m_physicalDeviceCount).map
    fun physDevID => (physDevID, secondDeviceID m_physicalDeviceCount physDevID)

/-- The local `allocDeviceMask` of `iterate`:
`m_subsetAllocation ? (1 << firstDeviceID) | (1 << secondDeviceID) : (1 << m_physicalDeviceCount) - 1`. -/
def allocDeviceMask (self : DeviceGroupTestInstance) (firstDeviceID secondDeviceID : Nat) : Nat :=
  if self.m_subsetAllocation then shl1 firstDeviceID ||| shl1 secondDeviceID
  else toUint32 ((shl1 self.m_physicalDeviceCount : Int) - 1)

/-- The fields of `VkMemoryAllocateFlagsInfo` that vary: whether `pNext` points to
the dedicated-allocation info, and the device mask. -/
structure VkMemoryAllocateFlagsInfo where
  pNextDedicated : Bool
  deviceMask : Nat
  deriving DecidableEq, Repr

/-- The local `allocDeviceMaskInfo` of `iterate`, which `allocInfo.pNext` points to
for the vertex, index, uniform and storage buffer and for the render image. -/
def allocDeviceMaskInfo (self : DeviceGroupTestInstance) (firstDeviceID secondDeviceID : Nat) :
    VkMemoryAllocateFlagsInfo where
  pNextDedicated := self.m_useDedicated
  deviceMask := allocDeviceMask self firstDeviceID secondDeviceID

/-- The `vector<VkRect2D> renderAreas` built before `cmdBeginRenderPass`, for a
render target of size `renderSize`. -/
def renderAreas (renderSize : UVec2) (m_physicalDeviceCount firstDeviceID secondDeviceID : Nat) :
    List VkRect2D :=
  let v0 := List.replicate m_physicalDeviceCount zeroRect
  if m_physicalDeviceCount = 1 then
    let v1 := v0.set 0 { rectAt v0 0 with
      extent := { (rectAt v0 0).extent with width := toUint32 (toInt32 renderSize.x) } }
    v1.set 0 { rectAt v1 0 with
      extent := { (rectAt v1 0).extent with height := toUint32 (toInt32 renderSize.y) } }
  else
    let v1 := v0.set firstDeviceID { rectAt v0 firstDeviceID with
      extent := { (rectAt v0 firstDeviceID).extent with
        width := toUint32 (Int.tdiv (toInt32 renderSize.x) 2) } }
    let v2 := v1.set firstDeviceID { rectAt v1 firstDeviceID with
      extent := { (rectAt v1 firstDeviceID).extent with
        height := toUint32 (toInt32 renderSize.y) } }
    let v3 := v2.set secondDeviceID (rectAt v2 firstDeviceID)
    v3.set secondDeviceID { rectAt v3 secondDeviceID with
      offset := { (rectAt v3 secondDeviceID).offset with
        x := Int.tdiv (toInt32 renderSize.x) 2 } }

/-- The `renderArea` of `passBeginParams`: the whole render target. -/
def fullRenderArea (renderSize : UVec2) : VkRect2D := ⟨⟨0, 0⟩, ⟨renderSize.x, renderSize.y⟩⟩

/-- The `vector<VkRect2D> sfrRects` built in the SFR branch before
`bindImageMemory2` (entry `i * m_physicalDeviceCount + j`, in `deUint32`
arithmetic), for a render target of size `renderSize`. -/
def sfrRects (renderSize : UVec2) (m_physicalDeviceCount firstDeviceID secondDeviceID : Nat) :
    List VkRect2D :=
  let n := m_physicalDeviceCount
  let ff := (firstDeviceID * n + firstDeviceID) % 2 ^ 32
  let fs := (firstDeviceID * n + secondDeviceID) % 2 ^ 32
  let sf := (secondDeviceID * n + firstDeviceID) % 2 ^ 32
  let ss := (secondDeviceID * n + secondDeviceID) % 2 ^ 32
  let v0 := List.replicate ((n * n) % 2 ^ 32) zeroRect
  if n = 1 then
    let v1 := v0.set 0 { rectAt v0 0 with
      extent := { (rectAt v0 0).extent with width := toUint32 (toInt32 renderSize.x) } }
    v1.set 0 { rectAt v1 0 with
      extent := { (rectAt v1 0).extent with height := toUint32 (toInt32 renderSize.y) } }
  else
    let v1 := v0.set ff { rectAt v0 ff with
      extent := { (rectAt v0 ff).extent with
        width := toUint32 (Int.tdiv (toInt32 renderSize.x) 2) } }
    let v2 := v1.set ff { rectAt v1 ff with
      extent := { (rectAt v1 ff).extent with height := toUint32 (toInt32 renderSize.y) } }
    let v3 := v2.set fs (rectAt v2 ff)
    let v4 := v3.set fs { rectAt v3 fs with
      offset := { (rectAt v3 fs).offset with x := Int.tdiv (toInt32 renderSize.x) 2 } }
    let v5 := v4.set sf (rectAt v4 ff)
    v5.set ss (rectAt v5 fs)

/-- The argument of `cmdSetDeviceMask` before the draw:
`1 << secondDeviceID` when `m_testMode & TEST_MODE_AFR`, otherwise
`(1 << firstDeviceID) | (1 << secondDeviceID)`. -/
def drawDeviceMask (self : DeviceGroupTestInstance) (firstDeviceID secondDeviceID : Nat) : Nat :=
  if self.m_testMode &&& TEST_MODE_AFR ≠ 0 then shl1 secondDeviceID
  else shl1 firstDeviceID ||| shl1 secondDeviceID

/-- The `deviceMask` of the render submission. -/
def renderSubmitDeviceMask (firstDeviceID secondDeviceID : Nat) : Nat :=
  shl1 firstDeviceID ||| shl1 secondDeviceID

/-- The `deviceMask` of the peer-copy submission. -/
def peerCopySubmitDeviceMask (secondDeviceID : Nat) : Nat := shl1 secondDeviceID

/-- The `deviceMask` of the readback submission. -/
def readbackSubmitDeviceMask (firstDeviceID : Nat) : Nat := shl1 firstDeviceID

/-- Statement vocabulary: the set of device indices a device mask names. -/
def maskDevices (mask : Nat) : Set Nat := {d | mask.testBit d = true}

/-! ## `init`: capability checks and group selection -/

/-- The fields of `VkPhysicalDeviceGroupProperties` that `init` reads;
`physicalDevices` is the fixed array `physicalDevices[VK_MAX_DEVICE_GROUP_SIZE]`
given as a function of the index. -/
structure VkPhysicalDeviceGroupProperties where
  physicalDeviceCount : Nat
  physicalDevices : Nat → Nat
  subsetAllocation : Bool

/-- The two members of `VkPhysicalDeviceFeatures` that `init` tests. -/
structure VkPhysicalDeviceFeatures where
  tessellationShader : Bool
  fillModeNonSolid : Bool
  deriving DecidableEq, Repr

/-- What `init` and `getDeviceLayers` read from `m_context`, from the command line
and from the instance: the answers of `isInstanceExtensionSupported`,
`isDeviceExtensionSupported` and `isCoreDeviceExtension` for the used API version
(by extension name), the list `getDeviceExtensions ()`, the command-line values
`getVKDeviceGroupId ()` and `getVKDeviceId ()` (both `int`), the result of
`enumeratePhysicalDeviceGroups`, the features of a physical device (by handle),
`isValidationEnabled ()`, and `isLayerSupported` (by layer name). -/
structure Context where
  isInstanceExtensionSupported : String → Bool
  isDeviceExtensionSupported : String → Bool
  isCoreDeviceExtension : String → Bool
  deviceExtensions : List String
  vkDeviceGroupId : Int
  vkDeviceId : Int
  physicalDeviceGroups : List VkPhysicalDeviceGroupProperties
  getPhysicalDeviceFeatures : Nat → VkPhysicalDeviceFeatures
  validationEnabled : Bool
  isLayerSupported : String → Bool

/-- Conversion of an `int` to `size_t` (reduction modulo `2 ^ 64`). -/
def toSizeT (i : Int) : Nat := (i % 2 ^ 64).toNat

/-- The static `s_magicLayer` of `getDeviceLayers`. -/
def s_magicLayer : String := "VK_LAYER_LUNARG_standard_validation"

/-- The static array `s_defaultLayers` of `getDeviceLayers`. -/
def s_defaultLayers : List String :=
  ["VK_LAYER_GOOGLE_threading",
   "VK_LAYER_LUNARG_parameter_validation",
   "VK_LAYER_LUNARG_device_limits",
   "VK_LAYER_LUNARG_object_tracker",
   "VK_LAYER_LUNARG_image",
   "VK_LAYER_LUNARG_core_validation",
   "VK_LAYER_LUNARG_swapchain",
   "VK_LAYER_GOOGLE_unique_objects"]

/-- The method `DeviceGroupTestInstance::getDeviceLayers`, returning the
`enabledLayers` it fills (the vector is empty when it is called). -/
def getDeviceLayers (ctx : Context) : Except TestException (List String) :=
  if ctx.validationEnabled then
    let enabledLayers :=
      if ctx.isLayerSupported s_magicLayer then [s_magicLayer]
      else s_defaultLayers.filter ctx.isLayerSupported
    if enabledLayers.isEmpty then
      .error (.NotSupportedError "No device validation layers found")
    else .ok enabledLayers
  else .ok []

/-- How `init` can stop early: with a thrown exception, or at a read outside the
vector `properties`, for which C++ defines no behaviour. -/
inductive InitStop where
  | exception (e : TestException)
  | undefinedRead
  deriving DecidableEq, Repr

/-- What a completed `init` leaves: the instance members, and the extension and
layer names passed to `createDevice`. -/
structure InitOutput where
  self : DeviceGroupTestInstance
  deviceExtensions : List String
  enabledLayers : List String

/-- The method `DeviceGroupTestInstance::init`, run by the constructor for `mode`.
The driver calls after the checks (`createDevice`, `getDeviceQueue`) are taken
to succeed. -/
def init (ctx : Context) (mode : Nat) : Except InitStop InitOutput :=
  let self := DeviceGroupTestInstance.construct mode
  if !ctx.isInstanceExtensionSupported "VK_KHR_device_group_creation" then
    .error (.exception (.NotSupportedError
      "Device Group tests are not supported, no device group extension present."))
  else if !ctx.isDeviceExtensionSupported "VK_KHR_device_group" then
    .error (.exception (.NotSupportedError "Missing extension: VK_KHR_device_group"))
  else
    let deviceExtensions1 : List String :=
      if !ctx.isCoreDeviceExtension "VK_KHR_device_group" then ["VK_KHR_device_group"] else []
    if self.m_useDedicated && !ctx.isDeviceExtensionSupported "VK_KHR_dedicated_allocation" then
      .error (.exception (.NotSupportedError "Missing extension: VK_KHR_dedicated_allocation"))
    else
      let deviceExtensions2 : List String :=
        if self.m_useDedicated && !ctx.isCoreDeviceExtension "VK_KHR_dedicated_allocation" then
          deviceExtensions1 ++ ["VK_KHR_dedicated_allocation"]
        else deviceExtensions1
      if toSizeT ctx.vkDeviceGroupId > ctx.physicalDeviceGroups.length then
        .error (.exception (.TestError "Invalid device group index."))
      else
        match ctx.physicalDeviceGroups[toSizeT (ctx.vkDeviceGroupId - 1)]? with
        | none => .error .undefinedRead
        | some group =>
          let m_physicalDeviceCount := group.physicalDeviceCount
          if self.m_usePeerFetch && decide (m_physicalDeviceCount < 2) then
            .error (.exception (.NotSupportedError
              "Peer fetching needs more than 1 physical device."))
          else if (decide (self.m_testMode &&& TEST_MODE_AFR = 0) ||
                decide (m_physicalDeviceCount > 1)) &&
              !ctx.deviceExtensions.contains "VK_KHR_bind_memory2" then
            .error (.exception (.NotSupportedError "Missing extension: VK_KHR_bind_memory2"))
          else
            let deviceExtensions3 : List String :=
              if decide (self.m_testMode &&& TEST_MODE_AFR = 0) ||
                  decide (m_physicalDeviceCount > 1) then
                deviceExtensions2 ++ ["VK_KHR_bind_memory2"]
              else deviceExtensions2
            let physicalDevice := group.physicalDevices (toSizeT (ctx.vkDeviceId - 1))
            let enabledDeviceFeatures := ctx.getPhysicalDeviceFeatures physicalDevice
            if self.m_drawTessellatedSphere && !enabledDeviceFeatures.tessellationShader then
              .error (.exception (.NotSupportedError "Tessellation is not supported."))
            else if self.m_fillModeNonSolid && !enabledDeviceFeatures.fillModeNonSolid then
              .error (.exception (.NotSupportedError "Line polygon mode is not supported."))
            else
              match getDeviceLayers ctx with
              | .error e => .error (.exception e)
              | .ok enabledLayers =>
                .ok {
                  self := { self with
                    m_physicalDeviceCount := m_physicalDeviceCount
                    m_physicalDevices := group.physicalDevices
                    m_subsetAllocation := group.subsetAllocation }
                  deviceExtensions := deviceExtensions3
                  enabledLayers := enabledLayers }

/-- A context for concrete evaluations: every extension is supported and none is
core, `VK_KHR_bind_memory2` is listed, validation is off, the device features
are the given ones, and the platform enumerates the given device groups. -/
def sampleContext (groups : List VkPhysicalDeviceGroupProperties) (vkDeviceGroupId : Int)
    (features : VkPhysicalDeviceFeatures) : Context where
  isInstanceExtensionSupported := fun _ => true
  isDeviceExtensionSupported := fun _ => true
  isCoreDeviceExtension := fun _ => false
  deviceExtensions := ["VK_KHR_device_group", "VK_KHR_dedicated_allocation", "VK_KHR_bind_memory2"]
  vkDeviceGroupId := vkDeviceGroupId
  vkDeviceId := 1
  physicalDeviceGroups := groups
  getPhysicalDeviceFeatures := fun _ => features
  validationEnabled := false
  isLayerSupported := fun _ => false

/-- A device group of `count` devices with handles `0, 1, …` reporting subset
allocation, for concrete evaluations. -/
def sampleGroup (count : Nat) : VkPhysicalDeviceGroupProperties where
  physicalDeviceCount := count
  physicalDevices := fun idx => idx
  subsetAllocation := true

/-- The sample context of a platform without the instance extension
`VK_KHR_device_group_creation`. -/
def sampleContextNoCreation : Context :=
  { sampleContext [sampleGroup 2] 1 ⟨true, true⟩ with
    isInstanceExtensionSupported := fun _ => false }

/-- The sample context of a platform whose device extension list lacks
`VK_KHR_bind_memory2`, with one group of `count` devices. -/
def sampleContextNoBindMemory2 (count : Nat) : Context :=
  { sampleContext [sampleGroup count] 1 ⟨true, true⟩ with
    deviceExtensions := ["VK_KHR_device_group"] }

/-! ## `iterate`: precondition checks of one device pair -/

/-- Modelled from the spec: the "device-local" memory property. The enumerator
`VK_MEMORY_PROPERTY_DEVICE_LOCAL_BIT` is declared in the Vulkan headers, which are
not among the sources; its value there is `0x00000001`. -/
def VK_MEMORY_PROPERTY_DEVICE_LOCAL_BIT : Nat := 0x1

/-- The answers of the platform during the loop iteration of one device pair:
the `memoryTypeBits` of the memory requirements of the vertex, index, uniform and
storage buffer and of the render image, whether
`getPhysicalDeviceImageFormatProperties` returns `VK_SUCCESS` for the SFR image
flags, and the result of the image comparison of the pair. -/
structure PairAnswers where
  vertexMemoryTypeBits : Nat
  indexMemoryTypeBits : Nat
  uniformMemoryTypeBits : Nat
  sboMemoryTypeBits : Nat
  sfrFormatSupported : Bool
  imageMemoryTypeBits : Nat
  comparisonResult : Bool
  deriving DecidableEq, Repr

/-- Everything `iterate` asks the platform: the memory properties of the context's
physical device, the driver queries of `isPeerFetchAllowed`, and the answers of
each loop iteration (by `physDevID`). Driver calls wrapped in `VK_CHECK` and the
staging allocations are taken to succeed. -/
structure Platform where
  deviceMemProps : VkPhysicalDeviceMemoryProperties
  vk : Driver
  pair : Nat → PairAnswers

/-- The values `memoryTypeNdx` takes for the five device allocations of one
iteration. -/
structure ChosenMemoryTypes where
  vertex : Nat
  index : Nat
  uniform : Nat
  sbo : Nat
  image : Nat
  deriving DecidableEq, Repr

/-- The memory-type selection and peer check that `iterate` repeats, in the same
words, for the vertex, index, uniform and storage buffer:
`getMemoryIndex (memReqs.memoryTypeBits, VK_MEMORY_PROPERTY_DEVICE_LOCAL_BIT)`
followed by the throw of "Peer fetch is not supported.". -/
def chooseBufferMemory (pf : Platform) (self : DeviceGroupTestInstance)
    (memoryTypeBits firstDeviceID secondDeviceID : Nat) : Except TestException Nat :=
  match getMemoryIndex pf.deviceMemProps memoryTypeBits VK_MEMORY_PROPERTY_DEVICE_LOCAL_BIT with
  | .error e => .error e
  | .ok memoryTypeNdx =>
    if self.m_usePeerFetch &&
        !isPeerFetchAllowed pf.vk self memoryTypeNdx firstDeviceID secondDeviceID then
      .error (.NotSupportedError "Peer fetch is not supported.")
    else .ok memoryTypeNdx

/-- The part of one loop iteration of `iterate` that can throw: buffer and image
creation up to the binding of the render image, all of it before the first
`queueSubmit` of the iteration. -/
def pairPreconditions (pf : Platform) (self : DeviceGroupTestInstance) (physDevID : Nat) :
    Except TestException ChosenMemoryTypes :=
  let firstDeviceID := physDevID
  let secondDeviceID := secondDeviceID self.m_physicalDeviceCount firstDeviceID
  let answers := pf.pair physDevID
  match chooseBufferMemory pf self answers.vertexMemoryTypeBits firstDeviceID secondDeviceID with
  | .error e => .error e
  | .ok vertex =>
  match chooseBufferMemory pf self answers.indexMemoryTypeBits firstDeviceID secondDeviceID with
  | .error e => .error e
  | .ok index =>
  match chooseBufferMemory pf self answers.uniformMemoryTypeBits firstDeviceID secondDeviceID with
  | .error e => .error e
  | .ok uniform =>
  match chooseBufferMemory pf self answers.sboMemoryTypeBits firstDeviceID secondDeviceID with
  | .error e => .error e
  | .ok sbo =>
  if decide (self.m_testMode &&& TEST_MODE_SFR ≠ 0) && !answers.sfrFormatSupported then
    .error (.NotSupportedError "Format not supported for SFR")
  else
    match getMemoryIndex pf.deviceMemProps answers.imageMemoryTypeBits
        (if self.m_useHostMemory then 0 else VK_MEMORY_PROPERTY_DEVICE_LOCAL_BIT) with
    | .error e => .error e
    | .ok image =>
      if decide (self.m_testMode &&& TEST_MODE_SFR ≠ 0) &&
          (self.m_usePeerFetch &&
            !isPeerFetchAllowed pf.vk self image firstDeviceID secondDeviceID) then
        .error (.NotSupportedError "Peer texture reads is not supported.")
      else .ok ⟨vertex, index, uniform, sbo, image⟩

/-- A `tcu::Vec4`; float literals are kept as the decimal values written in the
source. -/
structure Vec4 where
  x : Rat
  y : Rat
  z : Rat
  w : Rat
  deriving DecidableEq, Repr

/-- The local `clearColor (0.125f, 0.25f, 0.75f, 1.0f)` of `iterate`. -/
def clearColor : Vec4 := ⟨0.125, 0.25, 0.75, 1.0⟩

/-- Where the reference image of a comparison comes from: a PNG loaded from the
archive, or `tcu::clear` with a colour followed by `renderReferenceTriangle`. -/
inductive ReferenceImage where
  | loadedPNG (path : String)
  | renderedTriangle (clearColor : Vec4)
  deriving DecidableEq, Repr

/-- The comparison call of one iteration with its arguments: `tcu::fuzzyCompare`
(reference, threshold) or `tcu::intThresholdPositionDeviationCompare` (reference,
the `UVec4` threshold, the `IVec3` position deviation, the flag
`acceptOutOfBoundsAsAnyValue`). -/
inductive ImageComparison where
  | fuzzyCompare (reference : ReferenceImage) (threshold : Rat)
  | intThresholdPositionDeviationCompare (reference : ReferenceImage)
      (threshold : Nat × Nat × Nat × Nat) (posDeviation : Int × Int × Int)
      (acceptOutOfBoundsAsAnyValue : Bool)
  deriving DecidableEq, Repr

/-- The comparison `iterate` performs after the readback:
the branch on `m_drawTessellatedSphere` at "Read results and check against
reference image". -/
def imageComparisonOf (self : DeviceGroupTestInstance) : ImageComparison :=
  if self.m_drawTessellatedSphere then
    .fuzzyCompare
      (.loadedPNG (if self.m_fillModeNonSolid then "vulkan/data/device_group/sphere.png"
        else "vulkan/data/device_group/spherefilled.png"))
      0.001
  else
    .intThresholdPositionDeviationCompare (.renderedTriangle clearColor) (0, 0, 0, 0) (1, 1, 0)
      false

/-! ## `iterate`: submissions and verdict -/

/-- The three `const Unique<VkFence> fence` locals of one iteration, by the block
that creates them. -/
inductive Fence where
  | render
  | peerCopy
  | readback
  deriving DecidableEq, Repr

/-- The observable steps of `iterate`: `queueSubmit` with the device mask of
`deviceGroupSubmitInfo` and the fence passed, `waitForFences` with the fence, the
`waitAll` flag and the timeout, `deviceWaitIdle`, and the image comparison of a
pair with its result. -/
inductive Event where
  | queueSubmit (deviceMask : Nat) (fence : Fence)
  | waitForFences (fence : Fence) (waitAll : Bool) (timeout : Nat)
  | deviceWaitIdle
  | imageComparison (physDevID : Nat) (comparison : ImageComparison) (result : Bool)
  deriving DecidableEq, Repr

/-- The block "Submit & wait for completion": `queueSubmit` with a fresh fence,
`waitForFences (…, DE_TRUE, ~0ull)` on it, `deviceWaitIdle`. -/
def submitAndWait (deviceMask : Nat) (fence : Fence) : List Event :=
  [.queueSubmit deviceMask fence, .waitForFences fence true (2 ^ 64 - 1), .deviceWaitIdle]

/-- The submissions of one loop iteration after its checks: render, peer copy
(inside `if (m_physicalDeviceCount > 1)`), readback. -/
def pairSubmissions (self : DeviceGroupTestInstance) (firstDeviceID secondDeviceID : Nat) :
    List Event :=
  submitAndWait (renderSubmitDeviceMask firstDeviceID secondDeviceID) .render ++
    (if self.m_physicalDeviceCount > 1 then
      submitAndWait (peerCopySubmitDeviceMask secondDeviceID) .peerCopy else []) ++
    submitAndWait (readbackSubmitDeviceMask firstDeviceID) .readback

/-- All events of one loop iteration whose checks passed: the submissions and
the image comparison. -/
def pairEvents (pf : Platform) (self : DeviceGroupTestInstance) (physDevID : Nat) : List Event :=
  pairSubmissions self physDevID (secondDeviceID self.m_physicalDeviceCount physDevID) ++
    [.imageComparison physDevID (imageComparisonOf self) (pf.pair physDevID).comparisonResult]

/-- The value of type `tcu::TestStatus` that `iterate` returns. -/
inductive TestStatus where
  | pass (description : String)
  | fail (description : String)
  deriving DecidableEq, Repr

/-- A run of `iterate`: the events in order, and how it ended (a returned status
or a thrown exception). -/
structure IterateRun where
  events : List Event
  outcome : Except TestException TestStatus

/-- The loop of `iterate` from `physDevID` with `todo = m_physicalDeviceCount -
physDevID` iterations left, after the events `done`. -/
def iterateLoop (pf : Platform) (self : DeviceGroupTestInstance) :
    Nat → Nat → List Event → IterateRun
  | 0, _, done => ⟨done, .ok (.pass "Device group verification passed")⟩
  | todo + 1, physDevID, done =>
    match pairPreconditions pf self physDevID with
    | .error e => ⟨done, .error e⟩
    | .ok _ =>
      let iterateResultSuccess := (pf.pair physDevID).comparisonResult
      if !iterateResultSuccess then
        ⟨done ++ pairEvents pf self physDevID, .ok (.fail "Image comparison failed")⟩
      else
        iterateLoop pf self todo (physDevID + 1) (done ++ pairEvents pf self physDevID)

/-- The method `DeviceGroupTestInstance::iterate`. -/
def iterate (pf : Platform) (self : DeviceGroupTestInstance) : IterateRun :=
  iterateLoop pf self self.m_physicalDeviceCount 0 []

/-- Statement vocabulary: the events of the loop iterations `physDevID, …,
physDevID + n - 1` when all of them run to their end. -/
def eventsOfPairs (pf : Platform) (self : DeviceGroupTestInstance) : Nat → Nat → List Event
  | 0, _ => []
  | n + 1, physDevID => pairEvents pf self physDevID ++ eventsOfPairs pf self n (physDevID + 1)

/-- Statement vocabulary: iteration `physDevID` passes its checks and its image
comparison. -/
def PairPasses (pf : Platform) (self : DeviceGroupTestInstance) (physDevID : Nat) : Prop :=
  (∃ chosen, pairPreconditions pf self physDevID = .ok chosen) ∧
    (pf.pair physDevID).comparisonResult = true

/-! ## `iterate`: the cross-device image copy -/

/-- The Vulkan `VkOffset3D`. -/
structure VkOffset3D where
  x : Int
  y : Int
  z : Int
  deriving DecidableEq, Repr

/-- The Vulkan `VkExtent3D`. -/
structure VkExtent3D where
  width : Nat
  height : Nat
  depth : Nat
  deriving DecidableEq, Repr

/-- The offsets and the extent of a `VkImageCopy` (both subresources are the
colour aspect, mip level 0, layer 0). -/
structure VkImageCopy where
  srcOffset : VkOffset3D
  dstOffset : VkOffset3D
  extent : VkExtent3D
  deriving DecidableEq, Repr

/-- The local `imageCopy` of the block "Copy peer image", recorded when
`m_physicalDeviceCount > 1`, for a render target of size `renderSize`. -/
def imageCopy (renderSize : UVec2) (self : DeviceGroupTestInstance) : VkImageCopy :=
  let imageOffsetX : Int :=
    if self.m_testMode &&& TEST_MODE_AFR ≠ 0 then 0 else toInt32 (renderSize.x % 2 ^ 32 / 2)
  let imageExtentX : Nat :=
    if self.m_testMode &&& TEST_MODE_AFR ≠ 0 then renderSize.x % 2 ^ 32
    else renderSize.x % 2 ^ 32 / 2
  { srcOffset := ⟨imageOffsetX, 0, 0⟩
    dstOffset := ⟨imageOffsetX, 0, 0⟩
    extent := ⟨imageExtentX, renderSize.y % 2 ^ 32, 1⟩ }

/-- A platform for concrete evaluations: the sample memory-type table, every
resource accepting all memory types, the SFR format supported, every comparison
succeeding, and peer features given by `peerFeatures local remote`. -/
def samplePlatform (peerFeatures : Nat → Nat → Nat) : Platform where
  deviceMemProps := sampleMemProps
  vk := { getPhysicalDeviceMemoryProperties := fun _ => sampleMemProps
          getDeviceGroupPeerMemoryFeatures := fun _ l r => peerFeatures l r }
  pair := fun _ => ⟨7, 7, 7, 7, true, 7, true⟩

/-- The sample platform with the image comparison of every pair failing. -/
def samplePlatformFailing : Platform :=
  { samplePlatform (fun _ _ => 4) with pair := fun _ => ⟨7, 7, 7, 7, true, 7, false⟩ }

/-! ## `iterate`: resources, allocations and bindings of one pair -/

/-- The buffer and image handles of one loop iteration of `iterate`, by the local
that holds them. -/
inductive Resource where
  | stagingVertexBuffer
  | stagingIndexBuffer
  | stagingUniformBuffer
  | stagingSboBuffer
  | vertexBuffer
  | indexBuffer
  | uniformBuffer
  | sboBuffer
  | renderImage
  | readImage
  | peerImage
  | readImageBuffer
  deriving DecidableEq, Repr

/-- The `vk::Move<vk::VkDeviceMemory>` locals of one loop iteration: the
allocations made with `allocateMemory`. -/
inductive DeviceMemory where
  | vertexBufferMemory
  | indexBufferMemory
  | uniformBufferMemory
  | sboBufferMemory
  | imageMemory
  deriving DecidableEq, Repr

/-- The `image` and `buffer` members of `VkMemoryDedicatedAllocateInfo`
(`none` for `DE_NULL`). -/
structure VkMemoryDedicatedAllocateInfo where
  image : Option Resource
  buffer : Option Resource
  deriving DecidableEq, Repr

/-- One call `allocateMemory (vk, *m_deviceGroup, &allocInfo)`: the local that
receives the memory, the `VkMemoryAllocateFlagsInfo` that `allocInfo.pNext` points
to, and the value the local `dedicatedAllocInfo` has at the call (it is chained
to the flags info exactly when `pNextDedicated` holds). -/
structure AllocateCall where
  memory : DeviceMemory
  flagsInfo : VkMemoryAllocateFlagsInfo
  dedicatedAllocInfo : VkMemoryDedicatedAllocateInfo
  deriving DecidableEq, Repr

/-- The five `allocateMemory` calls of one loop iteration in source order, with
the assignments to the local `dedicatedAllocInfo` that precede each of them. -/
def deviceAllocations (self : DeviceGroupTestInstance) (firstDeviceID secondDeviceID : Nat) :
    List AllocateCall :=
  let flagsInfo := allocDeviceMaskInfo self firstDeviceID secondDeviceID
  let d0 : VkMemoryDedicatedAllocateInfo := ⟨none, none⟩
  let d1 := { d0 with buffer := some Resource.vertexBuffer }
  let d2 := { d1 with buffer := some Resource.indexBuffer }
  let d3 := { d2 with buffer := some Resource.uniformBuffer }
  let d4 := { d3 with buffer := some Resource.sboBuffer }
  let d5 := { d4 with image := some Resource.renderImage }
  let d6 := { d5 with buffer := none }
  [⟨.vertexBufferMemory, flagsInfo, d1⟩,
   ⟨.indexBufferMemory, flagsInfo, d2⟩,
   ⟨.uniformBufferMemory, flagsInfo, d3⟩,
   ⟨.sboBufferMemory, flagsInfo, d4⟩,
   ⟨.imageMemory, flagsInfo, d6⟩]

/-- The local `deviceIndices` of `iterate`: a vector of `m_physicalDeviceCount`
entries, filled by the loop `deviceIndices[i] = i`, then
`deviceIndices[firstDeviceID] = secondDeviceID` and
`deviceIndices[secondDeviceID] = firstDeviceID`. -/
def deviceIndices (m_physicalDeviceCount firstDeviceID secondDeviceID : Nat) : List Nat :=
  let v0 := List.replicate m_physicalDeviceCount 0
  let v1 := (List.range m_physicalDeviceCount).foldl (fun v i => v.set i i) v0
  let v2 := v1.set firstDeviceID secondDeviceID
  v2.set secondDeviceID firstDeviceID

/-- One memory binding: `bindBufferMemory` / `bindImageMemory` (no device-group
info) or `bindBufferMemory2` / `bindImageMemory2` with the `pDeviceIndices` and
`pSFRRects` tables of its device-group bind info (empty lists for a count of 0). -/
structure BindCall where
  resource : Resource
  memory : DeviceMemory
  deviceIndices : List Nat
  sfrRects : List VkRect2D
  deriving DecidableEq, Repr

/-- The bindings of device memory to the buffers and images of one loop
iteration, in source order: the four buffers (with `deviceIndices` when
`m_usePeerFetch`), the render image (with `sfrRects` in SFR mode), the read
image, and the peer image inside `if (m_physicalDeviceCount > 1)`. -/
def memoryBindings (self : DeviceGroupTestInstance) (firstDeviceID secondDeviceID : Nat) :
    List BindCall :=
  let indices := deviceIndices self.m_physicalDeviceCount firstDeviceID secondDeviceID
  let bufferIndices := if self.m_usePeerFetch then indices else []
  [⟨.vertexBuffer, .vertexBufferMemory, bufferIndices, []⟩,
   ⟨.indexBuffer, .indexBufferMemory, bufferIndices, []⟩,
   ⟨.uniformBuffer, .uniformBufferMemory, bufferIndices, []⟩,
   ⟨.sboBuffer, .sboBufferMemory, bufferIndices, []⟩,
   ⟨.renderImage, .imageMemory, [],
     if self.m_testMode &&& TEST_MODE_SFR ≠ 0 then
       sfrRects renderSize self.m_physicalDeviceCount firstDeviceID secondDeviceID
     else []⟩,
   ⟨.readImage, .imageMemory, [], []⟩] ++
  (if self.m_physicalDeviceCount > 1 then [⟨.peerImage, .imageMemory, indices, []⟩] else [])

/-! ## `iterate`: copies and upload barriers -/

/-- The command `cmdCopyImage` of the block "Copy peer image": source image,
destination image and region. -/
structure CopyImage where
  srcImage : Resource
  dstImage : Resource
  region : VkImageCopy
  deriving DecidableEq, Repr

/-- The `cmdCopyImage (*renderImage, …, *peerImage, …, &imageCopy)` recorded when
`m_physicalDeviceCount > 1`. -/
def peerCopy (renderSize : UVec2) (self : DeviceGroupTestInstance) : CopyImage :=
  ⟨.renderImage, .peerImage, imageCopy renderSize self⟩

/-- The members of `VkBufferImageCopy` that vary (the subresource is the colour
aspect, mip level 0, layer 0). -/
structure VkBufferImageCopy where
  bufferOffset : Nat
  bufferRowLength : Nat
  bufferImageHeight : Nat
  imageOffset : VkOffset3D
  imageExtent : VkExtent3D
  deriving DecidableEq, Repr

/-- The command `cmdCopyImageToBuffer`: source image, destination buffer, region. -/
structure CopyImageToBuffer where
  srcImage : Resource
  dstBuffer : Resource
  region : VkBufferImageCopy
  deriving DecidableEq, Repr

/-- The local `imageSizeBytes = sizeof (deUint32) * renderSize.x () * renderSize.y ()`
(a `VkDeviceSize`, 64 bits), the creation size of `readImageBuffer`. -/
def imageSizeBytes (renderSize : UVec2) : Nat := (4 * renderSize.x * renderSize.y) % 2 ^ 64

/-- The `cmdCopyImageToBuffer (*readImage, …, *readImageBuffer, 1u, &copyParams)` of
the block "copy image to read buffer for checking". -/
def readbackCopy (renderSize : UVec2) : CopyImageToBuffer :=
  ⟨.readImage, .readImageBuffer,
    ⟨0, renderSize.x, renderSize.y, ⟨0, 0, 0⟩, ⟨renderSize.x, renderSize.y, 1⟩⟩⟩

/-- The local `sphereIndices` of `iterate`. -/
def sphereIndices : List Nat :=
  [0, 1, 2, 2, 1, 3, 3, 1, 5, 5, 1, 0, 0, 2, 4, 2, 3, 4, 3, 5, 4, 5, 0, 4]

/-- The local `triIndices` of `iterate`. -/
def triIndices : List Nat := [0, 1, 2]

/-- The local `sphereVertices` of `iterate`. -/
def sphereVertices : List Vec4 :=
  [⟨0, 0, 1, 1⟩, ⟨0, 1, 0, 1⟩, ⟨1, 0, 0, 1⟩, ⟨0, 0, -1, 1⟩, ⟨0, -1, 0, 1⟩, ⟨-1, 0, 0, 1⟩]

/-- The local `triVertices` of `iterate`. -/
def triVertices : List Vec4 := [⟨-0.5, -0.5, 0, 1⟩, ⟨0.5, -0.5, 0, 1⟩, ⟨0, 0.5, 0, 1⟩]

/-- The value of `sizeof (tcu::Vec4)`: four `float`. -/
def sizeofVec4 : Nat := 16

/-- The value of `sizeof (deUint32)`. -/
def sizeofUint32 : Nat := 4

/-- The value of `sizeof (float)`, the size of the local `tessLevel`. -/
def sizeofFloat : Nat := 4

/-- The local `verticesSize` of `iterate`. -/
def verticesSize (self : DeviceGroupTestInstance) : Nat :=
  if self.m_drawTessellatedSphere then sizeofVec4 * sphereVertices.length
  else sizeofVec4 * triVertices.length

/-- The local `indicesSize` of `iterate`. -/
def indicesSize (self : DeviceGroupTestInstance) : Nat :=
  if self.m_drawTessellatedSphere then sizeofUint32 * sphereIndices.length
  else sizeofUint32 * triIndices.length

/-- The `size` member of the `VkBufferCreateInfo` each buffer is created with
(`none` for the image handles). -/
def bufferCreateSize (self : DeviceGroupTestInstance) : Resource → Option Nat
  | .stagingVertexBuffer => some (verticesSize self)
  | .vertexBuffer => some (verticesSize self)
  | .stagingIndexBuffer => some (indicesSize self)
  | .indexBuffer => some (indicesSize self)
  | .stagingUniformBuffer => some sizeofVec4
  | .uniformBuffer => some sizeofVec4
  | .stagingSboBuffer => some sizeofFloat
  | .sboBuffer => some sizeofFloat
  | .readImageBuffer => some (imageSizeBytes renderSize)
  | .renderImage => none
  | .readImage => none
  | .peerImage => none

/-- The `buffer`, `offset` and `size` members of a `VkBufferMemoryBarrier`. -/
structure VkBufferMemoryBarrier where
  buffer : Resource
  offset : Nat
  size : Nat
  deriving DecidableEq, Repr

/-- The buffer memory barriers recorded in the block "Update buffers", in the
order of their `cmdPipelineBarrier` calls: `stagingVertexBufferUpdateBarrier`,
`vertexBufferUpdateBarrier`, `stagingIndexBufferUpdateBarrier`,
`indexBufferUpdateBarrier`, `stagingUboBufferUpdateBarrier`, `uboUpdateBarrier`
and, inside `if (m_drawTessellatedSphere)`, `stagingsboUpdateBarrier` and
`sboUpdateBarrier`. -/
def uploadBarriers (self : DeviceGroupTestInstance) : List VkBufferMemoryBarrier :=
  [⟨.stagingVertexBuffer, 0, verticesSize self⟩,
   ⟨.vertexBuffer, 0, verticesSize self⟩,
   ⟨.stagingIndexBuffer, 0, indicesSize self⟩,
   ⟨.indexBuffer, 0, indicesSize self⟩,
   ⟨.stagingUniformBuffer, 0, indicesSize self⟩,
   ⟨.uniformBuffer, 0, sizeofVec4⟩] ++
  (if self.m_drawTessellatedSphere then
    [⟨.stagingSboBuffer, 0, sizeofFloat⟩, ⟨.sboBuffer, 0, sizeofFloat⟩]
  else [])

/-! ## Test registration -/

/-- The test cases added by `DeviceGroupTestRendering::init`, in order: name and
mode. -/
def registeredCases : List (String × Nat) :=
  [("sfr", TEST_MODE_SFR),
   ("sfr_sys", TEST_MODE_SFR ||| TEST_MODE_HOSTMEMORY),
   ("sfr_dedicated", TEST_MODE_SFR ||| TEST_MODE_DEDICATED),
   ("sfr_dedicated_peer", TEST_MODE_SFR ||| TEST_MODE_DEDICATED ||| TEST_MODE_PEER_FETCH),
   ("afr", TEST_MODE_AFR),
   ("afr_sys", TEST_MODE_AFR ||| TEST_MODE_HOSTMEMORY),
   ("afr_dedicated", TEST_MODE_AFR ||| TEST_MODE_DEDICATED),
   ("afr_dedicated_peer", TEST_MODE_AFR ||| TEST_MODE_DEDICATED ||| TEST_MODE_PEER_FETCH),
   ("sfr_tessellated",
     TEST_MODE_SFR ||| TEST_MODE_TESSELLATION ||| TEST_MODE_DEDICATED ||| TEST_MODE_PEER_FETCH),
   ("sfr_tessellated_linefill",
     TEST_MODE_SFR ||| TEST_MODE_TESSELLATION ||| TEST_MODE_LINEFILL ||| TEST_MODE_DEDICATED
       ||| TEST_MODE_PEER_FETCH),
   ("afr_tessellated",
     TEST_MODE_AFR ||| TEST_MODE_TESSELLATION ||| TEST_MODE_DEDICATED ||| TEST_MODE_PEER_FETCH),
   ("afr_tessellated_linefill",
     TEST_MODE_AFR ||| TEST_MODE_TESSELLATION ||| TEST_MODE_LINEFILL ||| TEST_MODE_DEDICATED
       ||| TEST_MODE_PEER_FETCH)]

/-- Statement vocabulary: the string `s` begins with the string `p`. -/
def beginsWith (p s : String) : Prop := s.data.take p.length = p.data

/-- Whether a string begins with another can be computed. -/
instance beginsWith.decidable (p s : String) : Decidable (beginsWith p s) := by
  unfold beginsWith
  infer_instance

/-! ## Further sample data and statement vocabulary -/

/-- The sample platform with a render image that accepts memory types 1 and 2
only. -/
def samplePlatformImageBits : Platform :=
  { samplePlatform (fun _ _ => 4) with pair := fun _ => ⟨7, 7, 7, 7, true, 6, true⟩ }

/-- Statement vocabulary: the left half of the 256x256 target. -/
def leftHalfRect : VkRect2D := ⟨⟨0, 0⟩, ⟨128, 256⟩⟩

/-- Statement vocabulary: the right half of the 256x256 target. -/
def rightHalfRect : VkRect2D := ⟨⟨128, 0⟩, ⟨128, 256⟩⟩

/-! ## Theorems -/

/-- The loop test `memoryTypeBits & (1u << j)` sees bit `j` of the mask. -/
theorem land_shl1u_ne_zero (bits j : Nat) (hj : j < 32) :
    (bits &&& shl1u j) ≠ 0 ↔ bits.testBit j = true := by
  have hlt : 2 ^ j < 2 ^ 32 := Nat.pow_lt_pow_right (by norm_num) hj
  have hpos : 2 ^ j ≠ 0 := Nat.pos_iff_ne_zero.1 (Nat.pos_pow_of_pos j (by norm_num))
  unfold shl1u
  rw [Nat.one_shiftLeft, Nat.mod_eq_of_lt hlt, Nat.and_two_pow]
  cases h : bits.testBit j <;> simp [hpos]

/-- The loop test `(flags & req) == req` is containment of the requested bits. -/
theorem land_eq_iff_subset (flags req : Nat) :
    flags &&& req = req ↔ ∀ k, req.testBit k = true → flags.testBit k = true := by
  constructor
  · intro h k hk
    have := congrArg (fun n => n.testBit k) h
    simp only [Nat.testBit_land, hk, Bool.and_true] at this
    exact this
  · intro h
    apply Nat.eq_of_testBit_eq
    intro k
    rw [Nat.testBit_land]
    cases hk : req.testBit k
    · simp
    · simp [h k hk]

/-- The loop condition of `getMemoryIndex` at an index below 32 is `CompatibleType`. -/
theorem loopCond_iff_compatible (p : VkPhysicalDeviceMemoryProperties) (bits flag j : Nat)
    (hj : j < 32) :
    ((bits &&& shl1u j) ≠ 0 ∧ ((p.memoryTypes j).propertyFlags &&& flag) = flag) ↔
      CompatibleType p bits flag j := by
  unfold CompatibleType
  rw [land_shl1u_ne_zero bits j hj, land_eq_iff_subset]

/-- What the loop returns: the first compatible index at or after the start. -/
theorem getMemoryIndexLoop_ok (p : VkPhysicalDeviceMemoryProperties) (bits flag : Nat) :
    ∀ (todo ndx i : Nat), ndx + todo ≤ 32 →
      getMemoryIndexLoop p bits flag todo ndx = .ok i →
      ndx ≤ i ∧ i < ndx + todo ∧ CompatibleType p bits flag i ∧
        ∀ j, ndx ≤ j → j < i → ¬ CompatibleType p bits flag j := by
  intro todo
  induction todo with
  | zero =>
    intro ndx i _ h
    simp [getMemoryIndexLoop] at h
  | succ todo ih =>
    intro ndx i hb h
    rw [getMemoryIndexLoop] at h
    split at h
    · rename_i hc
      have hi : ndx = i := by injection h
      subst hi
      refine ⟨le_refl _, by omega, (loopCond_iff_compatible p bits flag ndx (by omega)).1 hc, ?_⟩
      intro j h1 h2
      omega
    · rename_i hc
      obtain ⟨h1, h2, h3, h4⟩ := ih (ndx + 1) i (by omega) h
      refine ⟨by omega, by omega, h3, ?_⟩
      intro j hj1 hj2
      by_cases hjn : j = ndx
      · subst hjn
        exact fun hq => hc ((loopCond_iff_compatible p bits flag j (by omega)).2 hq)
      · exact h4 j (by omega) hj2

/-- When the loop throws: the exception is the not-supported one and no index in
the scanned range is compatible. -/
theorem getMemoryIndexLoop_error (p : VkPhysicalDeviceMemoryProperties) (bits flag : Nat) :
    ∀ (todo ndx : Nat) (e : TestException), ndx + todo ≤ 32 →
      getMemoryIndexLoop p bits flag todo ndx = .error e →
      e = .NotSupportedError "No compatible memory type found" ∧
        ∀ j, ndx ≤ j → j < ndx + todo → ¬ CompatibleType p bits flag j := by
  intro todo
  induction todo with
  | zero =>
    intro ndx e _ h
    simp only [getMemoryIndexLoop] at h
    refine ⟨by injection h with h; exact h.symm, ?_⟩
    intro j h1 h2
    omega
  | succ todo ih =>
    intro ndx e hb h
    rw [getMemoryIndexLoop] at h
    split at h
    · cases h
    · rename_i hc
      obtain ⟨h1, h2⟩ := ih (ndx + 1) e (by omega) h
      refine ⟨h1, ?_⟩
      intro j hj1 hj2
      by_cases hjn : j = ndx
      · subst hjn
        exact fun hq => hc ((loopCond_iff_compatible p bits flag j (by omega)).2 hq)
      · exact h2 j (by omega) (by omega)

/-- C1: whenever `getMemoryIndex` returns an index `i` for a table of at most 32
memory types, `i` is below `memoryTypeCount`, bit `i` of `memoryTypeBits` is set,
the property flags of type `i` contain every requested flag, and no smaller index
satisfies both conditions: `i` is the first compatible memory type. -/
theorem getMemoryIndex_returns_first_compatible (deviceMemProps : VkPhysicalDeviceMemoryProperties)
    (memoryTypeBits memoryPropertyFlag i : Nat)
    (hcount : deviceMemProps.memoryTypeCount ≤ 32)
    (hret : getMemoryIndex deviceMemProps memoryTypeBits memoryPropertyFlag = .ok i) :
    i < deviceMemProps.memoryTypeCount ∧
      memoryTypeBits.testBit i = true ∧
      (∀ k, memoryPropertyFlag.testBit k = true →
        (deviceMemProps.memoryTypes i).propertyFlags.testBit k = true) ∧
      ∀ j, j < i → ¬ (memoryTypeBits.testBit j = true ∧
        ∀ k, memoryPropertyFlag.testBit k = true →
          (deviceMemProps.memoryTypes j).propertyFlags.testBit k = true) := by
  obtain ⟨_, h2, h3, h4⟩ :=
    getMemoryIndexLoop_ok deviceMemProps memoryTypeBits memoryPropertyFlag
      deviceMemProps.memoryTypeCount 0 i (by omega) hret
  exact ⟨by omega, h3.1, h3.2, fun j hj => h4 j (Nat.zero_le j) hj⟩

/-- C1 at a concrete table: with requirement mask `0b110` and requested flags
`0x3`, type 1 (flags `0x6`) is passed over and type 2 (flags `0x7`) is returned. -/
theorem getMemoryIndex_returns_first_compatible_witness :
    getMemoryIndex sampleMemProps 6 3 = .ok 2 ∧
      (2 < sampleMemProps.memoryTypeCount ∧
        (6 : Nat).testBit 2 = true ∧
        (∀ k, (3 : Nat).testBit k = true →
          (sampleMemProps.memoryTypes 2).propertyFlags.testBit k = true) ∧
        ∀ j, j < 2 → ¬ ((6 : Nat).testBit j = true ∧
          ∀ k, (3 : Nat).testBit k = true →
            (sampleMemProps.memoryTypes j).propertyFlags.testBit k = true)) :=
  ⟨rfl, getMemoryIndex_returns_first_compatible sampleMemProps 6 3 2 (by decide) rfl⟩

/-- C2: for a table of at most 32 memory types, `getMemoryIndex` ends in the
not-supported outcome "No compatible memory type found" if and only if no index
below `memoryTypeCount` is compatible (bit set in `memoryTypeBits` and property
flags containing the requested ones); in every other case it returns an index
and raises nothing. -/
theorem getMemoryIndex_not_supported_iff (deviceMemProps : VkPhysicalDeviceMemoryProperties)
    (memoryTypeBits memoryPropertyFlag : Nat)
    (hcount : deviceMemProps.memoryTypeCount ≤ 32) :
    (getMemoryIndex deviceMemProps memoryTypeBits memoryPropertyFlag
        = .error (.NotSupportedError "No compatible memory type found") ↔
      ¬ ∃ j, j < deviceMemProps.memoryTypeCount ∧
        CompatibleType deviceMemProps memoryTypeBits memoryPropertyFlag j) ∧
    ((∃ j, j < deviceMemProps.memoryTypeCount ∧
        CompatibleType deviceMemProps memoryTypeBits memoryPropertyFlag j) →
      ∃ i, getMemoryIndex deviceMemProps memoryTypeBits memoryPropertyFlag = .ok i) := by
  have key : ∀ r, getMemoryIndex deviceMemProps memoryTypeBits memoryPropertyFlag = r →
      (r = .error (.NotSupportedError "No compatible memory type found") ↔
        ¬ ∃ j, j < deviceMemProps.memoryTypeCount ∧
          CompatibleType deviceMemProps memoryTypeBits memoryPropertyFlag j) ∧
      ((∃ j, j < deviceMemProps.memoryTypeCount ∧
          CompatibleType deviceMemProps memoryTypeBits memoryPropertyFlag j) →
        ∃ i, r = .ok i) := by
    intro r hr
    cases r with
    | error e =>
      obtain ⟨he, hno⟩ :=
        getMemoryIndexLoop_error deviceMemProps memoryTypeBits memoryPropertyFlag
          deviceMemProps.memoryTypeCount 0 e (by omega) hr
      have hnone : ¬ ∃ j, j < deviceMemProps.memoryTypeCount ∧
          CompatibleType deviceMemProps memoryTypeBits memoryPropertyFlag j := by
        rintro ⟨j, hj, hq⟩
        exact hno j (Nat.zero_le j) (by omega) hq
      exact ⟨⟨fun _ => hnone, fun _ => by rw [he]⟩, fun hex => absurd hex hnone⟩
    | ok i =>
      obtain ⟨_, h2, h3, _⟩ :=
        getMemoryIndexLoop_ok deviceMemProps memoryTypeBits memoryPropertyFlag
          deviceMemProps.memoryTypeCount 0 i (by omega) hr
      refine ⟨⟨fun h => (nomatch h), fun hno => absurd ⟨i, by omega, h3⟩ hno⟩, fun _ => ⟨i, rfl⟩⟩
  exact key _ rfl

/-- C2 at concrete inputs: requesting flag `0x8`, which no type of the sample
table has, is not supported; requesting `0x3` with mask `0b110` is. -/
theorem getMemoryIndex_not_supported_iff_witness :
    getMemoryIndex sampleMemProps 7 8
        = .error (.NotSupportedError "No compatible memory type found") ∧
      (¬ ∃ j, j < sampleMemProps.memoryTypeCount ∧ CompatibleType sampleMemProps 7 8 j) ∧
      ∃ i, getMemoryIndex sampleMemProps 6 3 = .ok i :=
  ⟨rfl,
   (getMemoryIndex_not_supported_iff sampleMemProps 7 8 (by decide)).1.1 rfl,
   ⟨2, rfl⟩⟩

/-- The partner index is a device of the group. -/
theorem secondDeviceID_lt (N first : Nat) (hN : 1 ≤ N) : secondDeviceID N first < N := by
  unfold secondDeviceID
  exact Nat.mod_lt _ (by omega)

/-- With at least two devices the partner differs from `first`. -/
theorem secondDeviceID_ne (N first : Nat) (hN : 2 ≤ N) (hN32 : N < 2 ^ 32) (hf : first < N) :
    secondDeviceID N first ≠ first := by
  unfold secondDeviceID
  have h1 : (first + 1) % 2 ^ 32 = first + 1 := Nat.mod_eq_of_lt (by omega)
  rw [h1]
  by_cases h : first + 1 < N
  · rw [Nat.mod_eq_of_lt h]; omega
  · have : first + 1 = N := by omega
    rw [this, Nat.mod_self]; omega

/-- The entries of `renderAreas` after the two-device split, for any render size. -/
theorem renderAreas_split (rs : UVec2) (N f s : Nat) (hN : N ≠ 1) (hf : f < N) (hs : s < N)
    (hfs : s ≠ f) :
    (renderAreas rs N f s).length = N ∧
    (renderAreas rs N f s)[f]? =
      some ⟨⟨0, 0⟩, ⟨toUint32 (Int.tdiv (toInt32 rs.x) 2), toUint32 (toInt32 rs.y)⟩⟩ ∧
    (renderAreas rs N f s)[s]? =
      some ⟨⟨Int.tdiv (toInt32 rs.x) 2, 0⟩,
        ⟨toUint32 (Int.tdiv (toInt32 rs.x) 2), toUint32 (toInt32 rs.y)⟩⟩ ∧
    ∀ i, i < N → i ≠ f → i ≠ s → (renderAreas rs N f s)[i]? = some zeroRect := by
  have hfs2 : f ≠ s := fun h => hfs h.symm
  refine ⟨?_, ?_, ?_, ?_⟩
  · simp [renderAreas, hN]
  · simp [renderAreas, hN, rectAt, List.getElem?_set, List.getElem?_replicate, hf, hs, hfs, hfs2,
      zeroRect]
  · simp [renderAreas, hN, rectAt, List.getElem?_set, List.getElem?_replicate, hf, hs, hfs, hfs2,
      zeroRect]
  · intro i hi hif his
    have h1 : f ≠ i := fun h => hif h.symm
    have h2 : s ≠ i := fun h => his h.symm
    simp [renderAreas, hN, rectAt, List.getElem?_set, List.getElem?_replicate, hi, h1, h2]

/-- The value of `(deInt32)renderSize.x() / 2`. -/
theorem renderSize_half : Int.tdiv (toInt32 renderSize.x) 2 = 128 := by decide
/-- The value of `(deInt32)renderSize.x() / 2` stored into a `uint32_t` extent. -/
theorem renderSize_half_u : toUint32 (Int.tdiv (toInt32 renderSize.x) 2) = 128 := by decide
/-- The value of `(deInt32)renderSize.y()` stored into a `uint32_t` extent. -/
theorem renderSize_height_u : toUint32 (toInt32 renderSize.y) = 256 := by decide
/-- The value of `(deInt32)renderSize.x()` stored into a `uint32_t` extent. -/
theorem renderSize_width_u : toUint32 (toInt32 renderSize.x) = 256 := by decide

/-- C3: for every device count `N ≥ 2` and every `first < N`, the render areas
built for the 256x256 target are: entry `first` at offset `(0, 0)` with extent
128x256 (left half), entry `second` at offset `(128, 0)` with extent 128x256
(right half), every other entry the zero rectangle; the two halves do not overlap
and their union is exactly the 256x256 render target. -/
theorem renderAreas_sfr_halves (N first : Nat) (hN : 2 ≤ N) (hN32 : N < 2 ^ 32)
    (hfirst : first < N) :
    (renderAreas renderSize N first (secondDeviceID N first)).length = N ∧
    (renderAreas renderSize N first (secondDeviceID N first))[first]?
      = some ⟨⟨0, 0⟩, ⟨128, 256⟩⟩ ∧
    (renderAreas renderSize N first (secondDeviceID N first))[secondDeviceID N first]?
      = some ⟨⟨128, 0⟩, ⟨128, 256⟩⟩ ∧
    (∀ i, i < N → i ≠ first → i ≠ secondDeviceID N first →
      (renderAreas renderSize N first (secondDeviceID N first))[i]? = some zeroRect) ∧
    (∀ x y : Int,
      ¬ ((rectAt (renderAreas renderSize N first (secondDeviceID N first)) first).covers x y ∧
         (rectAt (renderAreas renderSize N first (secondDeviceID N first))
            (secondDeviceID N first)).covers x y)) ∧
    (∀ x y : Int,
      ((rectAt (renderAreas renderSize N first (secondDeviceID N first)) first).covers x y ∨
       (rectAt (renderAreas renderSize N first (secondDeviceID N first))
          (secondDeviceID N first)).covers x y) ↔
      (0 ≤ x ∧ x < 256 ∧ 0 ≤ y ∧ y < 256)) := by
  obtain ⟨h0, h1, h2, h3⟩ := renderAreas_split renderSize N first (secondDeviceID N first)
    (by omega) hfirst (secondDeviceID_lt N first (by omega)) (secondDeviceID_ne N first hN hN32 hfirst)
  rw [renderSize_half_u, renderSize_height_u] at h1 h2
  rw [renderSize_half] at h2
  refine ⟨h0, h1, h2, h3, ?_, ?_⟩
  · intro x y
    simp only [rectAt, h1, h2, Option.getD_some, VkRect2D.covers]
    push_cast
    omega
  · intro x y
    simp only [rectAt, h1, h2, Option.getD_some, VkRect2D.covers]
    push_cast
    omega

/-- C3 for a group of 3 devices at the wrap-around pair `(2, 0)`. -/
theorem renderAreas_sfr_halves_witness :
    (2 ≤ 3 ∧ 3 < 2 ^ 32 ∧ 2 < 3) ∧
    (renderAreas renderSize 3 2 (secondDeviceID 3 2))[2]? = some ⟨⟨0, 0⟩, ⟨128, 256⟩⟩ ∧
    (renderAreas renderSize 3 2 (secondDeviceID 3 2))[secondDeviceID 3 2]?
      = some ⟨⟨128, 0⟩, ⟨128, 256⟩⟩ ∧
    (∀ i, i < 3 → i ≠ 2 → i ≠ secondDeviceID 3 2 →
      (renderAreas renderSize 3 2 (secondDeviceID 3 2))[i]? = some zeroRect) :=
  ⟨by decide,
   (renderAreas_sfr_halves 3 2 (by decide) (by decide) (by decide)).2.1,
   (renderAreas_sfr_halves 3 2 (by decide) (by decide) (by decide)).2.2.1,
   (renderAreas_sfr_halves 3 2 (by decide) (by decide) (by decide)).2.2.2.1⟩

/-- A table index `a * N + b` with `b < N` determines the row and the column. -/
theorem cellIndex_inj (N a b c d : Nat) (hb : b < N) (hd : d < N)
    (h : a * N + b = c * N + d) : a = c ∧ b = d := by
  have hN : 0 < N := by omega
  have h1 : (a * N + b) / N = a := by
    rw [Nat.add_comm, Nat.add_mul_div_right _ _ hN, Nat.div_eq_of_lt hb, Nat.zero_add]
  have h2 : (c * N + d) / N = c := by
    rw [Nat.add_comm, Nat.add_mul_div_right _ _ hN, Nat.div_eq_of_lt hd, Nat.zero_add]
  have hac : a = c := by rw [← h1, ← h2, h]
  subst hac
  exact ⟨rfl, by omega⟩

/-- A table index `a * N + b` with `a, b < N` is below `N * N`. -/
theorem cellIndex_lt (N a b : Nat) (ha : a < N) (hb : b < N) : a * N + b < N * N := by
  have h1 : (a + 1) * N ≤ N * N := Nat.mul_le_mul_right N ha
  have h2 : (a + 1) * N = a * N + N := by ring
  omega

/-- The entries of `sfrRects` after the two-device split, for any render size. -/
theorem sfrRects_split (rs : UVec2) (N f s : Nat) (hN : N ≠ 1) (hNN : N * N < 2 ^ 32)
    (hf : f < N) (hs : s < N) (hfs : s ≠ f) :
    (sfrRects rs N f s).length = N * N ∧
    (sfrRects rs N f s)[f * N + f]? =
      some ⟨⟨0, 0⟩, ⟨toUint32 (Int.tdiv (toInt32 rs.x) 2), toUint32 (toInt32 rs.y)⟩⟩ ∧
    (sfrRects rs N f s)[f * N + s]? =
      some ⟨⟨Int.tdiv (toInt32 rs.x) 2, 0⟩,
        ⟨toUint32 (Int.tdiv (toInt32 rs.x) 2), toUint32 (toInt32 rs.y)⟩⟩ ∧
    (sfrRects rs N f s)[s * N + f]? =
      some ⟨⟨0, 0⟩, ⟨toUint32 (Int.tdiv (toInt32 rs.x) 2), toUint32 (toInt32 rs.y)⟩⟩ ∧
    (sfrRects rs N f s)[s * N + s]? =
      some ⟨⟨Int.tdiv (toInt32 rs.x) 2, 0⟩,
        ⟨toUint32 (Int.tdiv (toInt32 rs.x) 2), toUint32 (toInt32 rs.y)⟩⟩ ∧
    ∀ i, i < N * N → i ≠ f * N + f → i ≠ f * N + s → i ≠ s * N + f → i ≠ s * N + s →
      (sfrRects rs N f s)[i]? = some zeroRect := by
  have lff := cellIndex_lt N f f hf hf
  have lfs := cellIndex_lt N f s hf hs
  have lsf := cellIndex_lt N s f hs hf
  have lss := cellIndex_lt N s s hs hs
  have mff : (f * N + f) % 2 ^ 32 = f * N + f := Nat.mod_eq_of_lt (by omega)
  have mfs : (f * N + s) % 2 ^ 32 = f * N + s := Nat.mod_eq_of_lt (by omega)
  have msf : (s * N + f) % 2 ^ 32 = s * N + f := Nat.mod_eq_of_lt (by omega)
  have mss : (s * N + s) % 2 ^ 32 = s * N + s := Nat.mod_eq_of_lt (by omega)
  have mNN : (N * N) % 2 ^ 32 = N * N := Nat.mod_eq_of_lt hNN
  have e32 : (2 : Nat) ^ 32 = 4294967296 := by norm_num
  rw [e32] at mff mfs msf mss mNN
  have n1 : f * N + f ≠ f * N + s := by omega
  have n2 : f * N + f ≠ s * N + f := fun h => hfs (cellIndex_inj N f f s f hf hf h).1.symm
  have n3 : f * N + f ≠ s * N + s := fun h => hfs (cellIndex_inj N f f s s hf hs h).1.symm
  have n4 : f * N + s ≠ s * N + f := fun h => hfs (cellIndex_inj N f s s f hs hf h).1.symm
  have n5 : f * N + s ≠ s * N + s := fun h => hfs (cellIndex_inj N f s s s hs hs h).1.symm
  have n6 : s * N + f ≠ s * N + s := by omega
  have n1r := n1.symm
  have n2r := n2.symm
  have n3r := n3.symm
  have n4r := n4.symm
  have n5r := n5.symm
  have n6r := n6.symm
  refine ⟨?_, ?_, ?_, ?_, ?_, ?_⟩
  · simp [sfrRects, hN, mNN]
  · simp [sfrRects, hN, rectAt, List.getElem?_set, List.getElem?_replicate, mff, mfs, msf, mss,
      mNN, lff, lfs, lsf, lss, n1, n2, n3, n4, n5, n6, n1r, n2r, n3r, n4r, n5r, n6r, zeroRect]
  · simp [sfrRects, hN, rectAt, List.getElem?_set, List.getElem?_replicate, mff, mfs, msf, mss,
      mNN, lff, lfs, lsf, lss, n1, n2, n3, n4, n5, n6, n1r, n2r, n3r, n4r, n5r, n6r, zeroRect]
  · simp [sfrRects, hN, rectAt, List.getElem?_set, List.getElem?_replicate, mff, mfs, msf, mss,
      mNN, lff, lfs, lsf, lss, n1, n2, n3, n4, n5, n6, n1r, n2r, n3r, n4r, n5r, n6r, zeroRect]
  · simp [sfrRects, hN, rectAt, List.getElem?_set, List.getElem?_replicate, mff, mfs, msf, mss,
      mNN, lff, lfs, lsf, lss, n1, n2, n3, n4, n5, n6, n1r, n2r, n3r, n4r, n5r, n6r, zeroRect]
  · intro i hi h1 h2 h3 h4
    have h1r := Ne.symm h1
    have h2r := Ne.symm h2
    have h3r := Ne.symm h3
    have h4r := Ne.symm h4
    simp [sfrRects, hN, rectAt, List.getElem?_set, List.getElem?_replicate, mff, mfs, msf, mss,
      mNN, hi, h1r, h2r, h3r, h4r]

/-- A `deUint32` below `2 ^ 31` keeps its value as `deInt32`. -/
theorem toInt32_of_lt (w : Nat) (h : w < 2 ^ 31) : toInt32 w = (w : Int) := by
  unfold toInt32
  have h1 : w % 2 ^ 32 = w := Nat.mod_eq_of_lt (by omega)
  rw [h1, if_pos h]

/-- A non-negative `int` below `2 ^ 32` keeps its value as `deUint32`. -/
theorem toUint32_natCast (k : Nat) (h : k < 2 ^ 32) : toUint32 (k : Int) = k := by
  unfold toUint32
  omega

/-- C++ division by 2 of a non-negative `int` is the floor. -/
theorem tdiv_two_natCast (w : Nat) : Int.tdiv (w : Int) 2 = ((w / 2 : Nat) : Int) := by
  have := Int.ofNat_tdiv w 2
  simpa using this.symm


/-- C4: with a single device the only pair is `(0, 0)` and both the render-area
list and the SFR bind-rectangle table consist of exactly one rectangle, at
offset `(0, 0)` with the extent of the whole 256x256 render target. -/
theorem single_device_region_is_whole_target :
    devicePairs 1 = [(0, 0)] ∧
    renderAreas renderSize 1 0 (secondDeviceID 1 0) = [⟨⟨0, 0⟩, ⟨256, 256⟩⟩] ∧
    sfrRects renderSize 1 0 (secondDeviceID 1 0) = [⟨⟨0, 0⟩, ⟨256, 256⟩⟩] ∧
    fullRenderArea renderSize = ⟨⟨0, 0⟩, ⟨256, 256⟩⟩ := by
  refine ⟨by decide, by decide, by decide, by decide⟩

/-- C5 as stated fails for an odd width: for `W = 3` the right region has width
`1`, not `3 - 1 = 2`, and the last column `2` lies in neither region. -/
theorem split_odd_width_counterexample :
    ¬ ((rectAt (renderAreas ⟨3, 256⟩ 2 0 (secondDeviceID 2 0)) 0).extent.width = 3 / 2 ∧
       (rectAt (renderAreas ⟨3, 256⟩ 2 0 (secondDeviceID 2 0)) (secondDeviceID 2 0)).offset.x
          = ((3 / 2 : Nat) : Int) ∧
       (rectAt (renderAreas ⟨3, 256⟩ 2 0 (secondDeviceID 2 0)) (secondDeviceID 2 0)).extent.width
          = 3 - 3 / 2 ∧
       ∀ x : Int, 0 ≤ x → x < 3 →
        (rectAt (renderAreas ⟨3, 256⟩ 2 0 (secondDeviceID 2 0)) 0).coversColumn x ∨
        (rectAt (renderAreas ⟨3, 256⟩ 2 0 (secondDeviceID 2 0))
          (secondDeviceID 2 0)).coversColumn x) := by
  intro h
  have hw := h.2.2.1
  revert hw
  decide

/-- C5, amended: for a render-target width `1 ≤ W < 2 ^ 31` the two-device split
gives the left region offset 0 and width `W / 2` and the right region offset
`W / 2` and the same width `W / 2`, in the render-area list and in the rows of
devices `first` and `second` of the SFR bind-rectangle table alike; the two
regions are disjoint and cover exactly the columns `[0, 2 * (W / 2))`, which are
all `W` columns when `W` is even, while for odd `W` column `W - 1` is in neither. -/
theorem split_halves_of_width (W H N first : Nat) (hW : 1 ≤ W) (hW31 : W < 2 ^ 31)
    (hN : 2 ≤ N) (hNN : N * N < 2 ^ 32) (hfirst : first < N) :
    (renderAreas ⟨W, H⟩ N first (secondDeviceID N first))[first]?.map
        (fun r => (r.offset.x, r.extent.width)) = some (0, W / 2) ∧
    (renderAreas ⟨W, H⟩ N first (secondDeviceID N first))[secondDeviceID N first]?.map
        (fun r => (r.offset.x, r.extent.width)) = some (((W / 2 : Nat) : Int), W / 2) ∧
    (sfrRects ⟨W, H⟩ N first (secondDeviceID N first))[first * N + first]?.map
        (fun r => (r.offset.x, r.extent.width)) = some (0, W / 2) ∧
    (sfrRects ⟨W, H⟩ N first (secondDeviceID N first))[first * N + secondDeviceID N first]?.map
        (fun r => (r.offset.x, r.extent.width)) = some (((W / 2 : Nat) : Int), W / 2) ∧
    (sfrRects ⟨W, H⟩ N first (secondDeviceID N first))[secondDeviceID N first * N + first]?.map
        (fun r => (r.offset.x, r.extent.width)) = some (0, W / 2) ∧
    (sfrRects ⟨W, H⟩ N first (secondDeviceID N first))[secondDeviceID N first * N
          + secondDeviceID N first]?.map
        (fun r => (r.offset.x, r.extent.width)) = some (((W / 2 : Nat) : Int), W / 2) ∧
    (∀ x : Int,
      ((rectAt (renderAreas ⟨W, H⟩ N first (secondDeviceID N first)) first).coversColumn x ∨
       (rectAt (renderAreas ⟨W, H⟩ N first (secondDeviceID N first))
          (secondDeviceID N first)).coversColumn x) ↔
      (0 ≤ x ∧ x < 2 * ((W / 2 : Nat) : Int))) ∧
    (∀ x : Int,
      ¬ ((rectAt (renderAreas ⟨W, H⟩ N first (secondDeviceID N first)) first).coversColumn x ∧
         (rectAt (renderAreas ⟨W, H⟩ N first (secondDeviceID N first))
            (secondDeviceID N first)).coversColumn x)) ∧
    (W % 2 = 0 → 2 * (W / 2) = W) ∧
    (W % 2 = 1 →
      ¬ (rectAt (renderAreas ⟨W, H⟩ N first (secondDeviceID N first)) first).coversColumn
          ((W : Int) - 1) ∧
      ¬ (rectAt (renderAreas ⟨W, H⟩ N first (secondDeviceID N first))
          (secondDeviceID N first)).coversColumn ((W : Int) - 1)) := by
  have hN32 : N < 2 ^ 32 := by
    have : N * 2 ≤ N * N := Nat.mul_le_mul_left N hN
    omega
  have hs := secondDeviceID_lt N first (by omega)
  have hne := secondDeviceID_ne N first hN hN32 hfirst
  obtain ⟨_, a1, a2, _⟩ := renderAreas_split ⟨W, H⟩ N first (secondDeviceID N first)
    (by omega) hfirst hs hne
  obtain ⟨_, s1, s2, s3, s4, _⟩ := sfrRects_split ⟨W, H⟩ N first (secondDeviceID N first)
    (by omega) hNN hfirst hs hne
  have e1 : Int.tdiv (toInt32 W) 2 = ((W / 2 : Nat) : Int) := by
    rw [toInt32_of_lt W hW31, tdiv_two_natCast]
  have e2 : toUint32 (Int.tdiv (toInt32 W) 2) = W / 2 := by
    rw [e1, toUint32_natCast _ (by omega)]
  rw [e2] at a1 a2 s1 s2 s3 s4
  rw [e1] at a2 s2 s4
  refine ⟨by rw [a1]; rfl, by rw [a2]; rfl, by rw [s1]; rfl, by rw [s2]; rfl, by rw [s3]; rfl,
    by rw [s4]; rfl, ?_, ?_, by omega, ?_⟩
  · intro x
    simp only [rectAt, a1, a2, Option.getD_some, VkRect2D.coversColumn]
    omega
  · intro x
    simp only [rectAt, a1, a2, Option.getD_some, VkRect2D.coversColumn]
    omega
  · intro hodd
    simp only [rectAt, a1, a2, Option.getD_some, VkRect2D.coversColumn]
    omega

/-- C5 (amended) at `W = 256`, `H = 256`, two devices, `first = 0`. -/
theorem split_halves_of_width_witness :
    (1 ≤ 256 ∧ 256 < 2 ^ 31 ∧ 2 ≤ 2 ∧ 2 * 2 < 2 ^ 32 ∧ 0 < 2) ∧
    (renderAreas ⟨256, 256⟩ 2 0 (secondDeviceID 2 0))[0]?.map
        (fun r => (r.offset.x, r.extent.width)) = some (0, 256 / 2) ∧
    (renderAreas ⟨256, 256⟩ 2 0 (secondDeviceID 2 0))[secondDeviceID 2 0]?.map
        (fun r => (r.offset.x, r.extent.width)) = some (((256 / 2 : Nat) : Int), 256 / 2) :=
  ⟨by decide,
   (split_halves_of_width 256 256 2 0 (by decide) (by decide) (by decide) (by decide)
      (by decide)).1,
   (split_halves_of_width 256 256 2 0 (by decide) (by decide) (by decide) (by decide)
      (by decide)).2.1⟩

/-- The partner index without the modulo: wrap to 0 after the last device. -/
theorem secondDeviceID_eq (N first : Nat) (hN32 : N < 2 ^ 32) (hf : first < N) :
    secondDeviceID N first = if first + 1 = N then 0 else first + 1 := by
  unfold secondDeviceID
  have h1 : (first + 1) % 2 ^ 32 = first + 1 := Nat.mod_eq_of_lt (by omega)
  rw [h1]
  split
  · rename_i h
    rw [h, Nat.mod_self]
  · rename_i h
    exact Nat.mod_eq_of_lt (by omega)

/-- The `first` components of the loop are `0, …, N - 1` in order. -/
theorem devicePairs_map_fst (N : Nat) : (devicePairs N).map Prod.fst = List.range N := by
  simp [devicePairs, Function.comp_def]

/-- The `second` components of the loop. -/
theorem devicePairs_map_snd (N : Nat) :
    (devicePairs N).map Prod.snd = (List.range N).map (secondDeviceID N) := by
  simp [devicePairs, Function.comp_def]

/-- The `second` components of the loop are a rearrangement of `0, …, N - 1`. -/
theorem devicePairs_snd_perm (N : Nat) (hN32 : N < 2 ^ 32) :
    ((devicePairs N).map Prod.snd).Perm (List.range N) := by
  rw [devicePairs_map_snd]
  apply List.Subperm.perm_of_length_le
  · apply List.subperm_of_subset
    · apply List.Nodup.map_on _ (List.nodup_range N)
      intro a ha b hb hab
      rw [List.mem_range] at ha hb
      rw [secondDeviceID_eq N a hN32 ha, secondDeviceID_eq N b hN32 hb] at hab
      split at hab <;> split at hab <;> omega
    · intro d hd
      rw [List.mem_map] at hd
      obtain ⟨a, ha, rfl⟩ := hd
      rw [List.mem_range] at ha ⊢
      exact secondDeviceID_lt N a (by omega)
  · simp

/-- C6: for `N ≥ 1` devices the loop visits `first = 0, …, N - 1` once each, the
`second` indices `(first + 1) mod N` of the iterations form a permutation of
`[0, N)` (every device is `second` in exactly one iteration and `first` in exactly
one), and `second` differs from `first` exactly when `N ≥ 2`. -/
theorem devicePairs_round_robin (N : Nat) (hN : 1 ≤ N) (hN32 : N < 2 ^ 32) :
    (devicePairs N).map Prod.fst = List.range N ∧
    ((devicePairs N).map Prod.snd).Perm (List.range N) ∧
    (∀ d, d < N →
      ((devicePairs N).map Prod.fst).count d = 1 ∧ ((devicePairs N).map Prod.snd).count d = 1) ∧
    (∀ p ∈ devicePairs N, p.2 = (p.1 + 1) % N ∧ p.1 < N ∧ p.2 < N ∧ (p.2 ≠ p.1 ↔ 2 ≤ N)) := by
  have hperm := devicePairs_snd_perm N hN32
  refine ⟨devicePairs_map_fst N, hperm, ?_, ?_⟩
  · intro d hd
    have hmem : d ∈ List.range N := List.mem_range.2 hd
    constructor
    · rw [devicePairs_map_fst]
      exact List.count_eq_one_of_mem (List.nodup_range N) hmem
    · rw [hperm.count_eq]
      exact List.count_eq_one_of_mem (List.nodup_range N) hmem
  · intro p hp
    simp only [devicePairs, List.mem_map, List.mem_range] at hp
    obtain ⟨a, ha, rfl⟩ := hp
    have h2 := secondDeviceID_eq N a hN32 ha
    have h3 := secondDeviceID_lt N a hN
    refine ⟨?_, ha, h3, ?_⟩
    · show secondDeviceID N a = (a + 1) % N
      unfold secondDeviceID
      rw [Nat.mod_eq_of_lt (by omega : a + 1 < 2 ^ 32)]
    · show secondDeviceID N a ≠ a ↔ 2 ≤ N
      rw [h2]
      split <;> omega

/-- C6 for a group of 3 devices. -/
theorem devicePairs_round_robin_witness :
    (1 ≤ 3 ∧ 3 < 2 ^ 32) ∧
    ((devicePairs 3).map Prod.fst = List.range 3 ∧
    ((devicePairs 3).map Prod.snd).Perm (List.range 3) ∧
    (∀ d, d < 3 →
      ((devicePairs 3).map Prod.fst).count d = 1 ∧ ((devicePairs 3).map Prod.snd).count d = 1) ∧
    (∀ p ∈ devicePairs 3, p.2 = (p.1 + 1) % 3 ∧ p.1 < 3 ∧ p.2 < 3 ∧ (p.2 ≠ p.1 ↔ 2 ≤ 3))) :=
  ⟨by decide, devicePairs_round_robin 3 (by decide) (by decide)⟩

/-- The mask `1 << a` has exactly bit `a` set. -/
theorem testBit_shl1 (a d : Nat) (ha : a < 32) : (shl1 a).testBit d = decide (a = d) := by
  have hlt : 2 ^ a < 2 ^ 32 := Nat.pow_lt_pow_right (by norm_num) ha
  unfold shl1
  rw [Nat.one_shiftLeft, Nat.mod_eq_of_lt hlt, Nat.testBit_two_pow]

/-- The mask `1 << a` names device `a` only. -/
theorem maskDevices_shl1 (a : Nat) (ha : a < 32) : maskDevices (shl1 a) = {a} := by
  ext d
  simp only [maskDevices, Set.mem_setOf_eq, Set.mem_singleton_iff, testBit_shl1 a d ha,
    decide_eq_true_eq]
  exact eq_comm

/-- The devices of `m | n`. -/
theorem maskDevices_lor (m n : Nat) : maskDevices (m ||| n) = maskDevices m ∪ maskDevices n := by
  ext d
  simp [maskDevices, Nat.testBit_lor]

/-- The mask `(1 << a) | (1 << b)` names the devices `a` and `b`. -/
theorem maskDevices_pair (a b : Nat) (ha : a < 32) (hb : b < 32) :
    maskDevices (shl1 a ||| shl1 b) = {a, b} := by
  rw [maskDevices_lor, maskDevices_shl1 a ha, maskDevices_shl1 b hb]
  rfl

/-- A mask that names a device is non-zero. -/
theorem maskDevices_ne_zero (m d : Nat) (h : d ∈ maskDevices m) : m ≠ 0 := by
  intro h0
  subst h0
  simp [maskDevices] at h

/-- C7: for device indices below 32, the mask given to `cmdSetDeviceMask` before
the draw names exactly the devices `{first, second}` in SFR mode (SFR bit set, AFR
bit clear) and exactly `{second}` in AFR mode (AFR bit set). -/
theorem drawDeviceMask_by_mode (self : DeviceGroupTestInstance) (first second : Nat)
    (hfirst : first < 32) (hsecond : second < 32) :
    ((self.m_testMode &&& TEST_MODE_SFR ≠ 0 ∧ self.m_testMode &&& TEST_MODE_AFR = 0) →
      maskDevices (drawDeviceMask self first second) = {first, second}) ∧
    (self.m_testMode &&& TEST_MODE_AFR ≠ 0 →
      maskDevices (drawDeviceMask self first second) = {second}) := by
  constructor
  · rintro ⟨_, hafr⟩
    unfold drawDeviceMask
    rw [if_neg (by simp [hafr])]
    exact maskDevices_pair first second hfirst hsecond
  · intro hafr
    unfold drawDeviceMask
    rw [if_pos hafr]
    exact maskDevices_shl1 second hsecond

/-- C7 at the pair `(0, 1)`: mode `sfr` draws on `{0, 1}`, mode `afr` on `{1}`. -/
theorem drawDeviceMask_by_mode_witness :
    ((0 : Nat) < 32 ∧ (1 : Nat) < 32) ∧
    maskDevices (drawDeviceMask (DeviceGroupTestInstance.withGroup TEST_MODE_SFR 2 true) 0 1)
      = {0, 1} ∧
    maskDevices (drawDeviceMask (DeviceGroupTestInstance.withGroup TEST_MODE_AFR 2 true) 0 1)
      = {1} :=
  ⟨by decide,
   (drawDeviceMask_by_mode (DeviceGroupTestInstance.withGroup TEST_MODE_SFR 2 true) 0 1
      (by decide) (by decide)).1 (by decide),
   (drawDeviceMask_by_mode (DeviceGroupTestInstance.withGroup TEST_MODE_AFR 2 true) 0 1
      (by decide) (by decide)).2 (by decide)⟩

/-- C8: for `1 ≤ N ≤ 32` devices and every pair of the loop, the three submission
device masks name exactly `{first, second}` (render), `{second}` (peer copy) and
`{first}` (readback); each is non-zero and has no bit at position `N` or above. -/
theorem submit_masks_nonempty_in_range (N first : Nat) (hN : 1 ≤ N) (hN32 : N ≤ 32)
    (hfirst : first < N) :
    (maskDevices (renderSubmitDeviceMask first (secondDeviceID N first))
        = {first, secondDeviceID N first} ∧
      renderSubmitDeviceMask first (secondDeviceID N first) ≠ 0 ∧
      ∀ b, N ≤ b → (renderSubmitDeviceMask first (secondDeviceID N first)).testBit b = false) ∧
    (maskDevices (peerCopySubmitDeviceMask (secondDeviceID N first)) = {secondDeviceID N first} ∧
      peerCopySubmitDeviceMask (secondDeviceID N first) ≠ 0 ∧
      ∀ b, N ≤ b → (peerCopySubmitDeviceMask (secondDeviceID N first)).testBit b = false) ∧
    (maskDevices (readbackSubmitDeviceMask first) = {first} ∧
      readbackSubmitDeviceMask first ≠ 0 ∧
      ∀ b, N ≤ b → (readbackSubmitDeviceMask first).testBit b = false) := by
  have hs := secondDeviceID_lt N first hN
  have hf32 : first < 32 := by omega
  have hs32 : secondDeviceID N first < 32 := by omega
  have hr := maskDevices_pair first (secondDeviceID N first) hf32 hs32
  have hp := maskDevices_shl1 (secondDeviceID N first) hs32
  have hb := maskDevices_shl1 first hf32
  refine ⟨⟨hr, ?_, ?_⟩, ⟨hp, ?_, ?_⟩, ⟨hb, ?_, ?_⟩⟩
  · exact maskDevices_ne_zero _ first (by rw [renderSubmitDeviceMask, hr]; simp)
  · intro b hbN
    unfold renderSubmitDeviceMask
    rw [Nat.testBit_lor, testBit_shl1 _ _ hf32, testBit_shl1 _ _ hs32]
    simp only [Bool.or_eq_false_iff, decide_eq_false_iff_not]
    omega
  · exact maskDevices_ne_zero _ (secondDeviceID N first) (by rw [peerCopySubmitDeviceMask, hp]; simp)
  · intro b hbN
    unfold peerCopySubmitDeviceMask
    rw [testBit_shl1 _ _ hs32]
    simp only [decide_eq_false_iff_not]
    omega
  · exact maskDevices_ne_zero _ first (by rw [readbackSubmitDeviceMask, hb]; simp)
  · intro b hbN
    unfold readbackSubmitDeviceMask
    rw [testBit_shl1 _ _ hf32]
    simp only [decide_eq_false_iff_not]
    omega

/-- C8 for a group of 4 devices at the wrap-around pair `(3, 0)`. -/
theorem submit_masks_nonempty_in_range_witness :
    (1 ≤ 4 ∧ 4 ≤ 32 ∧ 3 < 4) ∧
    renderSubmitDeviceMask 3 (secondDeviceID 4 3) ≠ 0 ∧
    peerCopySubmitDeviceMask (secondDeviceID 4 3) ≠ 0 ∧
    readbackSubmitDeviceMask 3 ≠ 0 ∧
    ∀ b, 4 ≤ b → (renderSubmitDeviceMask 3 (secondDeviceID 4 3)).testBit b = false :=
  ⟨by decide,
   (submit_masks_nonempty_in_range 4 3 (by decide) (by decide) (by decide)).1.2.1,
   (submit_masks_nonempty_in_range 4 3 (by decide) (by decide) (by decide)).2.1.2.1,
   (submit_masks_nonempty_in_range 4 3 (by decide) (by decide) (by decide)).2.2.2.1,
   (submit_masks_nonempty_in_range 4 3 (by decide) (by decide) (by decide)).1.2.2⟩

/-- C9 as stated fails: a subset-allocation group of 3 devices running the plain
`afr` mode (no peer fetch, no SFR) at the pair `(0, 1)` gets the allocation mask
`0b011`, not the full set `0b111`. -/
theorem allocDeviceMask_afr_subset_counterexample :
    ¬ (((DeviceGroupTestInstance.withGroup TEST_MODE_AFR 3 true).m_subsetAllocation = false ∨
        ((DeviceGroupTestInstance.withGroup TEST_MODE_AFR 3 true).m_testMode
            &&& TEST_MODE_PEER_FETCH = 0 ∧
         (DeviceGroupTestInstance.withGroup TEST_MODE_AFR 3 true).m_testMode
            &&& TEST_MODE_SFR = 0)) →
      (allocDeviceMaskInfo (DeviceGroupTestInstance.withGroup TEST_MODE_AFR 3 true) 0
        (secondDeviceID 3 0)).deviceMask = 2 ^ 3 - 1) := by
  intro h
  have h2 := h (Or.inr ⟨by decide, by decide⟩)
  revert h2
  decide

/-- The value of `(1 << N) - 1` as a `deUint32`, for `N < 32`. -/
theorem allocDeviceMask_broadcast (N : Nat) (hN32 : N < 32) :
    toUint32 ((shl1 N : Int) - 1) = 2 ^ N - 1 := by
  have hlt : 2 ^ N < 2 ^ 32 := Nat.pow_lt_pow_right (by norm_num) (by omega)
  have hpos : 0 < 2 ^ N := Nat.pos_pow_of_pos N (by norm_num)
  have h1 : shl1 N = 2 ^ N := by
    unfold shl1
    rw [Nat.one_shiftLeft, Nat.mod_eq_of_lt hlt]
  rw [h1]
  unfold toUint32
  generalize (2 : Nat) ^ N = k at hlt hpos ⊢
  omega

/-- C9, amended: for device indices below 32, the device mask of
`allocDeviceMaskInfo` (chained to every device-memory allocation of `iterate`)
names exactly `{first, second}` whenever the group reports subset allocation,
whatever the mode, and names all `N` devices (the low `N` bits, for `1 ≤ N < 32`)
when the group does not report subset allocation. -/
theorem allocDeviceMask_by_subsetAllocation (self : DeviceGroupTestInstance)
    (first second : Nat) (hfirst : first < 32) (hsecond : second < 32) :
    (self.m_subsetAllocation = true →
      maskDevices (allocDeviceMaskInfo self first second).deviceMask = {first, second}) ∧
    (self.m_subsetAllocation = false → 1 ≤ self.m_physicalDeviceCount →
      self.m_physicalDeviceCount < 32 →
      (allocDeviceMaskInfo self first second).deviceMask = 2 ^ self.m_physicalDeviceCount - 1 ∧
      maskDevices (allocDeviceMaskInfo self first second).deviceMask
        = {d | d < self.m_physicalDeviceCount}) := by
  constructor
  · intro hsub
    simp only [allocDeviceMaskInfo, allocDeviceMask, hsub, if_true]
    exact maskDevices_pair first second hfirst hsecond
  · intro hsub _ hN32
    have hm : (allocDeviceMaskInfo self first second).deviceMask
        = 2 ^ self.m_physicalDeviceCount - 1 := by
      simp only [allocDeviceMaskInfo, allocDeviceMask, hsub]
      exact allocDeviceMask_broadcast _ hN32
    refine ⟨hm, ?_⟩
    rw [hm]
    ext d
    simp [maskDevices, Nat.testBit_two_pow_sub_one]

/-- C9 (amended) at a 3-device group in `afr` mode, pair `(0, 1)`: subset
allocation gives `{0, 1}`, broadcast gives the mask `0b111`. -/
theorem allocDeviceMask_by_subsetAllocation_witness :
    ((0 : Nat) < 32 ∧ (1 : Nat) < 32) ∧
    maskDevices (allocDeviceMaskInfo (DeviceGroupTestInstance.withGroup TEST_MODE_AFR 3 true)
      0 1).deviceMask = {0, 1} ∧
    (allocDeviceMaskInfo (DeviceGroupTestInstance.withGroup TEST_MODE_AFR 3 false)
      0 1).deviceMask = 2 ^ 3 - 1 :=
  ⟨by decide,
   (allocDeviceMask_by_subsetAllocation (DeviceGroupTestInstance.withGroup TEST_MODE_AFR 3 true)
      0 1 (by decide) (by decide)).1 rfl,
   ((allocDeviceMask_by_subsetAllocation (DeviceGroupTestInstance.withGroup TEST_MODE_AFR 3 false)
      0 1 (by decide) (by decide)).2 rfl (by decide) (by decide)).1⟩

/-- The test `features & VK_PEER_MEMORY_FEATURE_GENERIC_SRC_BIT` sees bit 2. -/
theorem land_genericSrc_ne_zero (f : Nat) :
    f &&& VK_PEER_MEMORY_FEATURE_GENERIC_SRC_BIT ≠ 0 ↔ hasGenericSrc f := by
  have h4 : VK_PEER_MEMORY_FEATURE_GENERIC_SRC_BIT = 2 ^ 2 := by decide
  unfold hasGenericSrc
  rw [h4, Nat.and_two_pow]
  cases h : f.testBit 2 <;> simp

/-- C10: for every memory type index and device indices `a`, `b`,
`isPeerFetchAllowed` returns true if and only if the peer-memory features queried
for the direction `(a, b)` and those queried for `(b, a)` both contain the
generic-source bit, and false as soon as either lacks it. -/
theorem isPeerFetchAllowed_iff_both_directions (vk : Driver) (self : DeviceGroupTestInstance)
    (memoryTypeIndex a b : Nat) :
    (isPeerFetchAllowed vk self memoryTypeIndex a b = true ↔
      hasGenericSrc (vk.getDeviceGroupPeerMemoryFeatures
        ((vk.getPhysicalDeviceMemoryProperties (self.m_physicalDevices b)).memoryTypes
          memoryTypeIndex).heapIndex a b) ∧
      hasGenericSrc (vk.getDeviceGroupPeerMemoryFeatures
        ((vk.getPhysicalDeviceMemoryProperties (self.m_physicalDevices a)).memoryTypes
          memoryTypeIndex).heapIndex b a)) ∧
    (isPeerFetchAllowed vk self memoryTypeIndex a b = false ↔
      ¬ hasGenericSrc (vk.getDeviceGroupPeerMemoryFeatures
        ((vk.getPhysicalDeviceMemoryProperties (self.m_physicalDevices b)).memoryTypes
          memoryTypeIndex).heapIndex a b) ∨
      ¬ hasGenericSrc (vk.getDeviceGroupPeerMemoryFeatures
        ((vk.getPhysicalDeviceMemoryProperties (self.m_physicalDevices a)).memoryTypes
          memoryTypeIndex).heapIndex b a)) := by
  have key : isPeerFetchAllowed vk self memoryTypeIndex a b = true ↔
      hasGenericSrc (vk.getDeviceGroupPeerMemoryFeatures
        ((vk.getPhysicalDeviceMemoryProperties (self.m_physicalDevices b)).memoryTypes
          memoryTypeIndex).heapIndex a b) ∧
      hasGenericSrc (vk.getDeviceGroupPeerMemoryFeatures
        ((vk.getPhysicalDeviceMemoryProperties (self.m_physicalDevices a)).memoryTypes
          memoryTypeIndex).heapIndex b a) := by
    simp only [isPeerFetchAllowed, Bool.and_eq_true, decide_eq_true_eq, land_genericSrc_ne_zero]
  refine ⟨key, ?_⟩
  rw [← Bool.not_eq_true, key]
  tauto

/-- The constructor keeps the mode. -/
theorem construct_testMode (mode : Nat) :
    (DeviceGroupTestInstance.construct mode).m_testMode = mode := rfl

/-- The constructor sets `m_useDedicated` from the dedicated bit. -/
theorem construct_useDedicated (mode : Nat) :
    (DeviceGroupTestInstance.construct mode).m_useDedicated = true ↔
      mode &&& TEST_MODE_DEDICATED ≠ 0 := by
  simp [DeviceGroupTestInstance.construct]

/-- The constructor sets `m_usePeerFetch` from the peer-fetch bit. -/
theorem construct_usePeerFetch (mode : Nat) :
    (DeviceGroupTestInstance.construct mode).m_usePeerFetch = true ↔
      mode &&& TEST_MODE_PEER_FETCH ≠ 0 := by
  simp [DeviceGroupTestInstance.construct]

/-- The constructor sets `m_drawTessellatedSphere` from the tessellation bit. -/
theorem construct_drawTessellatedSphere (mode : Nat) :
    (DeviceGroupTestInstance.construct mode).m_drawTessellatedSphere = true ↔
      mode &&& TEST_MODE_TESSELLATION ≠ 0 := by
  simp [DeviceGroupTestInstance.construct]

/-- The constructor sets `m_fillModeNonSolid` from the line-fill bit. -/
theorem construct_fillModeNonSolid (mode : Nat) :
    (DeviceGroupTestInstance.construct mode).m_fillModeNonSolid = true ↔
      mode &&& TEST_MODE_LINEFILL ≠ 0 := by
  simp [DeviceGroupTestInstance.construct]

/-- The only exception `getDeviceLayers` throws. -/
theorem getDeviceLayers_error (ctx : Context) (e : TestException)
    (h : getDeviceLayers ctx = .error e) :
    e = .NotSupportedError "No device validation layers found" := by
  unfold getDeviceLayers at h
  by_cases hv : ctx.validationEnabled = true
  · by_cases hm : ctx.isLayerSupported s_magicLayer = true
    · simp [hv, hm] at h
    · by_cases hf : (s_defaultLayers.filter ctx.isLayerSupported).isEmpty = true
      · simp only [hv, hm, if_true, if_false, hf, Bool.false_eq_true] at h
        injection h with h
        exact h.symm
      · simp [hv, hm, hf] at h
  · simp [hv] at h

/-- The paths through `init`: the checks in source order, each reached only when
all earlier ones passed, with the result `init` gives on that path. -/
theorem init_cases (ctx : Context) (mode : Nat) :
    (ctx.isInstanceExtensionSupported "VK_KHR_device_group_creation" = false ∧
      init ctx mode = .error (.exception (.NotSupportedError
        "Device Group tests are not supported, no device group extension present."))) ∨
    (ctx.isInstanceExtensionSupported "VK_KHR_device_group_creation" = true ∧
      ((ctx.isDeviceExtensionSupported "VK_KHR_device_group" = false ∧
        init ctx mode = .error (.exception (.NotSupportedError
          "Missing extension: VK_KHR_device_group"))) ∨
      (ctx.isDeviceExtensionSupported "VK_KHR_device_group" = true ∧
        ((mode &&& TEST_MODE_DEDICATED ≠ 0 ∧
          ctx.isDeviceExtensionSupported "VK_KHR_dedicated_allocation" = false ∧
          init ctx mode = .error (.exception (.NotSupportedError
            "Missing extension: VK_KHR_dedicated_allocation"))) ∨
        ((mode &&& TEST_MODE_DEDICATED ≠ 0 →
            ctx.isDeviceExtensionSupported "VK_KHR_dedicated_allocation" = true) ∧
          ((ctx.physicalDeviceGroups.length < toSizeT ctx.vkDeviceGroupId ∧
            init ctx mode = .error (.exception (.TestError "Invalid device group index."))) ∨
          (toSizeT ctx.vkDeviceGroupId ≤ ctx.physicalDeviceGroups.length ∧
            ((ctx.physicalDeviceGroups[toSizeT (ctx.vkDeviceGroupId - 1)]? = none ∧
              init ctx mode = .error .undefinedRead) ∨
            (∃ g, ctx.physicalDeviceGroups[toSizeT (ctx.vkDeviceGroupId - 1)]? = some g ∧
              ((mode &&& TEST_MODE_PEER_FETCH ≠ 0 ∧ g.physicalDeviceCount < 2 ∧
                init ctx mode = .error (.exception (.NotSupportedError
                  "Peer fetching needs more than 1 physical device."))) ∨
              (¬ (mode &&& TEST_MODE_PEER_FETCH ≠ 0 ∧ g.physicalDeviceCount < 2) ∧
                (((mode &&& TEST_MODE_AFR = 0 ∨ 1 < g.physicalDeviceCount) ∧
                  "VK_KHR_bind_memory2" ∉ ctx.deviceExtensions ∧
                  init ctx mode = .error (.exception (.NotSupportedError
                    "Missing extension: VK_KHR_bind_memory2"))) ∨
                (¬ ((mode &&& TEST_MODE_AFR = 0 ∨ 1 < g.physicalDeviceCount) ∧
                    "VK_KHR_bind_memory2" ∉ ctx.deviceExtensions) ∧
                  ((mode &&& TEST_MODE_TESSELLATION ≠ 0 ∧
                    (ctx.getPhysicalDeviceFeatures (g.physicalDevices
                      (toSizeT (ctx.vkDeviceId - 1)))).tessellationShader = false ∧
                    init ctx mode = .error (.exception (.NotSupportedError
                      "Tessellation is not supported."))) ∨
                  (¬ (mode &&& TEST_MODE_TESSELLATION ≠ 0 ∧
                      (ctx.getPhysicalDeviceFeatures (g.physicalDevices
                        (toSizeT (ctx.vkDeviceId - 1)))).tessellationShader = false) ∧
                    ((mode &&& TEST_MODE_LINEFILL ≠ 0 ∧
                      (ctx.getPhysicalDeviceFeatures (g.physicalDevices
                        (toSizeT (ctx.vkDeviceId - 1)))).fillModeNonSolid = false ∧
                      init ctx mode = .error (.exception (.NotSupportedError
                        "Line polygon mode is not supported."))) ∨
                    (¬ (mode &&& TEST_MODE_LINEFILL ≠ 0 ∧
                        (ctx.getPhysicalDeviceFeatures (g.physicalDevices
                          (toSizeT (ctx.vkDeviceId - 1)))).fillModeNonSolid = false) ∧
                      ((init ctx mode = .error (.exception (.NotSupportedError
                          "No device validation layers found"))) ∨
                      (∃ out, init ctx mode = .ok out ∧
                        out.self.m_physicalDeviceCount = g.physicalDeviceCount ∧
                        out.self.m_physicalDevices = g.physicalDevices ∧
                        out.self.m_subsetAllocation = g.subsetAllocation ∧
                        out.self.m_testMode = mode ∧
                        out.self.m_useHostMemory
                          = (DeviceGroupTestInstance.construct mode).m_useHostMemory ∧
                        out.self.m_useDedicated
                          = (DeviceGroupTestInstance.construct mode).m_useDedicated ∧
                        out.self.m_usePeerFetch
                          = (DeviceGroupTestInstance.construct mode).m_usePeerFetch ∧
                        out.self.m_fillModeNonSolid
                          = (DeviceGroupTestInstance.construct mode).m_fillModeNonSolid ∧
                        out.self.m_drawTessellatedSphere
                          = (DeviceGroupTestInstance.construct mode).m_drawTessellatedSphere ∧
                        ("VK_KHR_bind_memory2" ∈ out.deviceExtensions ↔
                          (mode &&& TEST_MODE_AFR = 0 ∨ 1 < g.physicalDeviceCount)) ∧
                        ("VK_KHR_dedicated_allocation" ∈ out.deviceExtensions →
                          mode &&& TEST_MODE_DEDICATED ≠ 0)))))))))))))))))))) := by
  by_cases h1 : ctx.isInstanceExtensionSupported "VK_KHR_device_group_creation" = true
  swap
  · left
    simp only [Bool.not_eq_true] at h1
    exact ⟨h1, by simp [init, h1]⟩
  right
  refine ⟨h1, ?_⟩
  by_cases h2 : ctx.isDeviceExtensionSupported "VK_KHR_device_group" = true
  swap
  · left
    simp only [Bool.not_eq_true] at h2
    exact ⟨h2, by simp [init, h1, h2]⟩
  right
  refine ⟨h2, ?_⟩
  by_cases h3 : mode &&& TEST_MODE_DEDICATED ≠ 0 ∧
      ctx.isDeviceExtensionSupported "VK_KHR_dedicated_allocation" = false
  · left
    exact ⟨h3.1, h3.2, by simp [init, h1, h2, h3.2, (construct_useDedicated mode).2 h3.1]⟩
  right
  have h3b : ¬ ((DeviceGroupTestInstance.construct mode).m_useDedicated = true ∧
      ctx.isDeviceExtensionSupported "VK_KHR_dedicated_allocation" = false) := by
    rw [construct_useDedicated]
    exact h3
  have h3c : mode &&& TEST_MODE_DEDICATED ≠ 0 →
      ctx.isDeviceExtensionSupported "VK_KHR_dedicated_allocation" = true := by
    intro hb
    cases hd : ctx.isDeviceExtensionSupported "VK_KHR_dedicated_allocation"
    · exact absurd ⟨hb, hd⟩ h3
    · rfl
  refine ⟨h3c, ?_⟩
  by_cases h4 : ctx.physicalDeviceGroups.length < toSizeT ctx.vkDeviceGroupId
  · left
    exact ⟨h4, by simp [init, h1, h2, h3b, h4]⟩
  right
  refine ⟨by omega, ?_⟩
  cases h5 : ctx.physicalDeviceGroups[toSizeT (ctx.vkDeviceGroupId - 1)]? with
  | none =>
    left
    exact ⟨rfl, by simp [init, h1, h2, h3b, h4, h5]⟩
  | some g =>
    right
    refine ⟨g, rfl, ?_⟩
    by_cases h6 : mode &&& TEST_MODE_PEER_FETCH ≠ 0 ∧ g.physicalDeviceCount < 2
    · left
      exact ⟨h6.1, h6.2, by
        simp [init, h1, h2, h3b, h4, h5, h6.2, (construct_usePeerFetch mode).2 h6.1]⟩
    right
    have h6b : ¬ ((DeviceGroupTestInstance.construct mode).m_usePeerFetch = true ∧
        g.physicalDeviceCount < 2) := by
      rw [construct_usePeerFetch]
      exact h6
    refine ⟨h6, ?_⟩
    by_cases h7 : (mode &&& TEST_MODE_AFR = 0 ∨ 1 < g.physicalDeviceCount) ∧
        "VK_KHR_bind_memory2" ∉ ctx.deviceExtensions
    · left
      exact ⟨h7.1, h7.2, by simp [init, h1, h2, h3b, h4, h5, h6b, h7, construct_testMode]⟩
    right
    refine ⟨h7, ?_⟩
    by_cases h8 : mode &&& TEST_MODE_TESSELLATION ≠ 0 ∧
        (ctx.getPhysicalDeviceFeatures (g.physicalDevices
          (toSizeT (ctx.vkDeviceId - 1)))).tessellationShader = false
    · left
      exact ⟨h8.1, h8.2, by
        simp [init, h1, h2, h3b, h4, h5, h6b, h7, construct_testMode, h8.2,
          (construct_drawTessellatedSphere mode).2 h8.1]⟩
    right
    have h8b : ¬ ((DeviceGroupTestInstance.construct mode).m_drawTessellatedSphere = true ∧
        (ctx.getPhysicalDeviceFeatures (g.physicalDevices
          (toSizeT (ctx.vkDeviceId - 1)))).tessellationShader = false) := by
      rw [construct_drawTessellatedSphere]
      exact h8
    refine ⟨h8, ?_⟩
    by_cases h9 : mode &&& TEST_MODE_LINEFILL ≠ 0 ∧
        (ctx.getPhysicalDeviceFeatures (g.physicalDevices
          (toSizeT (ctx.vkDeviceId - 1)))).fillModeNonSolid = false
    · left
      exact ⟨h9.1, h9.2, by
        simp [init, h1, h2, h3b, h4, h5, h6b, h7, h8b, construct_testMode, h9.2,
          (construct_fillModeNonSolid mode).2 h9.1]⟩
    right
    have h9b : ¬ ((DeviceGroupTestInstance.construct mode).m_fillModeNonSolid = true ∧
        (ctx.getPhysicalDeviceFeatures (g.physicalDevices
          (toSizeT (ctx.vkDeviceId - 1)))).fillModeNonSolid = false) := by
      rw [construct_fillModeNonSolid]
      exact h9
    refine ⟨h9, ?_⟩
    cases h10 : getDeviceLayers ctx with
    | error e =>
      left
      have he := getDeviceLayers_error ctx e h10
      subst he
      simp [init, h1, h2, h3b, h4, h5, h6b, h7, h8b, h9b, h10, construct_testMode]
    | ok l =>
      right
      have hinit : init ctx mode = .ok
          { self := { DeviceGroupTestInstance.construct mode with
              m_physicalDeviceCount := g.physicalDeviceCount
              m_physicalDevices := g.physicalDevices
              m_subsetAllocation := g.subsetAllocation }
            deviceExtensions :=
              if decide ((DeviceGroupTestInstance.construct mode).m_testMode
                    &&& TEST_MODE_AFR = 0) || decide (g.physicalDeviceCount > 1) then
                (if (DeviceGroupTestInstance.construct mode).m_useDedicated &&
                    !ctx.isCoreDeviceExtension "VK_KHR_dedicated_allocation" then
                  (if !ctx.isCoreDeviceExtension "VK_KHR_device_group" then
                      ["VK_KHR_device_group"] else []) ++ ["VK_KHR_dedicated_allocation"]
                else (if !ctx.isCoreDeviceExtension "VK_KHR_device_group" then
                      ["VK_KHR_device_group"] else [])) ++ ["VK_KHR_bind_memory2"]
              else
                (if (DeviceGroupTestInstance.construct mode).m_useDedicated &&
                    !ctx.isCoreDeviceExtension "VK_KHR_dedicated_allocation" then
                  (if !ctx.isCoreDeviceExtension "VK_KHR_device_group" then
                      ["VK_KHR_device_group"] else []) ++ ["VK_KHR_dedicated_allocation"]
                else (if !ctx.isCoreDeviceExtension "VK_KHR_device_group" then
                      ["VK_KHR_device_group"] else []))
            enabledLayers := l } := by
        simp [init, h1, h2, h3b, h4, h5, h6b, h7, h8b, h9b, h10, construct_testMode]
      refine ⟨_, hinit, rfl, rfl, rfl, rfl, rfl, rfl, rfl, rfl, rfl, ?_, ?_⟩
      · rw [construct_testMode]
        by_cases hc : mode &&& TEST_MODE_AFR = 0 ∨ 1 < g.physicalDeviceCount
        · simp [hc]
        · have hc1 : ¬ mode &&& TEST_MODE_AFR = 0 := fun h => hc (Or.inl h)
          have hc2 : ¬ 1 < g.physicalDeviceCount := fun h => hc (Or.inr h)
          simp only [hc, iff_false]
          simp only [hc1, gt_iff_lt, hc2, decide_False, Bool.or_self, Bool.false_eq_true,
            if_false]
          split <;> split <;> simp
      · intro hmem
        by_contra hd
        have hu : (DeviceGroupTestInstance.construct mode).m_useDedicated = false := by
          rw [← Bool.not_eq_true, construct_useDedicated]
          exact fun hne => hne hd
        rw [hu] at hmem
        simp only [Bool.false_and, Bool.false_eq_true, if_false] at hmem
        split at hmem <;> split at hmem <;> simp at hmem


/-- C15 as stated fails for a selector above the number of groups: with every
capability present, one enumerated group and the selector 2, `init` throws the
`TestError` "Invalid device group index.", not a `NotSupportedError`. -/
theorem init_selector_out_of_range_counterexample :
    ¬ ∃ msg, init (sampleContext [sampleGroup 2] 2 ⟨true, true⟩) TEST_MODE_SFR
      = .error (.exception (.NotSupportedError msg)) := by
  rintro ⟨msg, h⟩
  have h2 : init (sampleContext [sampleGroup 2] 2 ⟨true, true⟩) TEST_MODE_SFR
      = .error (.exception (.TestError "Invalid device group index.")) := rfl
  rw [h2] at h
  cases h

/-- C15, amended: `init` ends in the not-supported outcome whenever the
device-group-creation capability is absent; when the extension checks pass and
the selector (an `int`) is negative or greater than the number of enumerated
device groups, `init` ends in the `TestError` "Invalid device group index.". -/
theorem init_group_selection_outcomes (ctx : Context) (mode : Nat) :
    (ctx.isInstanceExtensionSupported "VK_KHR_device_group_creation" = false →
      init ctx mode = .error (.exception (.NotSupportedError
        "Device Group tests are not supported, no device group extension present."))) ∧
    (ctx.isInstanceExtensionSupported "VK_KHR_device_group_creation" = true →
      ctx.isDeviceExtensionSupported "VK_KHR_device_group" = true →
      (mode &&& TEST_MODE_DEDICATED ≠ 0 →
        ctx.isDeviceExtensionSupported "VK_KHR_dedicated_allocation" = true) →
      -2 ^ 31 ≤ ctx.vkDeviceGroupId → ctx.vkDeviceGroupId < 2 ^ 31 →
      ctx.physicalDeviceGroups.length < 2 ^ 32 →
      (ctx.vkDeviceGroupId < 0 ∨
        (ctx.physicalDeviceGroups.length : Int) < ctx.vkDeviceGroupId) →
      init ctx mode = .error (.exception (.TestError "Invalid device group index."))) := by
  constructor
  · intro h1
    rcases init_cases ctx mode with ⟨_, h⟩ | ⟨h1b, _⟩
    · exact h
    · rw [h1] at h1b
      cases h1b
  · intro h1 h2 h3 hlo hhi hlen hsel
    have hgt : ctx.physicalDeviceGroups.length < toSizeT ctx.vkDeviceGroupId := by
      unfold toSizeT
      omega
    rcases init_cases ctx mode with ⟨h1b, _⟩ | ⟨_, ⟨h2b, _⟩ | ⟨_, ⟨hd, h3b, _⟩ | ⟨_, ⟨_, h⟩ | ⟨h4, _⟩⟩⟩⟩
    · rw [h1] at h1b
      cases h1b
    · rw [h2] at h2b
      cases h2b
    · rw [h3 hd] at h3b
      cases h3b
    · exact h
    · omega

/-- C15 (amended) at concrete contexts: selectors 2 and -1 with one enumerated
group give the `TestError`;
without the creation extension `init` is not supported. -/
theorem init_group_selection_outcomes_witness :
    init sampleContextNoCreation TEST_MODE_SFR
        = .error (.exception (.NotSupportedError
          "Device Group tests are not supported, no device group extension present.")) ∧
    init (sampleContext [sampleGroup 2] 2 ⟨true, true⟩) TEST_MODE_SFR
        = .error (.exception (.TestError "Invalid device group index.")) ∧
    init (sampleContext [sampleGroup 2] (-1) ⟨true, true⟩) TEST_MODE_SFR
        = .error (.exception (.TestError "Invalid device group index.")) :=
  ⟨(init_group_selection_outcomes sampleContextNoCreation TEST_MODE_SFR).1 rfl,
   (init_group_selection_outcomes (sampleContext [sampleGroup 2] 2 ⟨true, true⟩)
      TEST_MODE_SFR).2 rfl rfl (fun _ => rfl) (by decide) (by decide) (by decide)
      (Or.inr (by decide)),
   (init_group_selection_outcomes (sampleContext [sampleGroup 2] (-1) ⟨true, true⟩)
      TEST_MODE_SFR).2 rfl rfl (fun _ => rfl) (by decide) (by decide) (by decide)
      (Or.inl (by decide))⟩

/-- C16: for a mode with the peer-fetch bit set, `init` ends in a not-supported
outcome when the selected group (selector in range) has fewer than 2 physical
devices; and `init` throws "Peer fetching needs more than 1 physical device."
only when the peer-fetch bit is set and the selected group has fewer than 2
devices, so never when the bit is clear or the group has at least 2 devices. -/
theorem init_peer_fetch_device_count (ctx : Context) (mode : Nat) :
    (mode &&& TEST_MODE_PEER_FETCH ≠ 0 →
      ∀ g, 1 ≤ ctx.vkDeviceGroupId → ctx.vkDeviceGroupId < 2 ^ 31 →
        ctx.physicalDeviceGroups[toSizeT (ctx.vkDeviceGroupId - 1)]? = some g →
        g.physicalDeviceCount < 2 →
        ∃ msg, init ctx mode = .error (.exception (.NotSupportedError msg))) ∧
    (init ctx mode = .error (.exception (.NotSupportedError
        "Peer fetching needs more than 1 physical device.")) →
      mode &&& TEST_MODE_PEER_FETCH ≠ 0 ∧
      ∃ g, ctx.physicalDeviceGroups[toSizeT (ctx.vkDeviceGroupId - 1)]? = some g ∧
        g.physicalDeviceCount < 2) := by
  constructor
  · intro hpeer g hid1 hid2 hg hcount
    have hlt := (List.getElem?_eq_some_iff.1 hg).1
    have hidx : toSizeT (ctx.vkDeviceGroupId - 1) + 1 = toSizeT ctx.vkDeviceGroupId := by
      unfold toSizeT
      omega
    rcases init_cases ctx mode with ⟨_, h⟩ | ⟨_, ⟨_, h⟩ | ⟨_, ⟨_, _, h⟩ | ⟨_, ⟨h4, _⟩ |
      ⟨_, ⟨h5, _⟩ | ⟨g2, hg2, ⟨_, _, h⟩ | ⟨h6, _⟩⟩⟩⟩⟩⟩
    · exact ⟨_, h⟩
    · exact ⟨_, h⟩
    · exact ⟨_, h⟩
    · omega
    · rw [hg] at h5
      cases h5
    · exact ⟨_, h⟩
    · rw [hg] at hg2
      injection hg2 with hg2
      subst hg2
      exact absurd ⟨hpeer, hcount⟩ h6
  · intro h
    rcases init_cases ctx mode with ⟨_, h0⟩ | ⟨_, ⟨_, h0⟩ | ⟨_, ⟨_, _, h0⟩ | ⟨_, ⟨_, h0⟩ |
      ⟨_, ⟨_, h0⟩ | ⟨g, hg, ⟨hbit, hcnt, _⟩ | ⟨_, ⟨_, _, h0⟩ | ⟨_, ⟨_, _, h0⟩ |
      ⟨_, ⟨_, _, h0⟩ | ⟨_, (h0 | ⟨res, h0, _⟩)⟩⟩⟩⟩⟩⟩⟩⟩⟩
    all_goals first
      | exact ⟨hbit, g, hg, hcnt⟩
      | (rw [h0] at h; simp at h)

/-- C16 at concrete contexts: the `afr` mode with peer fetch on a one-device
group is not supported; the thrown reason implies the peer-fetch bit. -/
theorem init_peer_fetch_device_count_witness :
    (∃ msg, init (sampleContext [sampleGroup 1] 1 ⟨true, true⟩)
        (TEST_MODE_AFR ||| TEST_MODE_PEER_FETCH)
        = .error (.exception (.NotSupportedError msg))) ∧
    (TEST_MODE_AFR ||| TEST_MODE_PEER_FETCH) &&& TEST_MODE_PEER_FETCH ≠ 0 :=
  ⟨(init_peer_fetch_device_count (sampleContext [sampleGroup 1] 1 ⟨true, true⟩)
      (TEST_MODE_AFR ||| TEST_MODE_PEER_FETCH)).1 (by decide) (sampleGroup 1) (by decide)
      (by decide) rfl (by decide),
   ((init_peer_fetch_device_count (sampleContext [sampleGroup 1] 1 ⟨true, true⟩)
      (TEST_MODE_AFR ||| TEST_MODE_PEER_FETCH)).2 rfl).1⟩

/-- C17: `init` throws "Missing extension: VK_KHR_bind_memory2" only when the mode
lacks the AFR bit or the selected group has more than one device (and the
extension is not listed); when the earlier checks pass, it does throw it in
exactly that situation; and a completed `init` requests the extension exactly
when the mode lacks the AFR bit or the group has more than one device, so always
with more than one device and never for an AFR run on a single-device group. -/
theorem init_bind_memory2_demand (ctx : Context) (mode : Nat) :
    (init ctx mode = .error (.exception (.NotSupportedError
        "Missing extension: VK_KHR_bind_memory2")) →
      ∃ g, ctx.physicalDeviceGroups[toSizeT (ctx.vkDeviceGroupId - 1)]? = some g ∧
        (mode &&& TEST_MODE_AFR = 0 ∨ 1 < g.physicalDeviceCount) ∧
        "VK_KHR_bind_memory2" ∉ ctx.deviceExtensions) ∧
    (∀ g, ctx.isInstanceExtensionSupported "VK_KHR_device_group_creation" = true →
      ctx.isDeviceExtensionSupported "VK_KHR_device_group" = true →
      (mode &&& TEST_MODE_DEDICATED ≠ 0 →
        ctx.isDeviceExtensionSupported "VK_KHR_dedicated_allocation" = true) →
      1 ≤ ctx.vkDeviceGroupId → ctx.vkDeviceGroupId < 2 ^ 31 →
      ctx.physicalDeviceGroups[toSizeT (ctx.vkDeviceGroupId - 1)]? = some g →
      ¬ (mode &&& TEST_MODE_PEER_FETCH ≠ 0 ∧ g.physicalDeviceCount < 2) →
      (mode &&& TEST_MODE_AFR = 0 ∨ 1 < g.physicalDeviceCount) →
      "VK_KHR_bind_memory2" ∉ ctx.deviceExtensions →
      init ctx mode = .error (.exception (.NotSupportedError
        "Missing extension: VK_KHR_bind_memory2"))) ∧
    (∀ res, init ctx mode = .ok res →
      ("VK_KHR_bind_memory2" ∈ res.deviceExtensions ↔
        (mode &&& TEST_MODE_AFR = 0 ∨ 1 < res.self.m_physicalDeviceCount))) := by
  refine ⟨?_, ?_, ?_⟩
  · intro h
    rcases init_cases ctx mode with ⟨_, h0⟩ | ⟨_, ⟨_, h0⟩ | ⟨_, ⟨_, _, h0⟩ | ⟨_, ⟨_, h0⟩ |
      ⟨_, ⟨_, h0⟩ | ⟨g, hg, ⟨_, _, h0⟩ | ⟨_, ⟨hcond, habs, _⟩ | ⟨_, ⟨_, _, h0⟩ |
      ⟨_, ⟨_, _, h0⟩ | ⟨_, (h0 | ⟨res, h0, _⟩)⟩⟩⟩⟩⟩⟩⟩⟩⟩
    all_goals first
      | exact ⟨g, hg, hcond, habs⟩
      | (rw [h0] at h; simp at h)
  · intro g h1 h2 h3 hid1 hid2 hg hpeer hcond habs
    have hlt := (List.getElem?_eq_some_iff.1 hg).1
    have hidx : toSizeT (ctx.vkDeviceGroupId - 1) + 1 = toSizeT ctx.vkDeviceGroupId := by
      unfold toSizeT
      omega
    rcases init_cases ctx mode with ⟨h1b, _⟩ | ⟨_, ⟨h2b, _⟩ | ⟨_, ⟨hd, h3b, _⟩ | ⟨_, ⟨h4, _⟩ |
      ⟨_, ⟨h5, _⟩ | ⟨g2, hg2, ⟨hp, hc, _⟩ | ⟨_, ⟨_, _, h⟩ | ⟨h7, _⟩⟩⟩⟩⟩⟩⟩
    · rw [h1] at h1b
      cases h1b
    · rw [h2] at h2b
      cases h2b
    · rw [h3 hd] at h3b
      cases h3b
    · omega
    · rw [hg] at h5
      cases h5
    · rw [hg] at hg2
      injection hg2 with hg2
      subst hg2
      exact absurd ⟨hp, hc⟩ hpeer
    · exact h
    · rw [hg] at hg2
      injection hg2 with hg2
      subst hg2
      exact absurd ⟨hcond, habs⟩ h7
  · intro res h
    rcases init_cases ctx mode with ⟨_, h0⟩ | ⟨_, ⟨_, h0⟩ | ⟨_, ⟨_, _, h0⟩ | ⟨_, ⟨_, h0⟩ |
      ⟨_, ⟨_, h0⟩ | ⟨g, hg, ⟨_, _, h0⟩ | ⟨_, ⟨_, _, h0⟩ | ⟨_, ⟨_, _, h0⟩ |
      ⟨_, ⟨_, _, h0⟩ | ⟨_, (h0 | ⟨res2, h0, hcnt, _, _, _, _, _, _, _, _, hb, _⟩)⟩⟩⟩⟩⟩⟩⟩⟩⟩
    all_goals first
      | (rw [h0] at h; injection h with h; subst h; rw [hcnt]; exact hb)
      | (rw [h0] at h; simp at h)

/-- C17 at concrete contexts: on a platform without `VK_KHR_bind_memory2`, `sfr`
on a single device is skipped for it; `afr` on a single device, when `init`
completes, does not request it. -/
theorem init_bind_memory2_demand_witness :
    init (sampleContextNoBindMemory2 1) TEST_MODE_SFR
      = .error (.exception (.NotSupportedError "Missing extension: VK_KHR_bind_memory2")) ∧
    (∀ res, init (sampleContextNoBindMemory2 1) TEST_MODE_AFR = .ok res →
      ("VK_KHR_bind_memory2" ∈ res.deviceExtensions ↔
        (TEST_MODE_AFR &&& TEST_MODE_AFR = 0 ∨ 1 < res.self.m_physicalDeviceCount))) :=
  ⟨(init_bind_memory2_demand (sampleContextNoBindMemory2 1) TEST_MODE_SFR).2.1 (sampleGroup 1)
      rfl rfl (fun _ => rfl) (by decide) (by decide) rfl (by decide) (by decide) (by decide),
   (init_bind_memory2_demand (sampleContextNoBindMemory2 1) TEST_MODE_AFR).2.2⟩

/-- C18 as stated fails for a mode with the line-fill bit but without the
tessellation bit: on a platform without the non-solid-fill feature, `init` for
`SFR | LINEFILL` throws "Line polygon mode is not supported.". -/
theorem init_linefill_without_tessellation_counterexample :
    ¬ ((TEST_MODE_SFR ||| TEST_MODE_LINEFILL) &&& TEST_MODE_TESSELLATION = 0 →
      init (sampleContext [sampleGroup 2] 1 ⟨true, false⟩) (TEST_MODE_SFR ||| TEST_MODE_LINEFILL)
        ≠ .error (.exception (.NotSupportedError "Line polygon mode is not supported."))) := by
  intro h
  exact h (by decide) rfl

/-- C18, amended: `init` throws "Tessellation is not supported." only for a mode
with the tessellation bit, "Line polygon mode is not supported." only for a mode
with the line-fill bit (whatever its tessellation bit: once the earlier checks
pass, a line-fill mode on a platform without the non-solid-fill feature is
skipped), and demands `VK_KHR_dedicated_allocation` only for a mode with the
dedicated bit. -/
theorem init_feature_demands (ctx : Context) (mode : Nat) :
    (init ctx mode = .error (.exception (.NotSupportedError "Tessellation is not supported.")) →
      mode &&& TEST_MODE_TESSELLATION ≠ 0) ∧
    (init ctx mode = .error (.exception (.NotSupportedError
        "Line polygon mode is not supported.")) →
      mode &&& TEST_MODE_LINEFILL ≠ 0) ∧
    (∀ g, ctx.isInstanceExtensionSupported "VK_KHR_device_group_creation" = true →
      ctx.isDeviceExtensionSupported "VK_KHR_device_group" = true →
      (mode &&& TEST_MODE_DEDICATED ≠ 0 →
        ctx.isDeviceExtensionSupported "VK_KHR_dedicated_allocation" = true) →
      1 ≤ ctx.vkDeviceGroupId → ctx.vkDeviceGroupId < 2 ^ 31 →
      ctx.physicalDeviceGroups[toSizeT (ctx.vkDeviceGroupId - 1)]? = some g →
      ¬ (mode &&& TEST_MODE_PEER_FETCH ≠ 0 ∧ g.physicalDeviceCount < 2) →
      "VK_KHR_bind_memory2" ∈ ctx.deviceExtensions →
      ¬ (mode &&& TEST_MODE_TESSELLATION ≠ 0 ∧
        (ctx.getPhysicalDeviceFeatures (g.physicalDevices
          (toSizeT (ctx.vkDeviceId - 1)))).tessellationShader = false) →
      mode &&& TEST_MODE_LINEFILL ≠ 0 →
      (ctx.getPhysicalDeviceFeatures (g.physicalDevices
        (toSizeT (ctx.vkDeviceId - 1)))).fillModeNonSolid = false →
      init ctx mode = .error (.exception (.NotSupportedError
        "Line polygon mode is not supported."))) ∧
    (init ctx mode = .error (.exception (.NotSupportedError
        "Missing extension: VK_KHR_dedicated_allocation")) →
      mode &&& TEST_MODE_DEDICATED ≠ 0) ∧
    (∀ res, init ctx mode = .ok res →
      "VK_KHR_dedicated_allocation" ∈ res.deviceExtensions →
      mode &&& TEST_MODE_DEDICATED ≠ 0) := by
  refine ⟨?_, ?_, ?_, ?_, ?_⟩
  · intro h
    rcases init_cases ctx mode with ⟨_, h0⟩ | ⟨_, ⟨_, h0⟩ | ⟨_, ⟨_, _, h0⟩ | ⟨_, ⟨_, h0⟩ |
      ⟨_, ⟨_, h0⟩ | ⟨g, hg, ⟨_, _, h0⟩ | ⟨_, ⟨_, _, h0⟩ | ⟨_, ⟨hbit, _, _⟩ |
      ⟨_, ⟨_, _, h0⟩ | ⟨_, (h0 | ⟨res, h0, _⟩)⟩⟩⟩⟩⟩⟩⟩⟩⟩
    all_goals first
      | exact hbit
      | (rw [h0] at h; simp at h)
  · intro h
    rcases init_cases ctx mode with ⟨_, h0⟩ | ⟨_, ⟨_, h0⟩ | ⟨_, ⟨_, _, h0⟩ | ⟨_, ⟨_, h0⟩ |
      ⟨_, ⟨_, h0⟩ | ⟨g, hg, ⟨_, _, h0⟩ | ⟨_, ⟨_, _, h0⟩ | ⟨_, ⟨_, _, h0⟩ |
      ⟨_, ⟨hbit, _, _⟩ | ⟨_, (h0 | ⟨res, h0, _⟩)⟩⟩⟩⟩⟩⟩⟩⟩⟩
    all_goals first
      | exact hbit
      | (rw [h0] at h; simp at h)
  · intro g h1 h2 h3 hid1 hid2 hg hpeer hbind htess hbit hfeat
    have hlt := (List.getElem?_eq_some_iff.1 hg).1
    have hidx : toSizeT (ctx.vkDeviceGroupId - 1) + 1 = toSizeT ctx.vkDeviceGroupId := by
      unfold toSizeT
      omega
    rcases init_cases ctx mode with ⟨h1b, _⟩ | ⟨_, ⟨h2b, _⟩ | ⟨_, ⟨hd, h3b, _⟩ | ⟨_, ⟨h4, _⟩ |
      ⟨_, ⟨h5, _⟩ | ⟨g2, hg2, ⟨hp, hc, _⟩ | ⟨_, ⟨_, habs, _⟩ | ⟨_, ⟨ht, hf, _⟩ |
      ⟨_, ⟨_, _, h⟩ | ⟨h9, _⟩⟩⟩⟩⟩⟩⟩⟩⟩
    · rw [h1] at h1b
      cases h1b
    · rw [h2] at h2b
      cases h2b
    · rw [h3 hd] at h3b
      cases h3b
    · omega
    · rw [hg] at h5
      cases h5
    · rw [hg] at hg2
      injection hg2 with hg2
      subst hg2
      exact absurd ⟨hp, hc⟩ hpeer
    · exact absurd hbind habs
    · rw [hg] at hg2
      injection hg2 with hg2
      subst hg2
      exact absurd ⟨ht, hf⟩ htess
    · exact h
    · rw [hg] at hg2
      injection hg2 with hg2
      subst hg2
      exact absurd ⟨hbit, hfeat⟩ h9
  · intro h
    rcases init_cases ctx mode with ⟨_, h0⟩ | ⟨_, ⟨_, h0⟩ | ⟨_, ⟨hbit, _, _⟩ | ⟨_, ⟨_, h0⟩ |
      ⟨_, ⟨_, h0⟩ | ⟨g, hg, ⟨_, _, h0⟩ | ⟨_, ⟨_, _, h0⟩ | ⟨_, ⟨_, _, h0⟩ |
      ⟨_, ⟨_, _, h0⟩ | ⟨_, (h0 | ⟨res, h0, _⟩)⟩⟩⟩⟩⟩⟩⟩⟩⟩
    all_goals first
      | exact hbit
      | (rw [h0] at h; simp at h)
  · intro res h hmem
    rcases init_cases ctx mode with ⟨_, h0⟩ | ⟨_, ⟨_, h0⟩ | ⟨_, ⟨_, _, h0⟩ | ⟨_, ⟨_, h0⟩ |
      ⟨_, ⟨_, h0⟩ | ⟨g, hg, ⟨_, _, h0⟩ | ⟨_, ⟨_, _, h0⟩ | ⟨_, ⟨_, _, h0⟩ |
      ⟨_, ⟨_, _, h0⟩ | ⟨_, (h0 | ⟨res2, h0, _, _, _, _, _, _, _, _, _, _, hded⟩)⟩⟩⟩⟩⟩⟩⟩⟩⟩
    all_goals first
      | (rw [h0] at h; injection h with h; subst h; exact hded hmem)
      | (rw [h0] at h; simp at h)

/-- C18 (amended) at concrete contexts: the thrown reasons imply their mode bits. -/
theorem init_feature_demands_witness :
    (TEST_MODE_SFR ||| TEST_MODE_LINEFILL) &&& TEST_MODE_LINEFILL ≠ 0 ∧
    (TEST_MODE_SFR ||| TEST_MODE_TESSELLATION) &&& TEST_MODE_TESSELLATION ≠ 0 ∧
    init (sampleContext [sampleGroup 2] 1 ⟨true, false⟩) (TEST_MODE_SFR ||| TEST_MODE_LINEFILL)
      = .error (.exception (.NotSupportedError "Line polygon mode is not supported.")) :=
  ⟨(init_feature_demands (sampleContext [sampleGroup 2] 1 ⟨true, false⟩)
      (TEST_MODE_SFR ||| TEST_MODE_LINEFILL)).2.1 rfl,
   (init_feature_demands (sampleContext [sampleGroup 2] 1 ⟨false, true⟩)
      (TEST_MODE_SFR ||| TEST_MODE_TESSELLATION)).1 rfl,
   (init_feature_demands (sampleContext [sampleGroup 2] 1 ⟨true, false⟩)
      (TEST_MODE_SFR ||| TEST_MODE_LINEFILL)).2.2.1 (sampleGroup 2) rfl rfl (fun _ => rfl)
      (by decide) (by decide) rfl (by decide) (by decide) (by decide) (by decide) rfl⟩

/-- How every run of the loop of `iterate` ends: either all remaining pairs pass
and the run returns the pass status, or there is a first pair that does not: its
checks throw (and the run ends with that exception, after the events of the
earlier pairs only), or its comparison fails (and the run returns the fail status
right after the events of that pair). -/
theorem iterateLoop_spec (pf : Platform) (self : DeviceGroupTestInstance) :
    ∀ (todo physDevID : Nat) (done : List Event),
      ((∀ j, physDevID ≤ j → j < physDevID + todo → PairPasses pf self j) ∧
        iterateLoop pf self todo physDevID done =
          ⟨done ++ eventsOfPairs pf self todo physDevID,
            .ok (.pass "Device group verification passed")⟩) ∨
      (∃ k, physDevID ≤ k ∧ k < physDevID + todo ∧
        (∀ j, physDevID ≤ j → j < k → PairPasses pf self j) ∧
        ((∃ e, pairPreconditions pf self k = .error e ∧
            iterateLoop pf self todo physDevID done =
              ⟨done ++ eventsOfPairs pf self (k - physDevID) physDevID, .error e⟩) ∨
          ((∃ chosen, pairPreconditions pf self k = .ok chosen) ∧
            (pf.pair k).comparisonResult = false ∧
            iterateLoop pf self todo physDevID done =
              ⟨done ++ eventsOfPairs pf self (k - physDevID) physDevID ++ pairEvents pf self k,
                .ok (.fail "Image comparison failed")⟩))) := by
  intro todo
  induction todo with
  | zero =>
    intro physDevID done
    left
    refine ⟨fun j h1 h2 => by omega, ?_⟩
    simp [iterateLoop, eventsOfPairs]
  | succ todo ih =>
    intro physDevID done
    cases hpre : pairPreconditions pf self physDevID with
    | error e =>
      right
      refine ⟨physDevID, le_refl _, by omega, fun j h1 h2 => by omega, Or.inl ⟨e, hpre, ?_⟩⟩
      simp [iterateLoop, hpre, eventsOfPairs]
    | ok chosen =>
      cases hcmp : (pf.pair physDevID).comparisonResult with
      | false =>
        right
        refine ⟨physDevID, le_refl _, by omega, fun j h1 h2 => by omega,
          Or.inr ⟨⟨chosen, hpre⟩, hcmp, ?_⟩⟩
        simp [iterateLoop, hpre, hcmp, eventsOfPairs]
      | true =>
        have hpass : PairPasses pf self physDevID := ⟨⟨chosen, hpre⟩, hcmp⟩
        have hstep : iterateLoop pf self (todo + 1) physDevID done =
            iterateLoop pf self todo (physDevID + 1) (done ++ pairEvents pf self physDevID) := by
          simp [iterateLoop, hpre, hcmp]
        have hall : ∀ k, physDevID + 1 ≤ k →
            (∀ j, physDevID + 1 ≤ j → j < k → PairPasses pf self j) →
            ∀ j, physDevID ≤ j → j < k → PairPasses pf self j := by
          intro k _ hk j h1 h2
          by_cases hj : j = physDevID
          · rw [hj]
            exact hpass
          · exact hk j (by omega) h2
        have hev : ∀ k, physDevID + 1 ≤ k →
            done ++ pairEvents pf self physDevID
                ++ eventsOfPairs pf self (k - (physDevID + 1)) (physDevID + 1) =
              done ++ eventsOfPairs pf self (k - physDevID) physDevID := by
          intro k hk
          have hk2 : k - physDevID = (k - (physDevID + 1)) + 1 := by omega
          rw [hk2, eventsOfPairs, List.append_assoc]
        rcases ih (physDevID + 1) (done ++ pairEvents pf self physDevID) with
          ⟨h1, h2⟩ | ⟨k, hk1, hk2, hk3, hk4⟩
        · left
          refine ⟨hall (physDevID + todo + 1) (by omega) (fun j a b => h1 j a (by omega)), ?_⟩
          rw [hstep, h2, eventsOfPairs, List.append_assoc]
        · right
          refine ⟨k, by omega, by omega, hall k hk1 hk3, ?_⟩
          rcases hk4 with ⟨e, he1, he2⟩ | ⟨hc1, hc2, hc3⟩
          · left
            refine ⟨e, he1, ?_⟩
            rw [hstep, he2, hev k hk1]
          · right
            refine ⟨hc1, hc2, ?_⟩
            rw [hstep, hc3, hev k hk1]

/-- The only exception `getMemoryIndex` throws, for any table. -/
theorem getMemoryIndexLoop_error_eq (p : VkPhysicalDeviceMemoryProperties) (bits flag : Nat) :
    ∀ (todo ndx : Nat) (e : TestException),
      getMemoryIndexLoop p bits flag todo ndx = .error e →
      e = .NotSupportedError "No compatible memory type found" := by
  intro todo
  induction todo with
  | zero =>
    intro ndx e h
    simp only [getMemoryIndexLoop] at h
    injection h with h
    exact h.symm
  | succ todo ih =>
    intro ndx e h
    rw [getMemoryIndexLoop] at h
    split at h
    · cases h
    · exact ih (ndx + 1) e h

/-- Every exception of the selection-and-peer-check block is a not-supported
one, and without peer fetch it is not the peer-fetch one. -/
theorem chooseBufferMemory_error (pf : Platform) (self : DeviceGroupTestInstance)
    (bits first second : Nat) (e : TestException)
    (h : chooseBufferMemory pf self bits first second = .error e) :
    (∃ msg, e = .NotSupportedError msg) ∧
      (self.m_usePeerFetch = false →
        e = .NotSupportedError "No compatible memory type found") := by
  unfold chooseBufferMemory at h
  cases hg : getMemoryIndex pf.deviceMemProps bits VK_MEMORY_PROPERTY_DEVICE_LOCAL_BIT with
  | error e2 =>
    rw [hg] at h
    injection h with h
    subst h
    have := getMemoryIndexLoop_error_eq _ _ _ _ _ _ hg
    exact ⟨⟨_, this⟩, fun _ => this⟩
  | ok t2 =>
    rw [hg] at h
    simp only at h
    split at h
    · rename_i hc
      injection h with h
      subst h
      refine ⟨⟨_, rfl⟩, fun hu => ?_⟩
      rw [hu] at hc
      simp at hc
    · cases h

/-- When the checks of a pair pass, each of the four buffers got its memory type
from the selection-and-peer-check block, and the image from `getMemoryIndex`. -/
theorem pairPreconditions_ok (pf : Platform) (self : DeviceGroupTestInstance) (k : Nat)
    (c : ChosenMemoryTypes) (h : pairPreconditions pf self k = .ok c) :
    chooseBufferMemory pf self (pf.pair k).vertexMemoryTypeBits k
        (secondDeviceID self.m_physicalDeviceCount k) = .ok c.vertex ∧
    chooseBufferMemory pf self (pf.pair k).indexMemoryTypeBits k
        (secondDeviceID self.m_physicalDeviceCount k) = .ok c.index ∧
    chooseBufferMemory pf self (pf.pair k).uniformMemoryTypeBits k
        (secondDeviceID self.m_physicalDeviceCount k) = .ok c.uniform ∧
    chooseBufferMemory pf self (pf.pair k).sboMemoryTypeBits k
        (secondDeviceID self.m_physicalDeviceCount k) = .ok c.sbo ∧
    getMemoryIndex pf.deviceMemProps (pf.pair k).imageMemoryTypeBits
        (if self.m_useHostMemory then 0 else VK_MEMORY_PROPERTY_DEVICE_LOCAL_BIT) = .ok c.image := by
  unfold pairPreconditions at h
  simp only at h
  split at h
  · cases h
  rename_i v hv
  split at h
  · cases h
  rename_i i hi
  split at h
  · cases h
  rename_i u hu
  split at h
  · cases h
  rename_i s hs
  split at h
  · cases h
  split at h
  · cases h
  rename_i m hm
  split at h
  · cases h
  injection h with h
  subst h
  exact ⟨hv, hi, hu, hs, hm⟩

/-- Every exception thrown by the checks of a pair is a not-supported one, and
without peer fetch it is neither of the two peer reasons. -/
theorem pairPreconditions_error (pf : Platform) (self : DeviceGroupTestInstance) (k : Nat)
    (e : TestException) (h : pairPreconditions pf self k = .error e) :
    (∃ msg, e = .NotSupportedError msg) ∧
      (self.m_usePeerFetch = false →
        e ≠ .NotSupportedError "Peer fetch is not supported." ∧
        e ≠ .NotSupportedError "Peer texture reads is not supported.") := by
  have hbuf : ∀ bits e2, chooseBufferMemory pf self bits k
      (secondDeviceID self.m_physicalDeviceCount k) = .error e2 →
      (∃ msg, e2 = .NotSupportedError msg) ∧
      (self.m_usePeerFetch = false →
        e2 ≠ .NotSupportedError "Peer fetch is not supported." ∧
        e2 ≠ .NotSupportedError "Peer texture reads is not supported.") := by
    intro bits e2 h2
    obtain ⟨h3, h4⟩ := chooseBufferMemory_error pf self bits k _ e2 h2
    refine ⟨h3, fun hu => ?_⟩
    rw [h4 hu]
    exact ⟨by simp, by simp⟩
  unfold pairPreconditions at h
  simp only at h
  split at h
  · rename_i e2 hv
    injection h with h
    subst h
    exact hbuf _ _ hv
  split at h
  · rename_i e2 hi
    injection h with h
    subst h
    exact hbuf _ _ hi
  split at h
  · rename_i e2 hu
    injection h with h
    subst h
    exact hbuf _ _ hu
  split at h
  · rename_i e2 hs
    injection h with h
    subst h
    exact hbuf _ _ hs
  split at h
  · injection h with h
    subst h
    exact ⟨⟨_, rfl⟩, fun _ => ⟨by simp, by simp⟩⟩
  split at h
  · rename_i e2 hm
    injection h with h
    subst h
    have he := getMemoryIndexLoop_error_eq _ _ _ _ _ _ hm
    rw [he]
    exact ⟨⟨_, rfl⟩, fun _ => ⟨by simp, by simp⟩⟩
  split at h
  · rename_i hc
    injection h with h
    subst h
    refine ⟨⟨_, rfl⟩, fun hu2 => ?_⟩
    rw [hu2] at hc
    simp at hc
  · cases h

/-- A pair whose checks throw does not pass. -/
theorem not_pairPasses_of_error (pf : Platform) (self : DeviceGroupTestInstance) (k : Nat)
    (e : TestException) (h : pairPreconditions pf self k = .error e) :
    ¬ PairPasses pf self k := by
  rintro ⟨⟨c, hc⟩, _⟩
  rw [h] at hc
  cases hc

/-- A pair whose comparison fails does not pass. -/
theorem not_pairPasses_of_compare (pf : Platform) (self : DeviceGroupTestInstance) (k : Nat)
    (h : (pf.pair k).comparisonResult = false) : ¬ PairPasses pf self k := by
  rintro ⟨_, hc⟩
  rw [h] at hc
  cases hc

/-- The submissions of a pair contain no image comparison. -/
theorem imageComparison_not_mem_pairSubmissions (self : DeviceGroupTestInstance)
    (first second k : Nat) (m : ImageComparison) (r : Bool) :
    Event.imageComparison k m r ∉ pairSubmissions self first second := by
  unfold pairSubmissions submitAndWait
  split <;> simp

/-- The events of a range of passing pairs contain no failed comparison. -/
theorem no_failed_comparison_of_passes (pf : Platform) (self : DeviceGroupTestInstance) :
    ∀ (n p : Nat), (∀ j, p ≤ j → j < p + n → PairPasses pf self j) →
      ∀ k m, Event.imageComparison k m false ∉ eventsOfPairs pf self n p := by
  intro n
  induction n with
  | zero =>
    intro p _ k m
    simp [eventsOfPairs]
  | succ n ih =>
    intro p hall k m hmem
    rw [eventsOfPairs, List.mem_append] at hmem
    rcases hmem with hmem | hmem
    · unfold pairEvents at hmem
      rw [List.mem_append] at hmem
      rcases hmem with hmem | hmem
      · exact imageComparison_not_mem_pairSubmissions _ _ _ _ _ _ hmem
      · rw [List.mem_singleton] at hmem
        injection hmem with _ _ hres
        have hp := (hall p (le_refl p) (by omega)).2
        rw [hp] at hres
        cases hres
    · exact ih (p + 1) (fun j h1 h2 => hall j (by omega) (by omega)) k m hmem

/-- C12 as stated fails: with three devices in the `afr` mode with peer fetch,
where only the devices 0 and 1 can fetch from each other, `iterate` ends in the
skip "Peer fetch is not supported." at the second pair, after the render
submission (and the others) of the first pair. -/
theorem iterate_skip_after_submission_counterexample :
    ¬ ((iterate (samplePlatform fun l r => if l + r = 1 then 4 else 0)
          (DeviceGroupTestInstance.withGroup (TEST_MODE_AFR ||| TEST_MODE_PEER_FETCH) 3
            true)).outcome
        = .error (.NotSupportedError "Peer fetch is not supported.") →
      ∀ mask fence, Event.queueSubmit mask fence ∉
        (iterate (samplePlatform fun l r => if l + r = 1 then 4 else 0)
          (DeviceGroupTestInstance.withGroup (TEST_MODE_AFR ||| TEST_MODE_PEER_FETCH) 3
            true)).events) := by
  intro h
  exact h rfl 3 .render (by decide)

/-- C12, amended: if a run of `iterate` ends with a thrown exception (a skip for
unsupported peer access, for a missing memory type or for the SFR format), the
exception was raised by the checks of some pair `k` before any queue submission
of that loop iteration: every earlier pair passed, and the events of the run are
exactly the events of the `k` earlier pairs; when the skip is raised for the
first pair, no queue submission was issued at all. -/
theorem iterate_skip_precedes_own_submissions (pf : Platform) (self : DeviceGroupTestInstance)
    (e : TestException) (h : (iterate pf self).outcome = .error e) :
    (∃ msg, e = .NotSupportedError msg) ∧
    ∃ k, k < self.m_physicalDeviceCount ∧ (∀ j, j < k → PairPasses pf self j) ∧
      pairPreconditions pf self k = .error e ∧
      (iterate pf self).events = eventsOfPairs pf self k 0 ∧
      (k = 0 → (iterate pf self).events = []) := by
  unfold iterate at h ⊢
  rcases iterateLoop_spec pf self self.m_physicalDeviceCount 0 [] with
    ⟨_, h2⟩ | ⟨k, _, hk, hbefore, ⟨e2, he1, he2⟩ | ⟨_, _, h2⟩⟩
  · rw [h2] at h
    cases h
  · rw [he2] at h
    injection h with h
    subst h
    refine ⟨(pairPreconditions_error pf self k e2 he1).1, k, by omega,
      fun j hj => hbefore j (Nat.zero_le j) hj, he1, ?_, ?_⟩
    · rw [he2]
      simp
    · intro hk0
      rw [he2, hk0]
      simp [eventsOfPairs]
  · rw [h2] at h
    cases h

/-- C12 (amended) at two devices in the `afr` mode with peer fetch and no peer
capability at all: the skip is raised for the first pair and the run has no
events. -/
theorem iterate_skip_precedes_own_submissions_witness :
    (iterate (samplePlatform fun _ _ => 0)
        (DeviceGroupTestInstance.withGroup (TEST_MODE_AFR ||| TEST_MODE_PEER_FETCH) 2 true)).outcome
      = .error (.NotSupportedError "Peer fetch is not supported.") ∧
    ∃ k, k < 2 ∧
      (iterate (samplePlatform fun _ _ => 0)
        (DeviceGroupTestInstance.withGroup (TEST_MODE_AFR ||| TEST_MODE_PEER_FETCH) 2
          true)).events
      = eventsOfPairs (samplePlatform fun _ _ => 0)
        (DeviceGroupTestInstance.withGroup (TEST_MODE_AFR ||| TEST_MODE_PEER_FETCH) 2 true) k 0 :=
  ⟨rfl,
   (iterate_skip_precedes_own_submissions (samplePlatform fun _ _ => 0)
      (DeviceGroupTestInstance.withGroup (TEST_MODE_AFR ||| TEST_MODE_PEER_FETCH) 2 true)
      (.NotSupportedError "Peer fetch is not supported.") rfl).2.imp
      fun _ hk => ⟨hk.1, hk.2.2.2.1⟩⟩

/-- C13: `iterate` returns the fail status "Image comparison failed" if and only
if the image comparison of some pair is unsuccessful (the loop reaches the pair,
its checks pass and its comparison fails; equivalently, the run contains a
failed comparison event); it then returns right after the events of that pair,
the first such one, without processing any later pair; and it returns the pass
status if and only if every one of the `N` pairs passes its checks and its
comparison. -/
theorem iterate_verdict (pf : Platform) (self : DeviceGroupTestInstance) :
    ((iterate pf self).outcome = .ok (.fail "Image comparison failed") ↔
      ∃ k, k < self.m_physicalDeviceCount ∧ (∀ j, j < k → PairPasses pf self j) ∧
        (∃ c, pairPreconditions pf self k = .ok c) ∧
        (pf.pair k).comparisonResult = false) ∧
    ((iterate pf self).outcome = .ok (.fail "Image comparison failed") ↔
      ∃ k, Event.imageComparison k (imageComparisonOf self) false ∈ (iterate pf self).events) ∧
    (∀ k, k < self.m_physicalDeviceCount → (∀ j, j < k → PairPasses pf self j) →
      (∃ c, pairPreconditions pf self k = .ok c) → (pf.pair k).comparisonResult = false →
      (iterate pf self).events = eventsOfPairs pf self k 0 ++ pairEvents pf self k) ∧
    ((iterate pf self).outcome = .ok (.pass "Device group verification passed") ↔
      ∀ k, k < self.m_physicalDeviceCount → PairPasses pf self k) ∧
    (∀ status, (iterate pf self).outcome = .ok status →
      status = .fail "Image comparison failed" ∨
      status = .pass "Device group verification passed") := by
  have hfirst : ∀ k k2, (∀ j, j < k → PairPasses pf self j) → ¬ PairPasses pf self k →
      (∀ j, j < k2 → PairPasses pf self j) → ¬ PairPasses pf self k2 → k2 = k := by
    intro k k2 h1 h2 h3 h4
    by_contra hne
    rcases Nat.lt_or_gt_of_ne hne with hlt | hgt
    · exact h4 (h1 k2 hlt)
    · exact h2 (h3 k hgt)
  unfold iterate
  rcases iterateLoop_spec pf self self.m_physicalDeviceCount 0 [] with
    ⟨hall, h⟩ | ⟨k, _, hk, hbefore, ⟨e, he1, he2⟩ | ⟨hc, hcmp, h⟩⟩
  · have hall2 : ∀ j, j < self.m_physicalDeviceCount → PairPasses pf self j :=
      fun j hj => hall j (Nat.zero_le j) (by omega)
    rw [h]
    refine ⟨⟨fun h2 => (nomatch h2), ?_⟩, ⟨fun h2 => (nomatch h2), ?_⟩, ?_, ?_, ?_⟩
    · rintro ⟨k, hk, _, _, hcmp⟩
      exact absurd (hall2 k hk) (not_pairPasses_of_compare pf self k hcmp)
    · rintro ⟨k, hmem⟩
      simp only [List.nil_append] at hmem
      exact absurd hmem (no_failed_comparison_of_passes pf self _ 0
        (fun j h1 h2 => hall j h1 h2) k _)
    · intro k hk _ _ hcmp
      exact absurd (hall2 k hk) (not_pairPasses_of_compare pf self k hcmp)
    · exact ⟨fun _ => hall2, fun _ => rfl⟩
    · intro status hs
      injection hs with hs
      exact Or.inr hs.symm
  · have hbefore2 : ∀ j, j < k → PairPasses pf self j :=
      fun j hj => hbefore j (Nat.zero_le j) hj
    have hnp := not_pairPasses_of_error pf self k e he1
    rw [he2]
    refine ⟨⟨fun h2 => (nomatch h2), ?_⟩, ⟨fun h2 => (nomatch h2), ?_⟩, ?_, ?_, ?_⟩
    · rintro ⟨k2, hk2, hb2, ⟨c, hc⟩, hcmp⟩
      have := hfirst k k2 hbefore2 hnp hb2 (not_pairPasses_of_compare pf self k2 hcmp)
      subst this
      rw [he1] at hc
      cases hc
    · rintro ⟨k2, hmem⟩
      simp only [List.nil_append, Nat.sub_zero] at hmem
      exact absurd hmem (no_failed_comparison_of_passes pf self _ 0
        (fun j h1 h2 => hbefore j h1 (by omega)) k2 _)
    · intro k2 hk2 hb2 ⟨c, hc⟩ hcmp
      have := hfirst k k2 hbefore2 hnp hb2 (not_pairPasses_of_compare pf self k2 hcmp)
      subst this
      rw [he1] at hc
      cases hc
    · exact ⟨fun h2 => (nomatch h2), fun h2 => absurd (h2 k (by omega)) hnp⟩
    · intro status hs
      cases hs
  · have hbefore2 : ∀ j, j < k → PairPasses pf self j :=
      fun j hj => hbefore j (Nat.zero_le j) hj
    have hnp := not_pairPasses_of_compare pf self k hcmp
    rw [h]
    refine ⟨⟨fun _ => ⟨k, by omega, hbefore2, hc, hcmp⟩, fun _ => rfl⟩,
      ⟨fun _ => ⟨k, ?_⟩, fun _ => rfl⟩, ?_, ?_, ?_⟩
    · simp [pairEvents, hcmp]
    · intro k2 hk2 hb2 _ hcmp2
      have := hfirst k k2 hbefore2 hnp hb2 (not_pairPasses_of_compare pf self k2 hcmp2)
      subst this
      simp
    · refine ⟨fun h2 => ?_, fun h2 => absurd (h2 k (by omega)) hnp⟩
      injection h2 with h2
      cases h2
    · intro status hs
      injection hs with hs
      exact Or.inl hs.symm

/-- C13 at a two-device group in the `sfr` mode: when the comparison of the first
pair fails the run returns the fail status after the events of that pair; when
every comparison succeeds it returns the pass status. -/
theorem iterate_verdict_witness :
    (iterate samplePlatformFailing
        (DeviceGroupTestInstance.withGroup TEST_MODE_SFR 2 true)).outcome
      = .ok (.fail "Image comparison failed") ∧
    (iterate samplePlatformFailing
        (DeviceGroupTestInstance.withGroup TEST_MODE_SFR 2 true)).events
      = eventsOfPairs samplePlatformFailing
          (DeviceGroupTestInstance.withGroup TEST_MODE_SFR 2 true) 0 0 ++
        pairEvents samplePlatformFailing
          (DeviceGroupTestInstance.withGroup TEST_MODE_SFR 2 true) 0 ∧
    ((iterate (samplePlatform fun _ _ => 4)
        (DeviceGroupTestInstance.withGroup TEST_MODE_SFR 2 true)).outcome
      = .ok (.pass "Device group verification passed") ↔
      ∀ k, k < 2 → PairPasses (samplePlatform fun _ _ => 4)
        (DeviceGroupTestInstance.withGroup TEST_MODE_SFR 2 true) k) :=
  ⟨(iterate_verdict samplePlatformFailing
      (DeviceGroupTestInstance.withGroup TEST_MODE_SFR 2 true)).1.2
      ⟨0, by decide, fun j hj => absurd hj (Nat.not_lt_zero j), ⟨_, rfl⟩, rfl⟩,
   (iterate_verdict samplePlatformFailing
      (DeviceGroupTestInstance.withGroup TEST_MODE_SFR 2 true)).2.2.1 0 (by decide)
      (fun j hj => absurd hj (Nat.not_lt_zero j)) ⟨_, rfl⟩ rfl,
   (iterate_verdict (samplePlatform fun _ _ => 4)
      (DeviceGroupTestInstance.withGroup TEST_MODE_SFR 2 true)).2.2.2.1⟩

/-- A completed `init` leaves the mode and the mode flags of the constructor. -/
theorem init_ok_flags (ctx : Context) (mode : Nat) (res : InitOutput)
    (h : init ctx mode = .ok res) :
    res.self.m_testMode = mode ∧
    res.self.m_useHostMemory = (DeviceGroupTestInstance.construct mode).m_useHostMemory ∧
    res.self.m_useDedicated = (DeviceGroupTestInstance.construct mode).m_useDedicated ∧
    res.self.m_usePeerFetch = (DeviceGroupTestInstance.construct mode).m_usePeerFetch ∧
    res.self.m_fillModeNonSolid = (DeviceGroupTestInstance.construct mode).m_fillModeNonSolid ∧
    res.self.m_drawTessellatedSphere
      = (DeviceGroupTestInstance.construct mode).m_drawTessellatedSphere := by
  rcases init_cases ctx mode with ⟨_, h0⟩ | ⟨_, ⟨_, h0⟩ | ⟨_, ⟨_, _, h0⟩ | ⟨_, ⟨_, h0⟩ |
    ⟨_, ⟨_, h0⟩ | ⟨g, hg, ⟨_, _, h0⟩ | ⟨_, ⟨_, _, h0⟩ | ⟨_, ⟨_, _, h0⟩ |
    ⟨_, ⟨_, _, h0⟩ | ⟨_, (h0 | ⟨res2, h0, _, _, _, a1, a2, a3, a4, a5, a6, _, _⟩)⟩⟩⟩⟩⟩⟩⟩⟩⟩
  all_goals first
    | (rw [h0] at h; injection h with h; subst h; exact ⟨a1, a2, a3, a4, a5, a6⟩)
    | (rw [h0] at h; simp at h)

/-- Every event of a run of the loop is an earlier one or an event of some pair. -/
theorem mem_iterateLoop_events (pf : Platform) (self : DeviceGroupTestInstance) :
    ∀ (todo physDevID : Nat) (done : List Event) (ev : Event),
      ev ∈ (iterateLoop pf self todo physDevID done).events →
      ev ∈ done ∨ ∃ k, ev ∈ pairEvents pf self k := by
  intro todo
  induction todo with
  | zero =>
    intro physDevID done ev h
    simp only [iterateLoop] at h
    exact Or.inl h
  | succ todo ih =>
    intro physDevID done ev h
    rw [iterateLoop] at h
    split at h
    · exact Or.inl h
    · simp only at h
      split at h
      · simp only [List.mem_append] at h
        rcases h with h | h
        · exact Or.inl h
        · exact Or.inr ⟨physDevID, h⟩
      · rcases ih _ _ ev h with h2 | h2
        · rw [List.mem_append] at h2
          rcases h2 with h2 | h2
          · exact Or.inl h2
          · exact Or.inr ⟨physDevID, h2⟩
        · exact Or.inr h2

/-- C14: for an instance that `init` completed for `mode`, the comparison depends
on the scene bits alone. Without the tessellation bit it is
`intThresholdPositionDeviationCompare` with threshold 0 in every channel and
position deviation `(1, 1, 0)` against the triangle rendered over the clear
colour; with the tessellation bit it is `fuzzyCompare` with threshold 0.001
against a loaded image, `sphere.png` exactly when the line-fill bit is set and
`spherefilled.png` otherwise. Every comparison of a run of `iterate` is this one. -/
theorem imageComparison_by_scene (ctx : Context) (mode : Nat) (res : InitOutput)
    (hinit : init ctx mode = .ok res) :
    (mode &&& TEST_MODE_TESSELLATION = 0 →
      imageComparisonOf res.self =
        .intThresholdPositionDeviationCompare (.renderedTriangle ⟨0.125, 0.25, 0.75, 1.0⟩)
          (0, 0, 0, 0) (1, 1, 0) false) ∧
    (mode &&& TEST_MODE_TESSELLATION ≠ 0 → mode &&& TEST_MODE_LINEFILL ≠ 0 →
      imageComparisonOf res.self =
        .fuzzyCompare (.loadedPNG "vulkan/data/device_group/sphere.png") 0.001) ∧
    (mode &&& TEST_MODE_TESSELLATION ≠ 0 → mode &&& TEST_MODE_LINEFILL = 0 →
      imageComparisonOf res.self =
        .fuzzyCompare (.loadedPNG "vulkan/data/device_group/spherefilled.png") 0.001) ∧
    (∀ (pf : Platform) (k : Nat) (comparison : ImageComparison) (r : Bool),
      Event.imageComparison k comparison r ∈ (iterate pf res.self).events →
      comparison = imageComparisonOf res.self) := by
  obtain ⟨_, _, _, _, hfill, htess⟩ := init_ok_flags ctx mode res hinit
  refine ⟨?_, ?_, ?_, ?_⟩
  · intro h
    have ht : res.self.m_drawTessellatedSphere = false := by
      rw [htess, ← Bool.not_eq_true, construct_drawTessellatedSphere]
      exact fun hne => hne h
    simp [imageComparisonOf, ht, clearColor]
  · intro h1 h2
    have ht : res.self.m_drawTessellatedSphere = true := by
      rw [htess, construct_drawTessellatedSphere]
      exact h1
    have hf : res.self.m_fillModeNonSolid = true := by
      rw [hfill, construct_fillModeNonSolid]
      exact h2
    simp [imageComparisonOf, ht, hf]
  · intro h1 h2
    have ht : res.self.m_drawTessellatedSphere = true := by
      rw [htess, construct_drawTessellatedSphere]
      exact h1
    have hf : res.self.m_fillModeNonSolid = false := by
      rw [hfill, ← Bool.not_eq_true, construct_fillModeNonSolid]
      exact fun hne => hne h2
    simp [imageComparisonOf, ht, hf]
  · intro pf k comparison r hmem
    rcases mem_iterateLoop_events pf res.self _ _ _ _ hmem with h | ⟨k2, h⟩
    · cases h
    · unfold pairEvents at h
      rw [List.mem_append] at h
      rcases h with h | h
      · exact absurd h (imageComparison_not_mem_pairSubmissions _ _ _ _ _ _)
      · rw [List.mem_singleton] at h
        injection h with _ h2 _

/-- C14 at the registered modes `sfr` and `sfr_tessellated_linefill` on a
two-device group. -/
theorem imageComparison_by_scene_witness :
    imageComparisonOf (DeviceGroupTestInstance.withGroup TEST_MODE_SFR 2 true) =
      .intThresholdPositionDeviationCompare (.renderedTriangle ⟨0.125, 0.25, 0.75, 1.0⟩)
        (0, 0, 0, 0) (1, 1, 0) false ∧
    imageComparisonOf (DeviceGroupTestInstance.withGroup
        (TEST_MODE_SFR ||| TEST_MODE_TESSELLATION ||| TEST_MODE_LINEFILL ||| TEST_MODE_DEDICATED
          ||| TEST_MODE_PEER_FETCH) 2 true) =
      .fuzzyCompare (.loadedPNG "vulkan/data/device_group/sphere.png") 0.001 :=
  ⟨(imageComparison_by_scene (sampleContext [sampleGroup 2] 1 ⟨true, true⟩) TEST_MODE_SFR
      ⟨DeviceGroupTestInstance.withGroup TEST_MODE_SFR 2 true,
        ["VK_KHR_device_group", "VK_KHR_bind_memory2"], []⟩ rfl).1 (by decide),
   (imageComparison_by_scene (sampleContext [sampleGroup 2] 1 ⟨true, true⟩)
      (TEST_MODE_SFR ||| TEST_MODE_TESSELLATION ||| TEST_MODE_LINEFILL ||| TEST_MODE_DEDICATED
          ||| TEST_MODE_PEER_FETCH)
      ⟨DeviceGroupTestInstance.withGroup
        (TEST_MODE_SFR ||| TEST_MODE_TESSELLATION ||| TEST_MODE_LINEFILL ||| TEST_MODE_DEDICATED
          ||| TEST_MODE_PEER_FETCH) 2 true,
        ["VK_KHR_device_group", "VK_KHR_dedicated_allocation", "VK_KHR_bind_memory2"], []⟩
      rfl).2.1 (by decide) (by decide)⟩

/-- The events of consecutive ranges of pairs concatenate. -/
theorem eventsOfPairs_add (pf : Platform) (self : DeviceGroupTestInstance) :
    ∀ (a b p : Nat), eventsOfPairs pf self (a + b) p =
      eventsOfPairs pf self a p ++ eventsOfPairs pf self b (p + a) := by
  intro a
  induction a with
  | zero =>
    intro b p
    simp [eventsOfPairs]
  | succ a ih =>
    intro b p
    have h : a + 1 + b = (a + b) + 1 := by omega
    rw [h, eventsOfPairs, eventsOfPairs, ih b (p + 1), List.append_assoc]
    have h2 : p + 1 + a = p + (a + 1) := by omega
    rw [h2]

/-- The run of a reached pair whose checks pass starts with the events of the
earlier pairs followed by the events of that pair. -/
theorem iterate_events_of_reached_pair (pf : Platform) (self : DeviceGroupTestInstance)
    (k : Nat) (hk : k < self.m_physicalDeviceCount) (hreach : ∀ j, j < k → PairPasses pf self j)
    (hpre : ∃ c, pairPreconditions pf self k = .ok c) :
    ∃ rest, (iterate pf self).events =
      eventsOfPairs pf self k 0 ++ pairEvents pf self k ++ rest := by
  have hsplit : ∀ n, k < n → ∃ rest, eventsOfPairs pf self n 0 =
      eventsOfPairs pf self k 0 ++ pairEvents pf self k ++ rest := by
    intro n hn
    have h1 : n = k + ((n - k - 1) + 1) := by omega
    refine ⟨eventsOfPairs pf self (n - k - 1) (0 + k + 1), ?_⟩
    rw [h1, eventsOfPairs_add, eventsOfPairs, List.append_assoc]
    have h2 : k + (n - k - 1 + 1) - k - 1 = n - k - 1 := by omega
    rw [h2, Nat.zero_add]
  unfold iterate
  rcases iterateLoop_spec pf self self.m_physicalDeviceCount 0 [] with
    ⟨_, h⟩ | ⟨k2, _, hk2, hbefore, ⟨e, he1, he2⟩ | ⟨_, hcmp, h⟩⟩
  · rw [h]
    simp only [List.nil_append]
    exact hsplit _ hk
  · have hlt : k < k2 := by
      by_contra hge
      have hnp := not_pairPasses_of_error pf self k2 e he1
      rcases Nat.lt_or_ge k2 k with h1 | h1
      · exact hnp (hreach k2 h1)
      · have : k2 = k := by omega
        subst this
        obtain ⟨c, hc⟩ := hpre
        rw [he1] at hc
        cases hc
    rw [he2]
    simp only [List.nil_append, Nat.sub_zero]
    exact hsplit _ hlt
  · have hle : k ≤ k2 := by
      by_contra hgt
      exact not_pairPasses_of_compare pf self k2 hcmp (hreach k2 (by omega))
    rw [h]
    simp only [List.nil_append, Nat.sub_zero]
    rcases Nat.lt_or_ge k k2 with h1 | h1
    · obtain ⟨rest, hr⟩ := hsplit _ h1
      exact ⟨rest ++ pairEvents pf self k2, by rw [hr, List.append_assoc]⟩
    · have : k2 = k := by omega
      subst this
      exact ⟨[], by simp⟩

/-- C19: for a group of `N ≤ 32` devices and a pair `first < N`, the submissions of
one loop iteration are, in this order, the render submission with mask
`{first, second}`, the peer-copy submission with mask `{second}` and the readback
submission with mask `{first}`, each immediately followed by `waitForFences` on
the fence it was submitted with (wait-all, timeout `~0ull`) and `deviceWaitIdle`;
with `N = 1` the peer-copy submission is absent and both remaining masks are
`{0}`. A run of `iterate` that reaches the pair with passing checks contains
exactly these events for it, after those of the earlier pairs and before its
comparison. -/
theorem pairSubmissions_order (pf : Platform) (self : DeviceGroupTestInstance) (first : Nat)
    (hN32 : self.m_physicalDeviceCount ≤ 32) (hfirst : first < self.m_physicalDeviceCount) :
    (1 < self.m_physicalDeviceCount →
      pairSubmissions self first (secondDeviceID self.m_physicalDeviceCount first) =
        [.queueSubmit (renderSubmitDeviceMask first
            (secondDeviceID self.m_physicalDeviceCount first)) .render,
         .waitForFences .render true (2 ^ 64 - 1),
         .deviceWaitIdle,
         .queueSubmit (peerCopySubmitDeviceMask
            (secondDeviceID self.m_physicalDeviceCount first)) .peerCopy,
         .waitForFences .peerCopy true (2 ^ 64 - 1),
         .deviceWaitIdle,
         .queueSubmit (readbackSubmitDeviceMask first) .readback,
         .waitForFences .readback true (2 ^ 64 - 1),
         .deviceWaitIdle]) ∧
    (self.m_physicalDeviceCount = 1 →
      pairSubmissions self first (secondDeviceID self.m_physicalDeviceCount first) =
        [.queueSubmit 1 .render,
         .waitForFences .render true (2 ^ 64 - 1),
         .deviceWaitIdle,
         .queueSubmit 1 .readback,
         .waitForFences .readback true (2 ^ 64 - 1),
         .deviceWaitIdle] ∧ maskDevices 1 = {0}) ∧
    maskDevices (renderSubmitDeviceMask first (secondDeviceID self.m_physicalDeviceCount first))
      = {first, secondDeviceID self.m_physicalDeviceCount first} ∧
    maskDevices (peerCopySubmitDeviceMask (secondDeviceID self.m_physicalDeviceCount first))
      = {secondDeviceID self.m_physicalDeviceCount first} ∧
    maskDevices (readbackSubmitDeviceMask first) = {first} ∧
    ((∀ j, j < first → PairPasses pf self j) →
      (∃ c, pairPreconditions pf self first = .ok c) →
      ∃ rest, (iterate pf self).events =
        eventsOfPairs pf self first 0 ++
          pairSubmissions self first (secondDeviceID self.m_physicalDeviceCount first) ++
          Event.imageComparison first (imageComparisonOf self)
            (pf.pair first).comparisonResult :: rest) := by
  have hs := secondDeviceID_lt self.m_physicalDeviceCount first (by omega)
  have hf32 : first < 32 := by omega
  have hs32 : secondDeviceID self.m_physicalDeviceCount first < 32 := by omega
  refine ⟨?_, ?_, maskDevices_pair _ _ hf32 hs32, maskDevices_shl1 _ hs32,
    maskDevices_shl1 _ hf32, ?_⟩
  · intro hN
    simp [pairSubmissions, submitAndWait, hN]
  · intro hN
    have hf0 : first = 0 := by omega
    subst hf0
    constructor
    · have h0 : secondDeviceID 1 0 = 0 := by decide
      have hm1 : renderSubmitDeviceMask 0 0 = 1 := by decide
      have hm2 : readbackSubmitDeviceMask 0 = 1 := by decide
      simp [pairSubmissions, submitAndWait, hN, h0, hm1, hm2]
    · have := maskDevices_shl1 0 (by norm_num)
      simpa [shl1] using this
  · intro hreach hpre
    obtain ⟨rest, hr⟩ := iterate_events_of_reached_pair pf self first hfirst hreach hpre
    refine ⟨rest, ?_⟩
    rw [hr, pairEvents]
    simp [List.append_assoc]

/-- C19 at a three-device group, wrap-around pair `(2, 0)`, and at a one-device
group. -/
theorem pairSubmissions_order_witness :
    pairSubmissions (DeviceGroupTestInstance.withGroup TEST_MODE_SFR 3 true) 2
        (secondDeviceID 3 2) =
      [.queueSubmit 5 .render, .waitForFences .render true (2 ^ 64 - 1), .deviceWaitIdle,
       .queueSubmit 1 .peerCopy, .waitForFences .peerCopy true (2 ^ 64 - 1), .deviceWaitIdle,
       .queueSubmit 4 .readback, .waitForFences .readback true (2 ^ 64 - 1), .deviceWaitIdle] ∧
    pairSubmissions (DeviceGroupTestInstance.withGroup TEST_MODE_SFR 1 true) 0
        (secondDeviceID 1 0) =
      [.queueSubmit 1 .render, .waitForFences .render true (2 ^ 64 - 1), .deviceWaitIdle,
       .queueSubmit 1 .readback, .waitForFences .readback true (2 ^ 64 - 1), .deviceWaitIdle] :=
  ⟨(pairSubmissions_order (samplePlatform fun _ _ => 4)
      (DeviceGroupTestInstance.withGroup TEST_MODE_SFR 3 true) 2 (by decide) (by decide)).1
      (by decide),
   ((pairSubmissions_order (samplePlatform fun _ _ => 4)
      (DeviceGroupTestInstance.withGroup TEST_MODE_SFR 1 true) 0 (by decide) (by decide)).2.1
      rfl).1⟩

/-- C20: the region of the cross-device image copy has equal source and
destination offsets; in SFR mode (AFR bit clear) it is, for `N > 1`, exactly the
render area of `second`, offset `(128, 0)` and extent 128x256; in AFR mode it is
the whole 256x256 frame at offset `(0, 0)`; in both it lies inside the image. -/
theorem imageCopy_region (self : DeviceGroupTestInstance) (first : Nat)
    (hN : 1 < self.m_physicalDeviceCount) (hN32 : self.m_physicalDeviceCount < 2 ^ 32)
    (hfirst : first < self.m_physicalDeviceCount) :
    (imageCopy renderSize self).srcOffset = (imageCopy renderSize self).dstOffset ∧
    (self.m_testMode &&& TEST_MODE_AFR = 0 →
      imageCopy renderSize self = ⟨⟨128, 0, 0⟩, ⟨128, 0, 0⟩, ⟨128, 256, 1⟩⟩ ∧
      (renderAreas renderSize self.m_physicalDeviceCount first
          (secondDeviceID self.m_physicalDeviceCount first))[secondDeviceID
            self.m_physicalDeviceCount first]? =
        some ⟨⟨(imageCopy renderSize self).srcOffset.x, (imageCopy renderSize self).srcOffset.y⟩,
          ⟨(imageCopy renderSize self).extent.width,
            (imageCopy renderSize self).extent.height⟩⟩) ∧
    (self.m_testMode &&& TEST_MODE_AFR ≠ 0 →
      imageCopy renderSize self = ⟨⟨0, 0, 0⟩, ⟨0, 0, 0⟩, ⟨256, 256, 1⟩⟩) ∧
    (0 ≤ (imageCopy renderSize self).srcOffset.x ∧
      (imageCopy renderSize self).srcOffset.x + (imageCopy renderSize self).extent.width ≤ 256 ∧
      0 ≤ (imageCopy renderSize self).srcOffset.y ∧
      (imageCopy renderSize self).srcOffset.y + (imageCopy renderSize self).extent.height
        ≤ 256) := by
  have hsfr : self.m_testMode &&& TEST_MODE_AFR = 0 →
      imageCopy renderSize self = ⟨⟨128, 0, 0⟩, ⟨128, 0, 0⟩, ⟨128, 256, 1⟩⟩ := by
    intro h
    simp only [imageCopy, h, ne_eq, not_true_eq_false, if_false]
    decide
  have hafr : self.m_testMode &&& TEST_MODE_AFR ≠ 0 →
      imageCopy renderSize self = ⟨⟨0, 0, 0⟩, ⟨0, 0, 0⟩, ⟨256, 256, 1⟩⟩ := by
    intro h
    simp only [imageCopy, h, ne_eq, not_false_eq_true, if_true]
    decide
  refine ⟨rfl, ?_, hafr, ?_⟩
  · intro h
    refine ⟨hsfr h, ?_⟩
    obtain ⟨_, _, h2, _⟩ := renderAreas_split renderSize self.m_physicalDeviceCount first
      (secondDeviceID self.m_physicalDeviceCount first) (by omega) hfirst
      (secondDeviceID_lt _ first (by omega)) (secondDeviceID_ne _ first (by omega) hN32 hfirst)
    rw [h2, hsfr h, renderSize_half_u, renderSize_height_u, renderSize_half]
  · by_cases h : self.m_testMode &&& TEST_MODE_AFR = 0
    · rw [hsfr h]
      decide
    · rw [hafr h]
      decide

/-- C20 at the registered modes `sfr` and `afr` on a two-device group. -/
theorem imageCopy_region_witness :
    imageCopy renderSize (DeviceGroupTestInstance.withGroup TEST_MODE_SFR 2 true)
      = ⟨⟨128, 0, 0⟩, ⟨128, 0, 0⟩, ⟨128, 256, 1⟩⟩ ∧
    imageCopy renderSize (DeviceGroupTestInstance.withGroup TEST_MODE_AFR 2 true)
      = ⟨⟨0, 0, 0⟩, ⟨0, 0, 0⟩, ⟨256, 256, 1⟩⟩ :=
  ⟨((imageCopy_region (DeviceGroupTestInstance.withGroup TEST_MODE_SFR 2 true) 0 (by decide)
      (by decide) (by decide)).2.1 (by decide)).1,
   (imageCopy_region (DeviceGroupTestInstance.withGroup TEST_MODE_AFR 2 true) 0 (by decide)
      (by decide) (by decide)).2.2.1 (by decide)⟩

/-! ## Allocations, bindings, tables and copies of one pair -/

/-- C21 as stated fails: in the dedicated mode `sfr_dedicated` on two devices,
the allocation `imageMemory`, whose dedicated info names the render image, is
also bound to `readImage`. -/
theorem dedicated_image_memory_aliased_counterexample :
    ¬ (∀ b ∈ memoryBindings (DeviceGroupTestInstance.withGroup
          (TEST_MODE_SFR ||| TEST_MODE_DEDICATED) 2 true) 0 1,
        b.memory = .imageMemory →
        ∀ a ∈ deviceAllocations (DeviceGroupTestInstance.withGroup
          (TEST_MODE_SFR ||| TEST_MODE_DEDICATED) 2 true) 0 1,
        a.memory = .imageMemory →
        a.dedicatedAllocInfo.image = some b.resource ∨
          a.dedicatedAllocInfo.buffer = some b.resource) := by
  intro h
  have h2 := h ⟨.readImage, .imageMemory, [], []⟩ (by decide) rfl
    ⟨.imageMemory, ⟨true, 3⟩, ⟨some .renderImage, none⟩⟩ (by decide) rfl
  revert h2
  decide

/-- The resource and memory of each binding of one iteration. -/
theorem memoryBindings_pairs (self : DeviceGroupTestInstance) (first second : Nat) :
    (memoryBindings self first second).map (fun b => (b.resource, b.memory)) =
      [(Resource.vertexBuffer, DeviceMemory.vertexBufferMemory),
       (Resource.indexBuffer, DeviceMemory.indexBufferMemory),
       (Resource.uniformBuffer, DeviceMemory.uniformBufferMemory),
       (Resource.sboBuffer, DeviceMemory.sboBufferMemory),
       (Resource.renderImage, DeviceMemory.imageMemory),
       (Resource.readImage, DeviceMemory.imageMemory)] ++
      (if 1 < self.m_physicalDeviceCount then
        [(Resource.peerImage, DeviceMemory.imageMemory)] else []) := by
  unfold memoryBindings
  by_cases h : 1 < self.m_physicalDeviceCount <;> simp [h]

/-- The memory and dedicated info of each allocation of one iteration. -/
theorem deviceAllocations_pairs (self : DeviceGroupTestInstance) (first second : Nat) :
    (deviceAllocations self first second).map (fun a => (a.memory, a.dedicatedAllocInfo)) =
      [(DeviceMemory.vertexBufferMemory, ⟨none, some Resource.vertexBuffer⟩),
       (DeviceMemory.indexBufferMemory, ⟨none, some Resource.indexBuffer⟩),
       (DeviceMemory.uniformBufferMemory, ⟨none, some Resource.uniformBuffer⟩),
       (DeviceMemory.sboBufferMemory, ⟨none, some Resource.sboBuffer⟩),
       (DeviceMemory.imageMemory, ⟨some Resource.renderImage, none⟩)] := rfl

/-- Membership of a binding, in terms of its resource and memory. -/
theorem mem_memoryBindings_pairs (self : DeviceGroupTestInstance) (first second : Nat)
    (r : Resource) (m : DeviceMemory) :
    (∃ b ∈ memoryBindings self first second, b.resource = r ∧ b.memory = m) ↔
      (r, m) ∈ [(Resource.vertexBuffer, DeviceMemory.vertexBufferMemory),
       (Resource.indexBuffer, DeviceMemory.indexBufferMemory),
       (Resource.uniformBuffer, DeviceMemory.uniformBufferMemory),
       (Resource.sboBuffer, DeviceMemory.sboBufferMemory),
       (Resource.renderImage, DeviceMemory.imageMemory),
       (Resource.readImage, DeviceMemory.imageMemory)] ++
      (if 1 < self.m_physicalDeviceCount then
        [(Resource.peerImage, DeviceMemory.imageMemory)] else []) := by
  rw [← memoryBindings_pairs self first second, List.mem_map]
  constructor
  · rintro ⟨b, hb, rfl, rfl⟩
    exact ⟨b, hb, rfl⟩
  · rintro ⟨b, hb, heq⟩
    injection heq with h1 h2
    exact ⟨b, hb, h1, h2⟩

/-- C21, amended: in dedicated-allocation mode each of the five device-memory
allocations of an iteration chains a dedicated-allocation info that names
exactly one resource (the buffer for the four buffer allocations, the render
image for `imageMemory`), and the named resource is bound to that allocation;
each buffer allocation is bound to its buffer only, while `imageMemory` is bound
to the render image, to `readImage` and, with more than one device, to the peer
image, which alias the same memory. -/
theorem dedicated_allocations_and_bindings (self : DeviceGroupTestInstance)
    (first second : Nat) (hded : self.m_useDedicated = true) :
    (deviceAllocations self first second).map (fun a => a.memory) =
      [.vertexBufferMemory, .indexBufferMemory, .uniformBufferMemory, .sboBufferMemory,
        .imageMemory] ∧
    (∀ a ∈ deviceAllocations self first second,
      a.flagsInfo.pNextDedicated = true ∧
      ((a.dedicatedAllocInfo.image.isSome = true ∧ a.dedicatedAllocInfo.buffer = none) ∨
        (a.dedicatedAllocInfo.image = none ∧ a.dedicatedAllocInfo.buffer.isSome = true)) ∧
      (∀ r, (a.dedicatedAllocInfo.image = some r ∨ a.dedicatedAllocInfo.buffer = some r) →
        ∃ b ∈ memoryBindings self first second, b.resource = r ∧ b.memory = a.memory) ∧
      (a.memory ≠ .imageMemory →
        ∀ b ∈ memoryBindings self first second, b.memory = a.memory →
          a.dedicatedAllocInfo.buffer = some b.resource)) ∧
    (∀ a ∈ deviceAllocations self first second, a.memory = .imageMemory →
      a.dedicatedAllocInfo = ⟨some .renderImage, none⟩) ∧
    (∀ r, (∃ b ∈ memoryBindings self first second, b.resource = r ∧ b.memory = .imageMemory) ↔
      (r = .renderImage ∨ r = .readImage ∨
        (r = .peerImage ∧ 1 < self.m_physicalDeviceCount))) := by
  have hpairs : ∀ a ∈ deviceAllocations self first second,
      (a.memory, a.dedicatedAllocInfo) ∈
        [(DeviceMemory.vertexBufferMemory,
            (⟨none, some Resource.vertexBuffer⟩ : VkMemoryDedicatedAllocateInfo)),
         (DeviceMemory.indexBufferMemory, ⟨none, some Resource.indexBuffer⟩),
         (DeviceMemory.uniformBufferMemory, ⟨none, some Resource.uniformBuffer⟩),
         (DeviceMemory.sboBufferMemory, ⟨none, some Resource.sboBuffer⟩),
         (DeviceMemory.imageMemory, ⟨some Resource.renderImage, none⟩)] := by
    intro a ha
    rw [← deviceAllocations_pairs self first second]
    exact List.mem_map.2 ⟨a, ha, rfl⟩
  have hflags : ∀ a ∈ deviceAllocations self first second,
      a.flagsInfo.pNextDedicated = true := by
    intro a ha
    simp only [deviceAllocations, List.mem_cons, List.mem_singleton, List.not_mem_nil,
      or_false] at ha
    rcases ha with rfl | rfl | rfl | rfl | rfl <;> exact hded
  refine ⟨rfl, ?_, ?_, ?_⟩
  · intro a ha
    have hp := hpairs a ha
    generalize a.memory = m at hp ⊢
    generalize a.dedicatedAllocInfo = d at hp ⊢
    simp only [List.mem_cons, List.mem_singleton, Prod.mk.injEq, List.not_mem_nil,
      or_false] at hp
    refine ⟨hflags a ha, ?_, ?_, ?_⟩
    · rcases hp with ⟨rfl, rfl⟩ | ⟨rfl, rfl⟩ | ⟨rfl, rfl⟩ | ⟨rfl, rfl⟩ | ⟨rfl, rfl⟩ <;> decide
    · intro r hr
      rw [mem_memoryBindings_pairs]
      rcases hp with ⟨rfl, rfl⟩ | ⟨rfl, rfl⟩ | ⟨rfl, rfl⟩ | ⟨rfl, rfl⟩ | ⟨rfl, rfl⟩ <;>
        simp at hr <;> subst hr <;> simp
    · intro hne b hb hmem
      have hq := (mem_memoryBindings_pairs self first second b.resource b.memory).1
        ⟨b, hb, rfl, rfl⟩
      generalize b.resource = r at hq ⊢
      generalize b.memory = m2 at hq hmem
      subst hmem
      rcases hp with ⟨rfl, rfl⟩ | ⟨rfl, rfl⟩ | ⟨rfl, rfl⟩ | ⟨rfl, rfl⟩ | ⟨rfl, rfl⟩
      · by_cases hN : 1 < self.m_physicalDeviceCount <;> simp [hN] at hq <;> simp [hq]
      · by_cases hN : 1 < self.m_physicalDeviceCount <;> simp [hN] at hq <;> simp [hq]
      · by_cases hN : 1 < self.m_physicalDeviceCount <;> simp [hN] at hq <;> simp [hq]
      · by_cases hN : 1 < self.m_physicalDeviceCount <;> simp [hN] at hq <;> simp [hq]
      · exact absurd rfl hne
  · intro a ha hm
    have hp := hpairs a ha
    generalize a.memory = m at hp hm
    generalize a.dedicatedAllocInfo = d at hp ⊢
    subst hm
    simp only [List.mem_cons, List.mem_singleton, Prod.mk.injEq, List.not_mem_nil,
      or_false] at hp
    rcases hp with ⟨h, rfl⟩ | ⟨h, rfl⟩ | ⟨h, rfl⟩ | ⟨h, rfl⟩ | ⟨_, rfl⟩
    · exact absurd h (by decide)
    · exact absurd h (by decide)
    · exact absurd h (by decide)
    · exact absurd h (by decide)
    · rfl
  · intro r
    rw [mem_memoryBindings_pairs]
    by_cases hN : 1 < self.m_physicalDeviceCount
    · simp only [hN, if_true, and_true]
      cases r <;> decide
    · simp only [hN, if_false, and_false, or_false]
      cases r <;> decide

/-- C21 (amended) at the mode `sfr_dedicated` on two devices, pair `(0, 1)`. -/
theorem dedicated_allocations_and_bindings_witness :
    (deviceAllocations (DeviceGroupTestInstance.withGroup
        (TEST_MODE_SFR ||| TEST_MODE_DEDICATED) 2 true) 0 1).map (fun a => a.memory) =
      [.vertexBufferMemory, .indexBufferMemory, .uniformBufferMemory, .sboBufferMemory,
        .imageMemory] ∧
    (∀ a ∈ deviceAllocations (DeviceGroupTestInstance.withGroup
        (TEST_MODE_SFR ||| TEST_MODE_DEDICATED) 2 true) 0 1, a.memory = .imageMemory →
      a.dedicatedAllocInfo = ⟨some .renderImage, none⟩) :=
  ⟨(dedicated_allocations_and_bindings (DeviceGroupTestInstance.withGroup
      (TEST_MODE_SFR ||| TEST_MODE_DEDICATED) 2 true) 0 1 (by decide)).1,
   (dedicated_allocations_and_bindings (DeviceGroupTestInstance.withGroup
      (TEST_MODE_SFR ||| TEST_MODE_DEDICATED) 2 true) 0 1 (by decide)).2.2.1⟩

/-- With no property flag requested the loop of `getMemoryIndex` does not depend
on the entries of the memory-type table. -/
theorem getMemoryIndexLoop_flag_zero (p q : VkPhysicalDeviceMemoryProperties) (bits : Nat) :
    ∀ todo ndx, getMemoryIndexLoop p bits 0 todo ndx = getMemoryIndexLoop q bits 0 todo ndx := by
  intro todo
  induction todo with
  | zero => intro ndx; rfl
  | succ todo ih =>
    intro ndx
    simp only [getMemoryIndexLoop, Nat.and_zero, and_true]
    rw [ih (ndx + 1)]

/-- The flag `m_useHostMemory` set by the constructor is the host-memory bit. -/
theorem construct_useHostMemory (mode : Nat) :
    (DeviceGroupTestInstance.construct mode).m_useHostMemory
      = decide (mode &&& TEST_MODE_HOSTMEMORY ≠ 0) := rfl

/-- C22: after a completed `init` for `mode`, when the checks of a pair pass on a
platform with at most 32 memory types, the memory type of the render image is the
result of `getMemoryIndex` on the image's `memoryTypeBits`, with the device-local
flag requested when the host-memory bit of `mode` is clear (the chosen type then
has the device-local flag) and with no flag requested when it is set; in the
host-memory case the chosen index is below `memoryTypeCount`, its bit is set in
`memoryTypeBits`, no lower index has its bit set, and the same index is chosen
whatever the entries of the memory-type table are. -/
theorem image_memory_type_by_host_bit (ctx : Context) (mode : Nat) (res : InitOutput)
    (pf : Platform) (k : Nat) (c : ChosenMemoryTypes)
    (hinit : init ctx mode = .ok res)
    (hcount : pf.deviceMemProps.memoryTypeCount ≤ 32)
    (h : pairPreconditions pf res.self k = .ok c) :
    (mode &&& TEST_MODE_HOSTMEMORY = 0 →
      getMemoryIndex pf.deviceMemProps (pf.pair k).imageMemoryTypeBits
        VK_MEMORY_PROPERTY_DEVICE_LOCAL_BIT = .ok c.image ∧
      c.image < pf.deviceMemProps.memoryTypeCount ∧
      (pf.pair k).imageMemoryTypeBits.testBit c.image = true ∧
      (pf.deviceMemProps.memoryTypes c.image).propertyFlags.testBit 0 = true ∧
      ∀ j, j < c.image → ¬ ((pf.pair k).imageMemoryTypeBits.testBit j = true ∧
        (pf.deviceMemProps.memoryTypes j).propertyFlags.testBit 0 = true)) ∧
    (mode &&& TEST_MODE_HOSTMEMORY ≠ 0 →
      getMemoryIndex pf.deviceMemProps (pf.pair k).imageMemoryTypeBits 0 = .ok c.image ∧
      c.image < pf.deviceMemProps.memoryTypeCount ∧
      (pf.pair k).imageMemoryTypeBits.testBit c.image = true ∧
      (∀ j, j < c.image → (pf.pair k).imageMemoryTypeBits.testBit j = false) ∧
      ∀ memoryTypes2 : Nat → VkMemoryType,
        getMemoryIndex ⟨pf.deviceMemProps.memoryTypeCount, memoryTypes2⟩
          (pf.pair k).imageMemoryTypeBits 0 = .ok c.image) := by
  have himg := (pairPreconditions_ok pf res.self k c h).2.2.2.2
  have hflag := (init_ok_flags ctx mode res hinit).2.1
  rw [construct_useHostMemory] at hflag
  constructor
  · intro hm
    have hb : res.self.m_useHostMemory = false := by rw [hflag]; simp [hm]
    rw [hb] at himg
    simp only [Bool.false_eq_true, if_false] at himg
    have hl := getMemoryIndexLoop_ok pf.deviceMemProps (pf.pair k).imageMemoryTypeBits
      VK_MEMORY_PROPERTY_DEVICE_LOCAL_BIT pf.deviceMemProps.memoryTypeCount 0 c.image
      (by omega) himg
    obtain ⟨_, hlt, hcomp, hfirst⟩ := hl
    have h1 : VK_MEMORY_PROPERTY_DEVICE_LOCAL_BIT.testBit 0 = true := by decide
    refine ⟨himg, by omega, hcomp.1, hcomp.2 0 h1, ?_⟩
    intro j hj hc
    apply hfirst j (Nat.zero_le j) hj
    refine ⟨hc.1, ?_⟩
    intro b hb2
    have hb0 : b = 0 := by
      by_contra hne
      have h2 : VK_MEMORY_PROPERTY_DEVICE_LOCAL_BIT = 2 ^ 0 := by decide
      rw [h2, Nat.testBit_two_pow] at hb2
      simp at hb2
      exact hne hb2.symm
    rw [hb0]
    exact hc.2
  · intro hm
    have hb : res.self.m_useHostMemory = true := by rw [hflag]; simp [hm]
    rw [hb] at himg
    simp only [if_true] at himg
    have hl := getMemoryIndexLoop_ok pf.deviceMemProps (pf.pair k).imageMemoryTypeBits
      0 pf.deviceMemProps.memoryTypeCount 0 c.image (by omega) himg
    obtain ⟨_, hlt, hcomp, hfirst⟩ := hl
    refine ⟨himg, by omega, hcomp.1, ?_, ?_⟩
    · intro j hj
      by_contra hne
      apply hfirst j (Nat.zero_le j) hj
      refine ⟨by simpa using hne, ?_⟩
      intro b hb2
      simp at hb2
    · intro memoryTypes2
      unfold getMemoryIndex
      rw [getMemoryIndexLoop_flag_zero _ pf.deviceMemProps]
      exact himg

/-- C22 on the sample platform whose render image accepts types 1 and 2: in the
mode `sfr_sys` the image gets type 1, whose flags `0x6` lack the device-local bit. -/
theorem image_memory_type_by_host_bit_witness :
    getMemoryIndex samplePlatformImageBits.deviceMemProps
        (samplePlatformImageBits.pair 0).imageMemoryTypeBits 0 = .ok 1 ∧
    (samplePlatformImageBits.deviceMemProps.memoryTypes 1).propertyFlags.testBit 0 = false :=
  ⟨(((image_memory_type_by_host_bit
      (sampleContext [sampleGroup 2] 1 ⟨true, true⟩) (TEST_MODE_SFR ||| TEST_MODE_HOSTMEMORY)
      _ samplePlatformImageBits 0 ⟨0, 0, 0, 0, 1⟩ rfl (by decide) rfl).2 (by decide)).1),
   by decide⟩

/-- Row `r` of `sfrRects` for the 256x256 target and at least two devices: the
rows of `f` and `s` hold the left half in column `f` and the right half in
column `s`; all other entries are `zeroRect`. -/
theorem sfrRects_row (N f s r j : Nat) (hN : 2 ≤ N) (hNN : N * N < 2 ^ 32)
    (hf : f < N) (hs : s < N) (hfs : s ≠ f) (hr : r < N) (hj : j < N) :
    rectAt (sfrRects renderSize N f s) (r * N + j) =
      if r = f ∨ r = s then
        (if j = f then leftHalfRect else if j = s then rightHalfRect else zeroRect)
      else zeroRect := by
  obtain ⟨_, e1, e2, e3, e4, e5⟩ := sfrRects_split renderSize N f s (by omega) hNN hf hs hfs
  rw [renderSize_half_u, renderSize_height_u] at e1 e3
  rw [renderSize_half_u, renderSize_height_u, renderSize_half] at e2 e4
  have hlt := cellIndex_lt N r j hr hj
  unfold rectAt
  by_cases h1 : r = f
  · subst h1
    by_cases h2 : j = r
    · subst h2
      rw [e1]
      simp [leftHalfRect]
    · by_cases h3 : j = s
      · subst h3
        rw [e2]
        simp [h2, rightHalfRect]
      · rw [e5 _ hlt (by omega) (by omega)
          (fun h => hfs (cellIndex_inj N r j s r hj hr h).1.symm)
          (fun h => hfs (cellIndex_inj N r j s s hj hs h).1.symm)]
        simp [h2, h3]
  · by_cases h1s : r = s
    · subst h1s
      by_cases h2 : j = f
      · subst h2
        rw [e3]
        simp [leftHalfRect]
      · by_cases h3 : j = r
        · subst h3
          rw [e4]
          simp [h2, rightHalfRect]
        · rw [e5 _ hlt
            (fun h => h1 (cellIndex_inj N r j f f hj hf h).1)
            (fun h => h1 (cellIndex_inj N r j f r hj hr h).1)
            (by omega) (by omega)]
          simp [h2, h3]
    · rw [e5 _ hlt
        (fun h => h1 (cellIndex_inj N r j f f hj hf h).1)
        (fun h => h1 (cellIndex_inj N r j f s hj hs h).1)
        (fun h => h1s (cellIndex_inj N r j s f hj hf h).1)
        (fun h => h1s (cellIndex_inj N r j s s hj hs h).1)]
      simp [h1, h1s]

/-- C23 as stated fails: with three devices and the pair `(0, 1)`, no rectangle of
row 2 (the instance of device 2) contains the pixel `(0, 0)`. -/
theorem sfrRects_row_tiling_counterexample :
    ¬ (∀ i, i < 3 → ∃ j, j < 3 ∧
        (rectAt (sfrRects renderSize 3 0 (secondDeviceID 3 0)) (i * 3 + j)).covers 0 0) := by
  intro h
  obtain ⟨j, hj, hc⟩ := h 2 (by decide)
  have hz : rectAt (sfrRects renderSize 3 0 (secondDeviceID 3 0)) (2 * 3 + j) = zeroRect := by
    interval_cases j <;> decide
  rw [hz] at hc
  revert hc
  simp [VkRect2D.covers, zeroRect]

/-- The one-device table: a single rectangle, the whole target. -/
theorem sfrRects_single : sfrRects renderSize 1 0 0 = [⟨⟨0, 0⟩, ⟨256, 256⟩⟩] := by decide

/-- C23, amended: for `N ≥ 1` devices (`N * N` a `deUint32`) and `first < N`, the
table `sfrRects` has `N * N` entries and the four indices written are below
`N * N`; in the rows of `first` and of `second` the rectangles are pairwise
non-overlapping and their union is the whole 256x256 render target; in the row of
any other device (there is one only when `N ≥ 3`) every rectangle is `zeroRect`. -/
theorem sfrRects_rows_of_pair_tile (N first : Nat) (hN : 1 ≤ N) (hNN : N * N < 2 ^ 32)
    (hfirst : first < N) :
    (sfrRects renderSize N first (secondDeviceID N first)).length = N * N ∧
    (first * N + first < N * N ∧ first * N + secondDeviceID N first < N * N ∧
      secondDeviceID N first * N + first < N * N ∧
      secondDeviceID N first * N + secondDeviceID N first < N * N) ∧
    (∀ i, i = first ∨ i = secondDeviceID N first →
      (∀ x y : Int, (0 ≤ x ∧ x < 256 ∧ 0 ≤ y ∧ y < 256) ↔
        ∃ j, j < N ∧
          (rectAt (sfrRects renderSize N first (secondDeviceID N first)) (i * N + j)).covers x y) ∧
      (∀ j1 j2, j1 < N → j2 < N → j1 ≠ j2 → ∀ x y : Int,
        ¬ ((rectAt (sfrRects renderSize N first (secondDeviceID N first)) (i * N + j1)).covers x y ∧
          (rectAt (sfrRects renderSize N first (secondDeviceID N first)) (i * N + j2)).covers x y))) ∧
    (∀ i, i < N → i ≠ first → i ≠ secondDeviceID N first → ∀ j, j < N →
      rectAt (sfrRects renderSize N first (secondDeviceID N first)) (i * N + j) = zeroRect) := by
  have hs := secondDeviceID_lt N first hN
  have hNle : N ≤ N * N := Nat.le_mul_of_pos_left N (by omega)
  by_cases h1 : N = 1
  · subst h1
    have hf0 : first = 0 := by omega
    subst hf0
    have hs0 : secondDeviceID 1 0 = 0 := by decide
    rw [hs0, sfrRects_single]
    refine ⟨rfl, by decide, ?_, ?_⟩
    · intro i hi
      have hi0 : i = 0 := by omega
      subst hi0
      constructor
      · intro x y
        constructor
        · intro hxy
          refine ⟨0, by decide, ?_⟩
          simp only [rectAt, VkRect2D.covers]
          simp
          omega
        · rintro ⟨j, hj, hc⟩
          have hj0 : j = 0 := by omega
          subst hj0
          simp only [rectAt, VkRect2D.covers] at hc
          simp at hc
          omega
      · intro j1 j2 h1 h2 hne
        omega
    · intro i hi hne
      omega
  · have hN2 : 2 ≤ N := by omega
    have hfs := secondDeviceID_ne N first hN2 (by omega) hfirst
    generalize secondDeviceID N first = s at hs hfs ⊢
    have hlen := (sfrRects_split renderSize N first s h1 hNN hfirst hs hfs).1
    refine ⟨hlen, ⟨cellIndex_lt N first first hfirst hfirst, cellIndex_lt N first s hfirst hs,
      cellIndex_lt N s first hs hfirst, cellIndex_lt N s s hs hs⟩, ?_, ?_⟩
    · intro i hi
      have hiN : i < N := by rcases hi with rfl | rfl <;> assumption
      have hrow : ∀ j, j < N → rectAt (sfrRects renderSize N first s) (i * N + j) =
          (if j = first then leftHalfRect else if j = s then rightHalfRect else zeroRect) := by
        intro j hj
        rw [sfrRects_row N first s i j hN2 hNN hfirst hs hfs hiN hj, if_pos hi]
      constructor
      · intro x y
        constructor
        · intro hxy
          by_cases hx : x < 128
          · refine ⟨first, hfirst, ?_⟩
            rw [hrow first hfirst, if_pos rfl]
            simp only [VkRect2D.covers, leftHalfRect]
            simp
            omega
          · refine ⟨s, hs, ?_⟩
            rw [hrow s hs, if_neg hfs, if_pos rfl]
            simp only [VkRect2D.covers, rightHalfRect]
            simp
            omega
        · rintro ⟨j, hj, hc⟩
          rw [hrow j hj] at hc
          split at hc
          · simp only [VkRect2D.covers, leftHalfRect] at hc
            simp at hc
            omega
          · split at hc
            · simp only [VkRect2D.covers, rightHalfRect] at hc
              simp at hc
              omega
            · simp only [VkRect2D.covers, zeroRect] at hc
              simp at hc
              omega
      · intro j1 j2 hj1 hj2 hne x y
        rw [hrow j1 hj1, hrow j2 hj2]
        rintro ⟨c1, c2⟩
        split at c1 <;> split at c2 <;> (try split at c1) <;> (try split at c2) <;>
          simp only [VkRect2D.covers, leftHalfRect, rightHalfRect, zeroRect] at c1 c2 <;>
          simp at c1 c2 <;> omega
    · intro i hi hne1 hne2 j hj
      rw [sfrRects_row N first s i j hN2 hNN hfirst hs hfs hi hj]
      simp [hne1, hne2]

/-- C23 (amended) on three devices, pair `(0, 1)`: nine entries, and the row of
device 2 is empty in column 0. -/
theorem sfrRects_rows_of_pair_tile_witness :
    (sfrRects renderSize 3 0 (secondDeviceID 3 0)).length = 3 * 3 ∧
    rectAt (sfrRects renderSize 3 0 (secondDeviceID 3 0)) (2 * 3 + 0) = zeroRect :=
  ⟨(sfrRects_rows_of_pair_tile 3 0 (by decide) (by decide) (by decide)).1,
   (sfrRects_rows_of_pair_tile 3 0 (by decide) (by decide) (by decide)).2.2.2 2
     (by decide) (by decide) (by decide) 0 (by decide)⟩

/-- The filling loop `deviceIndices[i] = i` run for its first `m` rounds. -/
theorem fillIndices_getElem? (m : Nat) (v : List Nat) (hm : m ≤ v.length) :
    ((List.range m).foldl (fun v i => v.set i i) v).length = v.length ∧
    ∀ j, ((List.range m).foldl (fun v i => v.set i i) v)[j]? =
      if j < m then some j else v[j]? := by
  induction m with
  | zero => simp
  | succ m ih =>
    obtain ⟨hlen, hget⟩ := ih (by omega)
    rw [List.range_succ, List.foldl_append]
    simp only [List.foldl_cons, List.foldl_nil, List.length_set]
    refine ⟨hlen, ?_⟩
    intro j
    rw [List.getElem?_set, hget j, hlen]
    by_cases h1 : m = j
    · subst h1
      have h2 : m < v.length := by omega
      simp [h2]
    · by_cases h2 : j < m
      · have h3 : j < m + 1 := by omega
        simp [h1, h2, h3]
      · have h3 : ¬ j < m + 1 := by omega
        simp [h1, h2, h3]

/-- Every entry of `deviceIndices`: the swap of `f` and `s`. -/
theorem deviceIndices_getElem? (N f s : Nat) (hf : f < N) (hs : s < N) :
    (deviceIndices N f s).length = N ∧
    ∀ i, (deviceIndices N f s)[i]? =
      if i < N then some (if i = s then f else if i = f then s else i) else none := by
  have hfill := fillIndices_getElem? N (List.replicate N 0) (by simp)
  obtain ⟨hlen, hget⟩ := hfill
  rw [List.length_replicate] at hlen
  unfold deviceIndices
  simp only [List.length_set]
  refine ⟨hlen, ?_⟩
  intro i
  rw [List.getElem?_set, List.getElem?_set, hget i]
  simp only [List.length_set, hlen]
  by_cases h1 : s = i
  · subst h1
    simp [hs]
  · have h1r : ¬ i = s := fun h => h1 h.symm
    by_cases h2 : f = i
    · subst h2
      simp [h1, h1r, hf]
    · have h2r : ¬ i = f := fun h => h2 h.symm
      by_cases h3 : i < N
      · simp [h1, h2, h1r, h2r, h3]
      · simp [h1, h2, h1r, h2r, h3, List.getElem?_replicate]

/-- The table `deviceIndices` rearranges `0, …, N - 1`. -/
theorem deviceIndices_perm (N f s : Nat) (hf : f < N) (hs : s < N) :
    (deviceIndices N f s).Perm (List.range N) := by
  obtain ⟨hlen, hget⟩ := deviceIndices_getElem? N f s hf hs
  have hmap : deviceIndices N f s =
      (List.range N).map (fun i => if i = s then f else if i = f then s else i) := by
    apply List.ext_getElem?
    intro i
    rw [hget i, List.getElem?_map]
    by_cases h : i < N
    · rw [List.getElem?_range h]
      simp [h]
    · rw [List.getElem?_eq_none (by simpa using h)]
      simp [h]
  rw [hmap]
  apply List.Subperm.perm_of_length_le
  · apply List.subperm_of_subset
    · apply List.Nodup.map_on _ (List.nodup_range N)
      intro a _ b _ hab
      split at hab <;> split at hab <;> (try split at hab) <;> (try split at hab) <;> omega
    · intro d hd
      rw [List.mem_map] at hd
      obtain ⟨a, ha, rfl⟩ := hd
      rw [List.mem_range] at ha ⊢
      split
      · exact hf
      · split
        · exact hs
        · exact ha
  · simp

/-- The entries of `deviceIndices`: `f` and `s` are exchanged, every other index
is kept, and looking up twice gives the index back. -/
theorem deviceIndices_entries (N f s : Nat) (hf : f < N) (hs : s < N) :
    (deviceIndices N f s)[f]? = some s ∧
    (deviceIndices N f s)[s]? = some f ∧
    (∀ i, i < N → i ≠ f → i ≠ s → (deviceIndices N f s)[i]? = some i) ∧
    (∀ i, i < N → ∃ j, j < N ∧ (deviceIndices N f s)[i]? = some j ∧
      (deviceIndices N f s)[j]? = some i) := by
  obtain ⟨_, hget⟩ := deviceIndices_getElem? N f s hf hs
  have e1 : (deviceIndices N f s)[f]? = some s := by
    rw [hget f]
    by_cases h : f = s
    · simp [hs, h]
    · simp [hf, h]
  have e2 : (deviceIndices N f s)[s]? = some f := by
    rw [hget s]
    simp [hs]
  have e3 : ∀ i, i < N → i ≠ f → i ≠ s → (deviceIndices N f s)[i]? = some i := by
    intro i hi h1 h2
    rw [hget i]
    simp [hi, h1, h2]
  refine ⟨e1, e2, e3, ?_⟩
  intro i hi
  by_cases h1 : i = s
  · subst h1
    exact ⟨f, hf, e2, e1⟩
  · by_cases h2 : i = f
    · subst h2
      exact ⟨s, hs, e1, e2⟩
    · exact ⟨i, hi, e3 i hi h2 h1, e3 i hi h2 h1⟩

/-- C24: for `N ≥ 1` devices and `first < N`, the table `deviceIndices` has length
`N` and is a permutation of `[0, N)` that maps `first` to `second` and `second` to
`first`, leaves every other index fixed and is its own inverse; it is the
`pDeviceIndices` table of the peer-image binding (made when `N > 1`) and, in
peer-fetch mode, of the four buffer bindings. -/
theorem deviceIndices_swap_permutation (self : DeviceGroupTestInstance) (first : Nat)
    (hN : 1 ≤ self.m_physicalDeviceCount) (hfirst : first < self.m_physicalDeviceCount) :
    (deviceIndices self.m_physicalDeviceCount first
      (secondDeviceID self.m_physicalDeviceCount first)).length = self.m_physicalDeviceCount ∧
    (deviceIndices self.m_physicalDeviceCount first
      (secondDeviceID self.m_physicalDeviceCount first)).Perm
        (List.range self.m_physicalDeviceCount) ∧
    (deviceIndices self.m_physicalDeviceCount first
      (secondDeviceID self.m_physicalDeviceCount first))[first]?
        = some (secondDeviceID self.m_physicalDeviceCount first) ∧
    (deviceIndices self.m_physicalDeviceCount first
      (secondDeviceID self.m_physicalDeviceCount first))[
        secondDeviceID self.m_physicalDeviceCount first]? = some first ∧
    (∀ i, i < self.m_physicalDeviceCount → i ≠ first →
      i ≠ secondDeviceID self.m_physicalDeviceCount first →
      (deviceIndices self.m_physicalDeviceCount first
        (secondDeviceID self.m_physicalDeviceCount first))[i]? = some i) ∧
    (∀ i, i < self.m_physicalDeviceCount → ∃ j, j < self.m_physicalDeviceCount ∧
      (deviceIndices self.m_physicalDeviceCount first
        (secondDeviceID self.m_physicalDeviceCount first))[i]? = some j ∧
      (deviceIndices self.m_physicalDeviceCount first
        (secondDeviceID self.m_physicalDeviceCount first))[j]? = some i) ∧
    (1 < self.m_physicalDeviceCount →
      ∃ b ∈ memoryBindings self first (secondDeviceID self.m_physicalDeviceCount first),
        b.resource = .peerImage ∧ b.memory = .imageMemory ∧
        b.deviceIndices = deviceIndices self.m_physicalDeviceCount first
          (secondDeviceID self.m_physicalDeviceCount first)) ∧
    (self.m_usePeerFetch = true →
      ∀ b ∈ memoryBindings self first (secondDeviceID self.m_physicalDeviceCount first),
        b.resource ∈ [Resource.vertexBuffer, Resource.indexBuffer, Resource.uniformBuffer,
          Resource.sboBuffer] →
        b.deviceIndices = deviceIndices self.m_physicalDeviceCount first
          (secondDeviceID self.m_physicalDeviceCount first)) := by
  have hs := secondDeviceID_lt self.m_physicalDeviceCount first hN
  obtain ⟨hlen, _⟩ := deviceIndices_getElem? self.m_physicalDeviceCount first
    (secondDeviceID self.m_physicalDeviceCount first) hfirst hs
  obtain ⟨e1, e2, e3, e4⟩ := deviceIndices_entries self.m_physicalDeviceCount first
    (secondDeviceID self.m_physicalDeviceCount first) hfirst hs
  refine ⟨hlen, deviceIndices_perm _ first _ hfirst hs, e1, e2, e3, e4, ?_, ?_⟩
  · intro h1
    refine ⟨⟨.peerImage, .imageMemory, deviceIndices self.m_physicalDeviceCount first
      (secondDeviceID self.m_physicalDeviceCount first), []⟩, ?_, rfl, rfl, rfl⟩
    simp [memoryBindings, h1]
  · intro hpf b hb hr
    simp only [memoryBindings, hpf, if_true, List.mem_append, List.mem_cons,
      List.mem_singleton, List.not_mem_nil, or_false] at hb
    rcases hb with (rfl | rfl | rfl | rfl | rfl | rfl) | hb
    · rfl
    · rfl
    · rfl
    · rfl
    · simp at hr
    · simp at hr
    · split at hb
      · simp only [List.mem_singleton] at hb
        subst hb
        rfl
      · simp at hb

/-- C24 on three devices, pair `(2, 0)`: the table is `[2, 1, 0]`. -/
theorem deviceIndices_swap_permutation_witness :
    (deviceIndices 3 2 (secondDeviceID 3 2)).length = 3 ∧
    (deviceIndices 3 2 (secondDeviceID 3 2)).Perm (List.range 3) ∧
    deviceIndices 3 2 (secondDeviceID 3 2) = [2, 1, 0] :=
  ⟨(deviceIndices_swap_permutation (DeviceGroupTestInstance.withGroup TEST_MODE_AFR 3 true) 2
      (by decide) (by decide)).1,
   (deviceIndices_swap_permutation (DeviceGroupTestInstance.withGroup TEST_MODE_AFR 3 true) 2
      (by decide) (by decide)).2.1,
   by decide⟩

/-- C25 as stated fails: the readback copy reads `readImage`, which is not the
peer image handle that the cross-device copy writes to. -/
theorem readback_source_counterexample :
    ¬ ((readbackCopy renderSize).srcImage =
      (peerCopy renderSize (DeviceGroupTestInstance.withGroup TEST_MODE_SFR 2 true)).dstImage) := by
  decide

/-- C25, amended: for `1 < N ≤ 32` devices and a pair `first < N`, the readback
step, submitted with device mask `{first}`, copies from `readImage`, an image
handle bound to the same allocation `imageMemory` as the render image and as the
peer image that the preceding cross-device copy wrote to, into the readback
buffer, at buffer offset 0 with row length 256 and image height 256, over the
full extent 256x256 from image offset 0; the buffer is created with exactly
`4 * 256 * 256` bytes. -/
theorem readback_copy_from_readImage (self : DeviceGroupTestInstance) (first : Nat)
    (hN : 1 < self.m_physicalDeviceCount) (hN32 : self.m_physicalDeviceCount ≤ 32)
    (hfirst : first < self.m_physicalDeviceCount) :
    maskDevices (readbackSubmitDeviceMask first) = {first} ∧
    (readbackCopy renderSize).srcImage = .readImage ∧
    (readbackCopy renderSize).dstBuffer = .readImageBuffer ∧
    (peerCopy renderSize self).srcImage = .renderImage ∧
    (peerCopy renderSize self).dstImage = .peerImage ∧
    (∀ r, r ∈ [Resource.renderImage, Resource.readImage, Resource.peerImage] →
      ∃ b ∈ memoryBindings self first (secondDeviceID self.m_physicalDeviceCount first),
        b.resource = r ∧ b.memory = .imageMemory) ∧
    (readbackCopy renderSize).region = ⟨0, 256, 256, ⟨0, 0, 0⟩, ⟨256, 256, 1⟩⟩ ∧
    bufferCreateSize self .readImageBuffer = some (4 * 256 * 256) := by
  refine ⟨maskDevices_shl1 first (by omega), rfl, rfl, rfl, rfl, ?_, by decide, ?_⟩
  swap
  · show some (imageSizeBytes renderSize) = some (4 * 256 * 256)
    decide
  intro r hr
  simp only [List.mem_cons, List.mem_singleton, List.not_mem_nil, or_false] at hr
  rcases hr with rfl | rfl | rfl <;> simp [memoryBindings, hN]

/-- C25 (amended) at a two-device group, pair `(0, 1)`. -/
theorem readback_copy_from_readImage_witness :
    maskDevices (readbackSubmitDeviceMask 0) = {0} ∧
    (readbackCopy renderSize).srcImage = .readImage ∧
    bufferCreateSize (DeviceGroupTestInstance.withGroup TEST_MODE_SFR 2 true) .readImageBuffer
      = some (4 * 256 * 256) :=
  ⟨(readback_copy_from_readImage (DeviceGroupTestInstance.withGroup TEST_MODE_SFR 2 true) 0
      (by decide) (by decide) (by decide)).1,
   (readback_copy_from_readImage (DeviceGroupTestInstance.withGroup TEST_MODE_SFR 2 true) 0
      (by decide) (by decide) (by decide)).2.1,
   (readback_copy_from_readImage (DeviceGroupTestInstance.withGroup TEST_MODE_SFR 2 true) 0
      (by decide) (by decide) (by decide)).2.2.2.2.2.2.2⟩

/-! ## Registered cases, symmetry, monotonicity, upload barriers, selector 0 -/

/-- C26: each of the 12 registered test cases has exactly one of the SFR and AFR
mode bits set, the SFR bit exactly when its name begins with "sfr" and the AFR
bit exactly when its name begins with "afr"; the 12 names are pairwise distinct. -/
theorem registeredCases_sfr_xor_afr :
    registeredCases.length = 12 ∧
    (∀ c ∈ registeredCases,
      ((c.2 &&& TEST_MODE_SFR ≠ 0 ∧ c.2 &&& TEST_MODE_AFR = 0) ∨
        (c.2 &&& TEST_MODE_SFR = 0 ∧ c.2 &&& TEST_MODE_AFR ≠ 0)) ∧
      (c.2 &&& TEST_MODE_SFR ≠ 0 ↔ beginsWith "sfr" c.1) ∧
      (c.2 &&& TEST_MODE_AFR ≠ 0 ↔ beginsWith "afr" c.1)) ∧
    (registeredCases.map Prod.fst).Nodup := by
  refine ⟨by decide, by decide, by decide⟩

/-- C27: `isPeerFetchAllowed` is symmetric in its two device arguments, for every
memory type index and every answer of the driver. -/
theorem isPeerFetchAllowed_symmetric (vk : Driver) (self : DeviceGroupTestInstance)
    (memoryTypeIndex a b : Nat) :
    isPeerFetchAllowed vk self memoryTypeIndex a b =
      isPeerFetchAllowed vk self memoryTypeIndex b a := by
  simp only [isPeerFetchAllowed]
  exact Bool.and_comm _ _

/-- The loop of `getMemoryIndex` never returns an index before its start. -/
theorem getMemoryIndexLoop_ge (p : VkPhysicalDeviceMemoryProperties) (bits flag : Nat) :
    ∀ (todo ndx i : Nat), getMemoryIndexLoop p bits flag todo ndx = .ok i → ndx ≤ i := by
  intro todo
  induction todo with
  | zero =>
    intro ndx i h
    simp [getMemoryIndexLoop] at h
  | succ todo ih =>
    intro ndx i h
    rw [getMemoryIndexLoop] at h
    split at h
    · injection h with h
      omega
    · have := ih (ndx + 1) i h
      omega

/-- Requesting fewer flags makes the loop of `getMemoryIndex` return, and no
later than before. -/
theorem getMemoryIndexLoop_mono (p : VkPhysicalDeviceMemoryProperties) (bits flag flag2 : Nat)
    (hsub : ∀ k, flag2.testBit k = true → flag.testBit k = true) :
    ∀ (todo ndx i : Nat), getMemoryIndexLoop p bits flag todo ndx = .ok i →
      ∃ i2, getMemoryIndexLoop p bits flag2 todo ndx = .ok i2 ∧ i2 ≤ i := by
  intro todo
  induction todo with
  | zero =>
    intro ndx i h
    simp [getMemoryIndexLoop] at h
  | succ todo ih =>
    intro ndx i h
    have hge := getMemoryIndexLoop_ge p bits flag _ _ _ h
    rw [getMemoryIndexLoop] at h
    by_cases hc2 : (bits &&& shl1u ndx) ≠ 0 ∧
        ((p.memoryTypes ndx).propertyFlags &&& flag2) = flag2
    · refine ⟨ndx, ?_, hge⟩
      rw [getMemoryIndexLoop, if_pos hc2]
    · split at h
      · rename_i hc
        exfalso
        apply hc2
        refine ⟨hc.1, ?_⟩
        rw [land_eq_iff_subset] at hc ⊢
        exact fun k hk => hc.2 k (hsub k hk)
      · obtain ⟨i2, h2, hle⟩ := ih (ndx + 1) i h
        refine ⟨i2, ?_, hle⟩
        rw [getMemoryIndexLoop, if_neg hc2]
        exact h2

/-- C28: `getMemoryIndex` is monotone in the requested property flags: if it
returns `i` for the flags `F`, then for every subset `F2` of `F` it returns an
index too, and that index is at most `i`. -/
theorem getMemoryIndex_monotone (deviceMemProps : VkPhysicalDeviceMemoryProperties)
    (memoryTypeBits F F2 i : Nat)
    (hsub : ∀ k, F2.testBit k = true → F.testBit k = true)
    (hret : getMemoryIndex deviceMemProps memoryTypeBits F = .ok i) :
    ∃ i2, getMemoryIndex deviceMemProps memoryTypeBits F2 = .ok i2 ∧ i2 ≤ i :=
  getMemoryIndexLoop_mono deviceMemProps memoryTypeBits F F2 hsub _ _ _ hret

/-- C28 on the sample table: with mask `0b110`, the flags `0x3` select type 2 and
their subset `0x2` selects type 1. -/
theorem getMemoryIndex_monotone_witness :
    getMemoryIndex sampleMemProps 6 3 = .ok 2 ∧ getMemoryIndex sampleMemProps 6 2 = .ok 1 ∧
    ∃ i2, getMemoryIndex sampleMemProps 6 2 = .ok i2 ∧ i2 ≤ 2 :=
  ⟨rfl, rfl, getMemoryIndex_monotone sampleMemProps 6 3 2 2 (by
      intro k hk
      have h2 : (2 : Nat) = 2 ^ 1 := rfl
      have h3 : (3 : Nat) = 2 ^ 2 - 1 := rfl
      rw [h2, Nat.testBit_two_pow] at hk
      rw [h3, Nat.testBit_two_pow_sub_one]
      simp only [decide_eq_true_eq] at hk ⊢
      omega) rfl⟩

/-- C29, the code at both scenes: the barrier `stagingUboBufferUpdateBarrier` names
the staging uniform buffer, created with 16 bytes, with the size `indicesSize`:
12 bytes for the triangle (shorter than the buffer) and 96 bytes for the
tessellated sphere (past its end). Every other upload barrier has offset 0 and
the creation size of its buffer. -/
theorem uploadBarriers_staging_uniform_size :
    bufferCreateSize (DeviceGroupTestInstance.construct TEST_MODE_SFR) .stagingUniformBuffer
      = some 16 ∧
    (⟨.stagingUniformBuffer, 0, 12⟩ : VkBufferMemoryBarrier)
      ∈ uploadBarriers (DeviceGroupTestInstance.construct TEST_MODE_SFR) ∧
    bufferCreateSize (DeviceGroupTestInstance.construct (TEST_MODE_SFR ||| TEST_MODE_TESSELLATION))
      .stagingUniformBuffer = some 16 ∧
    (⟨.stagingUniformBuffer, 0, 96⟩ : VkBufferMemoryBarrier)
      ∈ uploadBarriers (DeviceGroupTestInstance.construct
          (TEST_MODE_SFR ||| TEST_MODE_TESSELLATION)) ∧
    (∀ self : DeviceGroupTestInstance, ∀ b ∈ uploadBarriers self,
      b.offset = 0 ∧
      (b.buffer ≠ .stagingUniformBuffer → bufferCreateSize self b.buffer = some b.size)) := by
  refine ⟨by decide, by decide, by decide, by decide, ?_⟩
  intro self b hb
  rw [uploadBarriers, List.mem_append] at hb
  rcases hb with hb | hb
  · simp only [List.mem_cons, List.mem_singleton, List.not_mem_nil, or_false] at hb
    rcases hb with rfl | rfl | rfl | rfl | rfl | rfl <;> simp [bufferCreateSize]
  · split at hb
    · simp only [List.mem_cons, List.mem_singleton, List.not_mem_nil, or_false] at hb
      rcases hb with rfl | rfl <;> simp [bufferCreateSize]
    · simp at hb

/-- C30, the code at the selector 0: the range check `(size_t) 0 > properties.size ()`
does not fire, and `init` goes on to read `properties[0 - 1]`, outside the two
enumerated groups. -/
theorem init_selector_zero_reads_out_of_range :
    ¬ (toSizeT 0 > [sampleGroup 2, sampleGroup 2].length) ∧
    toSizeT (0 - 1) = 2 ^ 64 - 1 ∧
    [sampleGroup 2, sampleGroup 2][toSizeT (0 - 1)]?.isNone = true ∧
    init (sampleContext [sampleGroup 2, sampleGroup 2] 0 ⟨true, true⟩) TEST_MODE_SFR
      = .error .undefinedRead :=
  ⟨by decide, by decide, by decide, rfl⟩

end DeviceGroup
